import Mathlib

/-!
# HackRF streaming pipeline: host transfer pool and device buffer manager

A shallow embedding of `host/libhackrf/src/hackrf.c` and of the interrupt
handler of `firmware/usb_performance/usb_performance.c`.

Conventions of the embedding

* C pointers are natural numbers (addresses), `0` being `NULL`; a pointer to a
  struct whose fields the code reads is collapsed to `Option` of the struct
  (`none` being `NULL`), the struct remembering its own address in `addr`.
* The C functions mutate the device and call into libusb, libc and pthreads.
  The mutated device is returned, and the calls into the outside world are
  recorded in a `World` (heap blocks alive, submissions, control requests,
  threads).  What the outside world answers is read from an `Env` of oracles,
  indexed by the number of the call, so that every pattern of failures is
  covered by quantifying over `Env`.
-/

namespace HackRF

/-! ## Types declared in `hackrf.h` and `libusb.h` -/

/-- Modelled from the spec: `enum hackrf_error` of `hackrf.h` (not part of the
sources at hand); the constructors are the names listed by `hackrf_error_name`,
and the error taxonomy of the specification (InvalidParameter, NotFound, Busy,
OutOfMemory, TransportError, ThreadError). -/
inductive hackrf_error where
  | HACKRF_SUCCESS
  | HACKRF_ERROR_INVALID_PARAM
  | HACKRF_ERROR_NOT_FOUND
  | HACKRF_ERROR_BUSY
  | HACKRF_ERROR_NO_MEM
  | HACKRF_ERROR_LIBUSB
  | HACKRF_ERROR_THREAD
  | HACKRF_ERROR_OTHER
  deriving DecidableEq, Repr

open hackrf_error

/-- The completion status of a transfer, `enum libusb_transfer_status`. -/
inductive libusb_transfer_status where
  | LIBUSB_TRANSFER_COMPLETED
  | LIBUSB_TRANSFER_ERROR
  | LIBUSB_TRANSFER_TIMED_OUT
  | LIBUSB_TRANSFER_CANCELLED
  | LIBUSB_TRANSFER_STALL
  | LIBUSB_TRANSFER_NO_DEVICE
  | LIBUSB_TRANSFER_OVERFLOW
  deriving DecidableEq, Repr

open libusb_transfer_status

/-- The completion callbacks a transfer can carry: `NULL` (as filled in by
`allocate_transfers`) or the dispatcher `hackrf_libusb_transfer_callback`,
the only function of that type in the library. -/
inductive libusb_transfer_cb_fn where
  | NULL
  | hackrf_libusb_transfer_callback
  deriving DecidableEq, Repr

/-- The fields of `struct libusb_transfer` that the library reads or writes
(`type`, `timeout` and the isochronous fields are written once by
`libusb_fill_bulk_transfer` and read by nothing in `hackrf.c`).  `addr` is the
address of the handle, `buffer` the address of its data buffer (`0` is `NULL`),
`user_data` the address of the owning device. -/
structure libusb_transfer where
  addr : Nat
  dev_handle : Nat
  flags : Nat
  endpoint : Nat
  status : libusb_transfer_status
  length : Int
  actual_length : Int
  callback : libusb_transfer_cb_fn
  user_data : Nat
  buffer : Nat
  deriving DecidableEq, Repr

/-- The view of a completed transfer handed to the user sink
(`hackrf_transfer` of `hackrf.h`, built field by field in the dispatcher). -/
structure hackrf_transfer where
  device : Nat
  buffer : Nat
  buffer_length : Int
  valid_length : Int
  deriving DecidableEq, Repr

/-- The array `device->transfers` points to: its own address and its slots,
each `NULL` (`none`) or a transfer handle. -/
structure TransferArray where
  addr : Nat
  slots : List (Option libusb_transfer)
  deriving DecidableEq, Repr

/-- The device handle, `struct hackrf_device`.  `addr` is the address of the
struct itself; `callback` is the address of the user sink (`0` is `NULL`);
`transfer_thread` is the `pthread_t` of the event pump (`0` when there is none). -/
structure hackrf_device where
  addr : Nat
  usb_device : Nat
  transfers : Option TransferArray
  callback : Nat
  transfer_thread : Nat
  transfer_count : Nat
  buffer_size : Nat
  streaming : Bool
  deriving DecidableEq, Repr

/-! ## The outside world -/

/-- What a heap block was allocated for. -/
inductive BlockKind where
  | device
  | pool
  | handle
  | buffer
  deriving DecidableEq, Repr

/-- The heap: the number of allocation requests made so far and the blocks
that were handed out and not yet freed. -/
structure Heap where
  requests : Nat
  live : List (BlockKind × Nat)
  deriving DecidableEq, Repr

/-- The answers of the outside world.  `alloc_ok n` tells whether the `n`-th
allocation request succeeds, `submit_result n` is what the `n`-th call of
`libusb_submit_transfer` returns, `control_result n` what the `n`-th call of
`libusb_control_transfer` returns, `pthread_create_result n` what the `n`-th
call of `pthread_create` returns, `sink f t` is the value the user function
at address `f` returns on the view `t`, `open_device` is the handle returned by
`libusb_open_device_with_vid_pid` (`0` when no device is found), the next two
are the results of `libusb_set_configuration` and `libusb_claim_interface`,
`pthread_join_result n` is what the `n`-th call of `pthread_join` returns,
`release_interface_result` what `libusb_release_interface` returns, and
`control_data n` the bytes the device sends in the data stage of the `n`-th
control request. -/
structure Env where
  alloc_ok : Nat → Bool
  submit_result : Nat → Int
  control_result : Nat → Int
  pthread_create_result : Nat → Int
  sink : Nat → hackrf_transfer → Int
  open_device : Nat
  set_configuration_result : Int
  claim_interface_result : Int
  pthread_join_result : Nat → Int
  release_interface_result : Int
  control_data : Nat → List Nat

/-- A control request as passed to `libusb_control_transfer`. -/
structure ControlRequest where
  request_type : Nat
  request : Nat
  value : Nat
  index : Nat
  deriving DecidableEq, Repr

/-- The record of the calls made to the outside world: the heap, every call of
`libusb_submit_transfer` (address of the transfer, result) oldest first, every
control request, every call of the user sink, the number of `pthread_create`
calls, the threads that were created and not joined, the libusb device handles
that are open, those whose interface 0 is claimed, and the number of
`pthread_join` calls. -/
structure World where
  heap : Heap
  submits : List (Nat × Int)
  controls : List ControlRequest
  sink_calls : List (Nat × hackrf_transfer)
  thread_requests : Nat
  threads : List Nat
  usb_open : List Nat
  usb_claimed : List Nat
  join_requests : Nat
  deriving DecidableEq, Repr

/-- The transfers that libusb accepted: the submissions that returned `0`. -/
def World.in_flight (w : World) : List Nat :=
  (w.submits.filter (fun s => s.2 = 0)).map Prod.fst

/-- One allocation request (`malloc`, `calloc`, `libusb_alloc_transfer`): a
fresh non-null address when the oracle lets it succeed, `0` otherwise. -/
def Heap.alloc (env : Env) (k : BlockKind) (h : Heap) : Nat × Heap :=
  if env.alloc_ok h.requests then
    (h.requests + 1, { requests := h.requests + 1, live := (k, h.requests + 1) :: h.live })
  else
    (0, { h with requests := h.requests + 1 })

/-- The call `free(p)` of a block of kind `k`. -/
def Heap.free (k : BlockKind) (p : Nat) (h : Heap) : Heap :=
  { h with live := h.live.erase (k, p) }

/-- The number of live blocks of a kind. -/
def Heap.count (k : BlockKind) (h : Heap) : Nat :=
  (h.live.filter (fun b => b.1 = k)).length

/-- The call `libusb_submit_transfer(t)`: the call is logged with its result. -/
def libusb_submit_transfer (env : Env) (t : libusb_transfer) (w : World) : Int × World :=
  let r := env.submit_result w.submits.length
  (r, { w with submits := w.submits ++ [(t.addr, r)] })

/-! ## `hackrf.c`: the completion dispatcher -/

/-- The function `hackrf_libusb_transfer_callback`.  `device` is the struct
`usb_transfer->user_data` points to.  On status `COMPLETED` the view is built
and the sink `device->callback` is called (`none`: the call goes through a
`NULL` function pointer); when the sink returns `0` the transfer is submitted
again, the result of that submission is dropped and the function returns; in
every other case `device->streaming` is set to `false`. -/
def hackrf_libusb_transfer_callback (env : Env) (usb_transfer : libusb_transfer)
    (device : hackrf_device) (w : World) : Option (hackrf_device × World) :=
  if usb_transfer.status = LIBUSB_TRANSFER_COMPLETED then
    let transfer : hackrf_transfer :=
      { device := device.addr
        buffer := usb_transfer.buffer
        buffer_length := usb_transfer.length
        valid_length := usb_transfer.actual_length }
    if device.callback = 0 then none
    else
      let w1 := { w with sink_calls := w.sink_calls ++ [(device.callback, transfer)] }
      if env.sink device.callback transfer = 0 then
        some (device, (libusb_submit_transfer env usb_transfer w1).2)
      else
        some ({ device with streaming := false }, w1)
  else
    some ({ device with streaming := false }, w)

/-! ## `hackrf.c`: the transfer pool -/

/-- The flag `LIBUSB_TRANSFER_FREE_BUFFER` of `libusb.h` (bit 1). -/
def LIBUSB_TRANSFER_FREE_BUFFER : Nat := 2

/-- The call `libusb_alloc_transfer(0)`: one allocation request; the handle
comes back zeroed (status `0` is `LIBUSB_TRANSFER_COMPLETED`), `none` is `NULL`. -/
def libusb_alloc_transfer (env : Env) (h : Heap) : Option libusb_transfer × Heap :=
  let r := h.alloc env BlockKind.handle
  if r.1 = 0 then (none, r.2)
  else
    (some { addr := r.1, dev_handle := 0, flags := 0, endpoint := 0
            status := LIBUSB_TRANSFER_COMPLETED, length := 0, actual_length := 0
            callback := libusb_transfer_cb_fn.NULL, user_data := 0, buffer := 0 }, r.2)

/-- The inline helper `libusb_fill_bulk_transfer` of `libusb.h`: it stores its
arguments in the handle and leaves `flags` and `status` alone. -/
def libusb_fill_bulk_transfer (t : libusb_transfer) (dev_handle endpoint buffer : Nat)
    (length : Int) (callback : libusb_transfer_cb_fn) (user_data : Nat) : libusb_transfer :=
  { t with dev_handle := dev_handle, endpoint := endpoint % 256, buffer := buffer
           length := length, callback := callback, user_data := user_data }

/-- The call `libusb_free_transfer(t)`: the handle is freed, and its buffer too
when the handle carries `LIBUSB_TRANSFER_FREE_BUFFER` and the buffer is not `NULL`. -/
def libusb_free_transfer (t : libusb_transfer) (h : Heap) : Heap :=
  let h1 := if t.flags &&& LIBUSB_TRANSFER_FREE_BUFFER ≠ 0 ∧ t.buffer ≠ 0
    then h.free BlockKind.buffer t.buffer else h
  h1.free BlockKind.handle t.addr

/-- The loop of `free_transfers`, `n` iterations from index `i`; `none` when
the loop reads past the end of the array. -/
def free_transfers_loop : Nat → Nat → List (Option libusb_transfer) → Heap →
    Option (List (Option libusb_transfer) × Heap)
  | 0, _, slots, h => some (slots, h)
  | n + 1, i, slots, h =>
    match slots.get? i with
    | some (some t) => free_transfers_loop n (i + 1) (slots.set i none) (libusb_free_transfer t h)
    | some none => free_transfers_loop n (i + 1) slots h
    | none => none

/-- The function `free_transfers`: when the pool pointer is not `NULL`, every
non-null handle is passed to `libusb_free_transfer`, the array is freed and the
pointer is set to `NULL`; the result is always `HACKRF_SUCCESS`. -/
def free_transfers (device : hackrf_device) (w : World) :
    Option (hackrf_error × hackrf_device × World) :=
  match device.transfers with
  | some arr =>
    match free_transfers_loop device.transfer_count 0 arr.slots w.heap with
    | some (_, h) =>
      some (HACKRF_SUCCESS, { device with transfers := none },
        { w with heap := h.free BlockKind.pool arr.addr })
    | none => none
  | none => some (HACKRF_SUCCESS, device, w)

/-- The loop of `allocate_transfers`, `n` iterations from index `i`: a handle is
requested and stored in slot `i` (return `HACKRF_ERROR_LIBUSB` when it is
`NULL`), then filled with a freshly requested buffer of `buffer_size` bytes
(return `HACKRF_ERROR_NO_MEM` when the buffer is `NULL`). -/
def allocate_transfers_loop (env : Env) (device : hackrf_device) :
    Nat → Nat → List (Option libusb_transfer) → Heap →
    hackrf_error × List (Option libusb_transfer) × Heap
  | 0, _, slots, h => (HACKRF_SUCCESS, slots, h)
  | n + 1, i, slots, h =>
    match libusb_alloc_transfer env h with
    | (none, h1) => (HACKRF_ERROR_LIBUSB, slots.set i none, h1)
    | (some t, h1) =>
      let b := h1.alloc env BlockKind.buffer
      let t1 := libusb_fill_bulk_transfer t device.usb_device 0 b.1 device.buffer_size
        libusb_transfer_cb_fn.NULL device.addr
      if b.1 = 0 then (HACKRF_ERROR_NO_MEM, slots.set i (some t1), b.2)
      else allocate_transfers_loop env device n (i + 1) (slots.set i (some t1)) b.2

/-- The function `allocate_transfers`: `HACKRF_ERROR_BUSY` when a pool exists;
otherwise the array is requested with `calloc` (all slots `NULL`; return
`HACKRF_ERROR_NO_MEM` when that fails) and the loop runs.  Every return path
leaves `device->transfers` as the loop left it: nothing is released. -/
def allocate_transfers (env : Env) (device : hackrf_device) (w : World) :
    hackrf_error × hackrf_device × World :=
  match device.transfers with
  | none =>
    let a := w.heap.alloc env BlockKind.pool
    if a.1 = 0 then
      (HACKRF_ERROR_NO_MEM, device, { w with heap := a.2 })
    else
      let r := allocate_transfers_loop env device device.transfer_count 0
        (List.replicate device.transfer_count none) a.2
      (r.1, { device with transfers := some { addr := a.1, slots := r.2.1 } },
        { w with heap := r.2.2 })
  | some _ => (HACKRF_ERROR_BUSY, device, w)

/-- The loop of `prepare_transfers`, `n` iterations from index `i`: the
endpoint and the callback are stored in transfer `i`, which is then submitted;
the first submission that does not return `0` ends the loop with
`HACKRF_ERROR_LIBUSB`.  The result is `none` when slot `i` is `NULL` or past the
end of the array (the C code dereferences it). -/
def prepare_transfers_loop (env : Env) (endpoint_address : Nat)
    (callback : libusb_transfer_cb_fn) :
    Nat → Nat → List (Option libusb_transfer) → World →
    Option (hackrf_error × List (Option libusb_transfer) × World)
  | 0, _, slots, w => some (HACKRF_SUCCESS, slots, w)
  | n + 1, i, slots, w =>
    match slots.get? i with
    | some (some t) =>
      let t1 := { t with endpoint := endpoint_address % 256, callback := callback }
      let r := libusb_submit_transfer env t1 w
      if r.1 ≠ 0 then some (HACKRF_ERROR_LIBUSB, slots.set i (some t1), r.2)
      else prepare_transfers_loop env endpoint_address callback n (i + 1)
        (slots.set i (some t1)) r.2
    | _ => none

/-- The function `prepare_transfers`: the loop when there is a pool,
`HACKRF_ERROR_OTHER` when the pool pointer is `NULL`. -/
def prepare_transfers (env : Env) (device : hackrf_device) (endpoint_address : Nat)
    (callback : libusb_transfer_cb_fn) (w : World) :
    Option (hackrf_error × hackrf_device × World) :=
  match device.transfers with
  | some arr =>
    match prepare_transfers_loop env endpoint_address callback device.transfer_count 0
      arr.slots w with
    | some r => some (r.1, { device with transfers := some { arr with slots := r.2.1 } }, r.2.2)
    | none => none
  | none => some (HACKRF_ERROR_OTHER, device, w)

/-! ## `hackrf.c`: mode select, event-pump thread, start -/

/-- The enum `hackrf_transceiver_mode`. -/
inductive hackrf_transceiver_mode where
  | HACKRF_TRANSCEIVER_MODE_RECEIVE
  | HACKRF_TRANSCEIVER_MODE_TRANSMIT
  deriving DecidableEq, Repr

/-- The numeric value of a transceiver mode (1 and 2). -/
def hackrf_transceiver_mode.val : hackrf_transceiver_mode → Nat
  | HACKRF_TRANSCEIVER_MODE_RECEIVE => 1
  | HACKRF_TRANSCEIVER_MODE_TRANSMIT => 2

/-- The constant `HACKRF_VENDOR_REQUEST_SET_TRANSCEIVER_MODE`. -/
def HACKRF_VENDOR_REQUEST_SET_TRANSCEIVER_MODE : Nat := 1

/-- The constant `LIBUSB_ENDPOINT_IN` of `libusb.h`. -/
def LIBUSB_ENDPOINT_IN : Nat := 0x80

/-- The constant `LIBUSB_ENDPOINT_OUT` of `libusb.h`. -/
def LIBUSB_ENDPOINT_OUT : Nat := 0x00

/-- The constant `LIBUSB_REQUEST_TYPE_VENDOR` of `libusb.h`. -/
def LIBUSB_REQUEST_TYPE_VENDOR : Nat := 0x40

/-- The constant `LIBUSB_RECIPIENT_DEVICE` of `libusb.h`. -/
def LIBUSB_RECIPIENT_DEVICE : Nat := 0x00

/-- The call `libusb_control_transfer` without data stage: the request is
logged and the oracle gives the result. -/
def libusb_control_transfer (env : Env) (req : ControlRequest) (w : World) : Int × World :=
  (env.control_result w.controls.length, { w with controls := w.controls ++ [req] })

/-- The function `hackrf_set_transceiver_mode`: one vendor control request;
`HACKRF_ERROR_LIBUSB` unless the transport returns `0`. -/
def hackrf_set_transceiver_mode (env : Env) (value : hackrf_transceiver_mode) (w : World) :
    hackrf_error × World :=
  let r := libusb_control_transfer env
    { request_type := LIBUSB_ENDPOINT_OUT ||| LIBUSB_REQUEST_TYPE_VENDOR ||| LIBUSB_RECIPIENT_DEVICE
      request := HACKRF_VENDOR_REQUEST_SET_TRANSCEIVER_MODE
      value := value.val
      index := 0 } w
  if r.1 ≠ 0 then (HACKRF_ERROR_LIBUSB, r.2) else (HACKRF_SUCCESS, r.2)

/-- The call `pthread_create(&device->transfer_thread, ...)`: on success (`0`)
a new thread with a fresh non-zero id exists and the id is stored; on failure
the stored id is left as it was. -/
def pthread_create (env : Env) (device : hackrf_device) (w : World) :
    Int × hackrf_device × World :=
  let r := env.pthread_create_result w.thread_requests
  if r = 0 then
    (r, { device with transfer_thread := w.thread_requests + 1 },
      { w with thread_requests := w.thread_requests + 1
               threads := w.threads ++ [w.thread_requests + 1] })
  else
    (r, device, { w with thread_requests := w.thread_requests + 1 })

/-- The function `create_transfer_thread`: `HACKRF_ERROR_BUSY` when a thread is
registered; otherwise the pool is submitted (its error is returned as is),
then the sink is stored, `streaming` is set and the thread is created
(`HACKRF_ERROR_THREAD` when that fails). -/
def create_transfer_thread (env : Env) (device : hackrf_device) (endpoint_address : Nat)
    (callback : Nat) (w : World) : Option (hackrf_error × hackrf_device × World) :=
  if device.transfer_thread = 0 then
    match prepare_transfers env device endpoint_address
      libusb_transfer_cb_fn.hackrf_libusb_transfer_callback w with
    | none => none
    | some (result, device1, w1) =>
      if result ≠ HACKRF_SUCCESS then some (result, device1, w1)
      else
        let device2 := { device1 with callback := callback, streaming := true }
        let r := pthread_create env device2 w1
        if r.1 ≠ 0 then some (HACKRF_ERROR_THREAD, r.2.1, r.2.2)
        else some (HACKRF_SUCCESS, r.2.1, r.2.2)
  else
    some (HACKRF_ERROR_BUSY, device, w)

/-- The function `hackrf_start_rx`: mode select, then, when it succeeded,
`create_transfer_thread` on endpoint `LIBUSB_ENDPOINT_IN | 1`, whose result is
not stored: the function returns the result of the mode select. -/
def hackrf_start_rx (env : Env) (device : hackrf_device) (callback : Nat) (w : World) :
    Option (hackrf_error × hackrf_device × World) :=
  let endpoint_address := LIBUSB_ENDPOINT_IN ||| 1
  let m := hackrf_set_transceiver_mode env
    hackrf_transceiver_mode.HACKRF_TRANSCEIVER_MODE_RECEIVE w
  if m.1 = HACKRF_SUCCESS then
    match create_transfer_thread env device endpoint_address callback m.2 with
    | none => none
    | some (_, device1, w1) => some (m.1, device1, w1)
  else
    some (m.1, device, m.2)

/-- The function `hackrf_start_tx`: mode select, then, when it succeeded,
`create_transfer_thread` on endpoint `LIBUSB_ENDPOINT_OUT | 2`, whose result
becomes the result of the function. -/
def hackrf_start_tx (env : Env) (device : hackrf_device) (callback : Nat) (w : World) :
    Option (hackrf_error × hackrf_device × World) :=
  let endpoint_address := LIBUSB_ENDPOINT_OUT ||| 2
  let m := hackrf_set_transceiver_mode env
    hackrf_transceiver_mode.HACKRF_TRANSCEIVER_MODE_TRANSMIT w
  if m.1 = HACKRF_SUCCESS then
    create_transfer_thread env device endpoint_address callback m.2
  else
    some (m.1, device, m.2)

/-! ## `hackrf.c`: open -/

/-- The initialisation of the fresh struct in `hackrf_open`: no pool, no sink,
no thread, 1024 transfers of 16384 bytes, not streaming. -/
def lib_device_init (addr usb_device : Nat) : hackrf_device :=
  { addr := addr, usb_device := usb_device, transfers := none, callback := 0
    transfer_thread := 0, transfer_count := 1024, buffer_size := 16384
    streaming := false }

/-- The function `hackrf_open`, `out_is_null` telling whether the argument
`device` is `NULL`; `HACKRF_SUCCESS` is the value `0` the result of
`allocate_transfers` is compared with.  The result carries the handle stored
in `*device` (`none` when nothing is stored).  When `allocate_transfers` fails,
the device struct is freed, the interface released and the usb handle closed;
the pool is not passed to `free_transfers`. -/
def hackrf_open (env : Env) (out_is_null : Bool) (w : World) :
    hackrf_error × Option hackrf_device × World :=
  if out_is_null then (HACKRF_ERROR_INVALID_PARAM, none, w)
  else
    let usb_device := env.open_device
    if usb_device = 0 then (HACKRF_ERROR_NOT_FOUND, none, w)
    else
      let w1 := { w with usb_open := usb_device :: w.usb_open }
      if env.set_configuration_result ≠ 0 then
        (HACKRF_ERROR_LIBUSB, none, { w1 with usb_open := w1.usb_open.erase usb_device })
      else if env.claim_interface_result ≠ 0 then
        (HACKRF_ERROR_LIBUSB, none, { w1 with usb_open := w1.usb_open.erase usb_device })
      else
        let w2 := { w1 with usb_claimed := usb_device :: w1.usb_claimed }
        let d := w2.heap.alloc env BlockKind.device
        if d.1 = 0 then
          (HACKRF_ERROR_NO_MEM, none,
            { w2 with heap := d.2
                      usb_claimed := w2.usb_claimed.erase usb_device
                      usb_open := w2.usb_open.erase usb_device })
        else
          let lib_device := lib_device_init d.1 usb_device
          let r := allocate_transfers env lib_device { w2 with heap := d.2 }
          if r.1 ≠ HACKRF_SUCCESS then
            (HACKRF_ERROR_NO_MEM, none,
              { r.2.2 with heap := r.2.2.heap.free BlockKind.device d.1
                           usb_claimed := r.2.2.usb_claimed.erase usb_device
                           usb_open := r.2.2.usb_open.erase usb_device })
          else
            (HACKRF_SUCCESS, some r.2.1, r.2.2)

/-! ## `hackrf.c`: the event pump, stop, close -/

/-- The dispatcher called for a sequence of completed transfers, one after
the other, as one call of `libusb_handle_events_timeout` does on the
event-pump thread when those transfers have completed. -/
def run_callbacks (env : Env) :
    List libusb_transfer → hackrf_device → World → Option (hackrf_device × World)
  | [], device, w => some (device, w)
  | t :: ts, device, w =>
    match hackrf_libusb_transfer_callback env t device w with
    | none => none
    | some (device1, w1) => run_callbacks env ts device1 w1

/-- One iteration of the loop of `transfer_threadproc`, entered because
`device->streaming` was read as true: `libusb_handle_events_timeout` dispatches
the transfers in `completed` and returns `error`; when `error` is not `0`,
`streaming` is set to `false`. -/
def transfer_threadproc_iteration (env : Env) (completed : List libusb_transfer) (error : Int)
    (device : hackrf_device) (w : World) : Option (hackrf_device × World) :=
  match run_callbacks env completed device w with
  | none => none
  | some (device1, w1) =>
    if error ≠ 0 then some ({ device1 with streaming := false }, w1)
    else some (device1, w1)

/-- The function `transfer_threadproc`: iterations while `device->streaming`
holds; `passes` lists what each call of `libusb_handle_events_timeout` finds
(the completed transfers and its return value).  The thread ends when the flag
is read as false; the list running out stands for the thread still waiting. -/
def transfer_threadproc (env : Env) :
    List (List libusb_transfer × Int) → hackrf_device → World → Option (hackrf_device × World)
  | [], device, w => some (device, w)
  | p :: ps, device, w =>
    if device.streaming then
      match transfer_threadproc_iteration env p.1 p.2 device w with
      | none => none
      | some (device1, w1) => transfer_threadproc env ps device1 w1
    else some (device, w)

/-- The call `pthread_join(thread, &value)`: on success (`0`) the thread has
ended and is no longer among the running threads. -/
def pthread_join (env : Env) (thread : Nat) (w : World) : Int × World :=
  let r := env.pthread_join_result w.join_requests
  if r = 0 then
    (r, { w with join_requests := w.join_requests + 1, threads := w.threads.erase thread })
  else
    (r, { w with join_requests := w.join_requests + 1 })

/-- The function `kill_transfer_thread`: `streaming` is cleared; a registered
thread is joined, `HACKRF_ERROR_THREAD` when the join fails, else the thread
is unregistered; `HACKRF_SUCCESS`. -/
def kill_transfer_thread (env : Env) (device : hackrf_device) (w : World) :
    hackrf_error × hackrf_device × World :=
  let device1 := { device with streaming := false }
  if device1.transfer_thread ≠ 0 then
    let r := pthread_join env device1.transfer_thread w
    if r.1 ≠ 0 then (HACKRF_ERROR_THREAD, device1, r.2)
    else (HACKRF_SUCCESS, { device1 with transfer_thread := 0 }, r.2)
  else
    (HACKRF_SUCCESS, device1, w)

/-- The function `hackrf_is_streaming`. -/
def hackrf_is_streaming (device : hackrf_device) : Bool :=
  device.streaming

/-- The function `hackrf_stop_rx`. -/
def hackrf_stop_rx (env : Env) (device : hackrf_device) (w : World) :
    hackrf_error × hackrf_device × World :=
  kill_transfer_thread env device w

/-- The function `hackrf_stop_tx`. -/
def hackrf_stop_tx (env : Env) (device : hackrf_device) (w : World) :
    hackrf_error × hackrf_device × World :=
  kill_transfer_thread env device w

/-- The constant `HACKRF_VENDOR_REQUEST_MAX2837_WRITE`. -/
def HACKRF_VENDOR_REQUEST_MAX2837_WRITE : Nat := 2

/-- The constant `HACKRF_VENDOR_REQUEST_MAX2837_READ`. -/
def HACKRF_VENDOR_REQUEST_MAX2837_READ : Nat := 3

/-- The constant `HACKRF_VENDOR_REQUEST_SI5351C_WRITE`. -/
def HACKRF_VENDOR_REQUEST_SI5351C_WRITE : Nat := 4

/-- The constant `HACKRF_VENDOR_REQUEST_SI5351C_READ`. -/
def HACKRF_VENDOR_REQUEST_SI5351C_READ : Nat := 5

/-- The call `libusb_control_transfer` with an IN data stage of `length` bytes:
the request is logged; the result is the oracle's and the bytes stored in the
caller's buffer are the first `length` bytes the device sent. -/
def libusb_control_transfer_in (env : Env) (req : ControlRequest) (length : Nat) (w : World) :
    Int × List Nat × World :=
  (env.control_result w.controls.length, (env.control_data w.controls.length).take length,
    { w with controls := w.controls ++ [req] })

/-- The function `hackrf_max2837_read`; the second component is the list of
bytes libusb stored in `*value` (`none`: no request was made). -/
def hackrf_max2837_read (env : Env) (register_number : Nat) (w : World) :
    hackrf_error × Option (List Nat) × World :=
  if register_number ≥ 32 then (HACKRF_ERROR_INVALID_PARAM, none, w)
  else
    let r := libusb_control_transfer_in env
      { request_type := LIBUSB_ENDPOINT_IN ||| LIBUSB_REQUEST_TYPE_VENDOR ||| LIBUSB_RECIPIENT_DEVICE
        request := HACKRF_VENDOR_REQUEST_MAX2837_READ
        value := 0
        index := register_number } 2 w
    if r.1 < 2 then (HACKRF_ERROR_LIBUSB, some r.2.1, r.2.2)
    else (HACKRF_SUCCESS, some r.2.1, r.2.2)

/-- The function `hackrf_max2837_write`. -/
def hackrf_max2837_write (env : Env) (register_number value : Nat) (w : World) :
    hackrf_error × World :=
  if register_number ≥ 32 then (HACKRF_ERROR_INVALID_PARAM, w)
  else if value ≥ 0x400 then (HACKRF_ERROR_INVALID_PARAM, w)
  else
    let r := libusb_control_transfer env
      { request_type := LIBUSB_ENDPOINT_OUT ||| LIBUSB_REQUEST_TYPE_VENDOR ||| LIBUSB_RECIPIENT_DEVICE
        request := HACKRF_VENDOR_REQUEST_MAX2837_WRITE
        value := value
        index := register_number } w
    if r.1 ≠ 0 then (HACKRF_ERROR_LIBUSB, r.2) else (HACKRF_SUCCESS, r.2)

/-- The function `hackrf_si5351c_read`; the second component is the value
stored in `*value` (`none`: nothing was stored): `temp_value`, which starts as
`0` and receives at most one byte. -/
def hackrf_si5351c_read (env : Env) (register_number : Nat) (w : World) :
    hackrf_error × Option Nat × World :=
  if register_number ≥ 256 then (HACKRF_ERROR_INVALID_PARAM, none, w)
  else
    let r := libusb_control_transfer_in env
      { request_type := LIBUSB_ENDPOINT_IN ||| LIBUSB_REQUEST_TYPE_VENDOR ||| LIBUSB_RECIPIENT_DEVICE
        request := HACKRF_VENDOR_REQUEST_SI5351C_READ
        value := 0
        index := register_number } 1 w
    let temp_value := (r.2.1.headD 0) % 256
    if r.1 < 1 then (HACKRF_ERROR_LIBUSB, none, r.2.2)
    else (HACKRF_SUCCESS, some temp_value, r.2.2)

/-- The function `hackrf_si5351c_write`. -/
def hackrf_si5351c_write (env : Env) (register_number value : Nat) (w : World) :
    hackrf_error × World :=
  if register_number ≥ 256 then (HACKRF_ERROR_INVALID_PARAM, w)
  else if value ≥ 256 then (HACKRF_ERROR_INVALID_PARAM, w)
  else
    let r := libusb_control_transfer env
      { request_type := LIBUSB_ENDPOINT_OUT ||| LIBUSB_REQUEST_TYPE_VENDOR ||| LIBUSB_RECIPIENT_DEVICE
        request := HACKRF_VENDOR_REQUEST_SI5351C_WRITE
        value := value
        index := register_number } w
    if r.1 ≠ 0 then (HACKRF_ERROR_LIBUSB, r.2) else (HACKRF_SUCCESS, r.2)

/-! ## `usb_performance.c`: the sample buffer and the SGPIO interrupt handler -/

/-- Modelled from the spec: the type `transceiver_mode_t`, declared in a header
of the firmware that is not among the sources at hand; the two directions the
handler distinguishes, receive (hardware to buffer) and transmit (buffer to
hardware). -/
inductive transceiver_mode_t where
  | TRANSCEIVER_MODE_RX
  | TRANSCEIVER_MODE_TX
  deriving DecidableEq, Repr

/-- The SGPIO slices whose shift registers the handler moves. -/
inductive sgpio_slice where
  | SGPIO_SLICE_A
  | SGPIO_SLICE_C
  | SGPIO_SLICE_E
  | SGPIO_SLICE_F
  | SGPIO_SLICE_I
  | SGPIO_SLICE_J
  | SGPIO_SLICE_K
  | SGPIO_SLICE_L
  deriving DecidableEq, Repr

open sgpio_slice

/-- The address `usb_bulk_buffer` of the sample buffer. -/
def usb_bulk_buffer : Nat := 0x20004000

/-- The constant `usb_bulk_buffer_mask`. -/
def usb_bulk_buffer_mask : Nat := 32768 - 1

/-- The state the handler works on: the mode, the byte-addressed memory, the
write offset `usb_bulk_buffer_offset`, the shift registers `SGPIO_REG_SS` and
the interrupt status bits cleared through `SGPIO_CLR_STATUS_1`. -/
structure Firmware where
  transceiver_mode : transceiver_mode_t
  memory : Nat → Nat
  usb_bulk_buffer_offset : Nat
  sgpio_reg_ss : sgpio_slice → Nat
  sgpio_status_1 : Nat

/-- A 32-bit little-endian store at byte address `a`. -/
def store32 (memory : Nat → Nat) (a v : Nat) : Nat → Nat :=
  fun x =>
    if x = a % 2 ^ 32 then v % 256
    else if x = (a + 1) % 2 ^ 32 then v / 2 ^ 8 % 256
    else if x = (a + 2) % 2 ^ 32 then v / 2 ^ 16 % 256
    else if x = (a + 3) % 2 ^ 32 then v / 2 ^ 24 % 256
    else memory x

/-- A 32-bit little-endian load from byte address `a`. -/
def load32 (memory : Nat → Nat) (a : Nat) : Nat :=
  memory (a % 2 ^ 32) % 256 + 2 ^ 8 * (memory ((a + 1) % 2 ^ 32) % 256)
    + 2 ^ 16 * (memory ((a + 2) % 2 ^ 32) % 256) + 2 ^ 24 * (memory ((a + 3) % 2 ^ 32) % 256)

/-- A write to one shift register. -/
def set_reg_ss (regs : sgpio_slice → Nat) (s : sgpio_slice) (v : Nat) : sgpio_slice → Nat :=
  fun x => if x = s then v % 2 ^ 32 else regs x

/-- The last statement of the handler on the `uint32_t` offset:
`(usb_bulk_buffer_offset + 32) & usb_bulk_buffer_mask`. -/
def next_offset (offset : Nat) : Nat :=
  ((offset + 32) % 2 ^ 32) &&& usb_bulk_buffer_mask

/-- The function `sgpio_irqhandler`: the status bits are cleared, the eight
words `p[7] .. p[0]` at `&usb_bulk_buffer[usb_bulk_buffer_offset]` are loaded
from (receive) or stored to (transmit) the shift registers of slices
A, I, E, J, C, K, F, L, and the offset advances. -/
def sgpio_irqhandler (s : Firmware) : Firmware :=
  let p := usb_bulk_buffer + s.usb_bulk_buffer_offset
  let s1 : Firmware := { s with sgpio_status_1 := 0 }
  let s2 : Firmware :=
    if s1.transceiver_mode = transceiver_mode_t.TRANSCEIVER_MODE_RX then
      let m7 := store32 s1.memory (p + 4 * 7) (s1.sgpio_reg_ss SGPIO_SLICE_A)
      let m6 := store32 m7 (p + 4 * 6) (s1.sgpio_reg_ss SGPIO_SLICE_I)
      let m5 := store32 m6 (p + 4 * 5) (s1.sgpio_reg_ss SGPIO_SLICE_E)
      let m4 := store32 m5 (p + 4 * 4) (s1.sgpio_reg_ss SGPIO_SLICE_J)
      let m3 := store32 m4 (p + 4 * 3) (s1.sgpio_reg_ss SGPIO_SLICE_C)
      let m2 := store32 m3 (p + 4 * 2) (s1.sgpio_reg_ss SGPIO_SLICE_K)
      let m1 := store32 m2 (p + 4 * 1) (s1.sgpio_reg_ss SGPIO_SLICE_F)
      let m0 := store32 m1 (p + 4 * 0) (s1.sgpio_reg_ss SGPIO_SLICE_L)
      { s1 with memory := m0 }
    else
      let r7 := set_reg_ss s1.sgpio_reg_ss SGPIO_SLICE_A (load32 s1.memory (p + 4 * 7))
      let r6 := set_reg_ss r7 SGPIO_SLICE_I (load32 s1.memory (p + 4 * 6))
      let r5 := set_reg_ss r6 SGPIO_SLICE_E (load32 s1.memory (p + 4 * 5))
      let r4 := set_reg_ss r5 SGPIO_SLICE_J (load32 s1.memory (p + 4 * 4))
      let r3 := set_reg_ss r4 SGPIO_SLICE_C (load32 s1.memory (p + 4 * 3))
      let r2 := set_reg_ss r3 SGPIO_SLICE_K (load32 s1.memory (p + 4 * 2))
      let r1 := set_reg_ss r2 SGPIO_SLICE_F (load32 s1.memory (p + 4 * 1))
      let r0 := set_reg_ss r1 SGPIO_SLICE_L (load32 s1.memory (p + 4 * 0))
      { s1 with sgpio_reg_ss := r0 }
  { s2 with usb_bulk_buffer_offset := next_offset s.usb_bulk_buffer_offset }

/-- The state after `n` firings of the handler. -/
def fire : Nat → Firmware → Firmware
  | 0, s => s
  | n + 1, s => fire n (sgpio_irqhandler s)

/-- The condition of the first wait of the scheduler loop of `main`,
`while( usb_bulk_buffer_offset < 16384 );`: true while the loop keeps waiting. -/
def wait_buffer_0 (offset : Nat) : Bool := decide (offset < 16384)

/-- The condition of the second wait of the scheduler loop of `main`,
`while( usb_bulk_buffer_offset >= 16384 );`: true while the loop keeps waiting. -/
def wait_buffer_1 (offset : Nat) : Bool := decide (offset ≥ 16384)

/-- A firmware state at write offset `offset`, in receive mode, everything else zero. -/
def Firmware.at_offset (offset : Nat) : Firmware :=
  { transceiver_mode := transceiver_mode_t.TRANSCEIVER_MODE_RX
    memory := fun _ => 0
    usb_bulk_buffer_offset := offset
    sgpio_reg_ss := fun _ => 0
    sgpio_status_1 := 0 }

/-! ## `usb_performance.c`: the transfer descriptors and the scheduler loop -/

/-- The token word `total_bytes` of a transfer descriptor, kept as the
arguments of the macros that are or-ed into it (`USB_TD_DTD_TOKEN_TOTAL_BYTES`,
`USB_TD_DTD_TOKEN_MULTO`, `USB_TD_DTD_TOKEN_STATUS_ACTIVE`; the macros are
declared in a header that is not among the sources at hand). -/
structure usb_td_token where
  total_bytes : Nat
  multo : Nat
  status_active : Bool
  deriving DecidableEq, Repr

/-- The type `usb_transfer_descriptor_t`: whether `next_dtd_pointer` is
`USB_TD_NEXT_DTD_POINTER_TERMINATE`, the token and the five page pointers. -/
structure usb_transfer_descriptor_t where
  next_dtd_pointer_terminate : Bool
  total_bytes : usb_td_token
  buffer_pointer_page : List Nat
  deriving DecidableEq, Repr

/-- The function `usb_init_buffers_bulk`: the two descriptors `usb_td_bulk[0]`
and `usb_td_bulk[1]` as it leaves them. -/
def usb_init_buffers_bulk : usb_transfer_descriptor_t × usb_transfer_descriptor_t :=
  ({ next_dtd_pointer_terminate := true
     total_bytes := { total_bytes := 16384, multo := 0, status_active := false }
     buffer_pointer_page :=
       [usb_bulk_buffer + 0x0000, usb_bulk_buffer + 0x1000, usb_bulk_buffer + 0x2000,
        usb_bulk_buffer + 0x3000, usb_bulk_buffer + 0x4000] },
   { next_dtd_pointer_terminate := true
     total_bytes := { total_bytes := 16384, multo := 0, status_active := false }
     buffer_pointer_page :=
       [usb_bulk_buffer + 0x4000, usb_bulk_buffer + 0x5000, usb_bulk_buffer + 0x6000,
        usb_bulk_buffer + 0x7000, usb_bulk_buffer + 0x8000] })

/-- The assignment to `td->total_bytes` in `usb_endpoint_schedule_no_int`. -/
def schedule_token (td : usb_transfer_descriptor_t) : usb_transfer_descriptor_t :=
  { td with total_bytes := { total_bytes := 16384, multo := 0, status_active := true } }

/-- Where the scheduler loop of `main` stands: in its first wait, in the
busy-wait of the scheduling of descriptor 0, in its second wait, or in the
busy-wait of the scheduling of descriptor 1. -/
inductive SchedulerPc where
  | waiting_0
  | scheduling_0
  | waiting_1
  | scheduling_1
  deriving DecidableEq, Repr

/-- What one turn of a busy-wait of the loop reads: the volatile
`usb_bulk_buffer_offset`, the volatile `transceiver_mode`, and the answer of
`usb_endpoint_is_ready`. -/
structure Reading where
  offset : Nat
  mode : transceiver_mode_t
  endpoint_is_ready : Bool
  deriving DecidableEq, Repr

/-- One call of `usb_endpoint_prime`: the address of the endpoint, the index
of the descriptor, and the last value of the write offset the loop had read. -/
structure Primed where
  endpoint : Nat
  td : Nat
  observed_offset : Nat
  deriving DecidableEq, Repr

/-- The state of the scheduler loop: where it stands, the two descriptors, the
last offset it read and the calls of `usb_endpoint_prime` so far. -/
structure Scheduler where
  pc : SchedulerPc
  usb_td_bulk_0 : usb_transfer_descriptor_t
  usb_td_bulk_1 : usb_transfer_descriptor_t
  last_offset : Nat
  primed : List Primed
  deriving DecidableEq, Repr

/-- The endpoint the loop passes to `usb_endpoint_schedule_no_int`: the
address of `usb_endpoint_bulk_in` in receive mode, else of
`usb_endpoint_bulk_out`. -/
def bulk_endpoint (mode : transceiver_mode_t) : Nat :=
  if mode = transceiver_mode_t.TRANSCEIVER_MODE_RX then 0x81 else 0x02

/-- One turn of the scheduler loop of `main` on one reading.  In a wait the
offset is read and the wait ends when its condition fails; in
`usb_endpoint_schedule_no_int` the loop spins while the endpoint is ready, then
stores the token in the descriptor and primes the endpoint with it. -/
def main_loop_step (r : Reading) (st : Scheduler) : Scheduler :=
  match st.pc with
  | SchedulerPc.waiting_0 =>
    if wait_buffer_0 r.offset then { st with last_offset := r.offset }
    else { st with last_offset := r.offset, pc := SchedulerPc.scheduling_0 }
  | SchedulerPc.scheduling_0 =>
    if r.endpoint_is_ready then st
    else
      { st with
        usb_td_bulk_0 := schedule_token st.usb_td_bulk_0
        primed := st.primed ++
          [{ endpoint := bulk_endpoint r.mode, td := 0, observed_offset := st.last_offset }]
        pc := SchedulerPc.waiting_1 }
  | SchedulerPc.waiting_1 =>
    if wait_buffer_1 r.offset then { st with last_offset := r.offset }
    else { st with last_offset := r.offset, pc := SchedulerPc.scheduling_1 }
  | SchedulerPc.scheduling_1 =>
    if r.endpoint_is_ready then st
    else
      { st with
        usb_td_bulk_1 := schedule_token st.usb_td_bulk_1
        primed := st.primed ++
          [{ endpoint := bulk_endpoint r.mode, td := 1, observed_offset := st.last_offset }]
        pc := SchedulerPc.waiting_0 }

/-- The scheduler loop of `main` run on a sequence of readings. -/
def main_loop : List Reading → Scheduler → Scheduler
  | [], st => st
  | r :: rs, st => main_loop rs (main_loop_step r st)

/-- The scheduler loop as `main` enters it: in the first wait, nothing primed,
the descriptors as `usb_init_buffers_bulk` leaves them (it runs in
`set_transceiver_mode` before the SGPIO interrupt is enabled, so before the
write offset can leave `0`). -/
def Scheduler.init : Scheduler :=
  { pc := SchedulerPc.waiting_0
    usb_td_bulk_0 := usb_init_buffers_bulk.1
    usb_td_bulk_1 := usb_init_buffers_bulk.2
    last_offset := 0
    primed := [] }

/-- The address of byte `k` of the data a transfer descriptor describes, as
the USB controller walks the descriptor: `buffer_pointer_page[0]` is the
address of the first byte, and each later page pointer names the 4096-byte
page in which the data goes on once the page before it is used up (the low 12
bits of a later pointer are not used).  `none` when `k` is not below the
number of bytes of the token, or when the page pointer needed is not one of
the five of the descriptor. -/
def td_byte_address (td : usb_transfer_descriptor_t) (k : Nat) : Option Nat :=
  if k < td.total_bytes.total_bytes then
    match td.buffer_pointer_page.get? 0 with
    | none => none
    | some p0 =>
      let pos := p0 % 4096 + k
      if pos / 4096 = 0 then some (p0 + k)
      else if pos / 4096 < 5 then
        match td.buffer_pointer_page.get? (pos / 4096) with
        | none => none
        | some p => some (p / 4096 * 4096 + pos % 4096)
      else none
  else none

/-- The invariant of the scheduler loop: the descriptors primed so far are
0, 1, 0, 1, ... in this order; descriptor 0 was primed only with an offset
read in the upper half and descriptor 1 only with one read in the lower half;
the loop stands before descriptor 0 exactly when an even number was primed;
the offset that ended a wait is in the other half; and each descriptor holds
the five page pointers `usb_init_buffers_bulk` stored in it and a token of
16384 bytes. -/
def Scheduler.Invariant (st : Scheduler) : Prop :=
  st.primed.map (fun e => e.td) = (List.range st.primed.length).map (fun k => k % 2) ∧
  (∀ e ∈ st.primed, (e.td = 0 → e.observed_offset ≥ 16384) ∧
    (e.td = 1 → e.observed_offset < 16384)) ∧
  (st.pc = SchedulerPc.waiting_0 ∨ st.pc = SchedulerPc.scheduling_0 →
    st.primed.length % 2 = 0) ∧
  (st.pc = SchedulerPc.waiting_1 ∨ st.pc = SchedulerPc.scheduling_1 →
    st.primed.length % 2 = 1) ∧
  (st.pc = SchedulerPc.scheduling_0 → st.last_offset ≥ 16384) ∧
  (st.pc = SchedulerPc.scheduling_1 → st.last_offset < 16384) ∧
  st.usb_td_bulk_0.buffer_pointer_page = usb_init_buffers_bulk.1.buffer_pointer_page ∧
  st.usb_td_bulk_0.total_bytes.total_bytes = 16384 ∧
  st.usb_td_bulk_1.buffer_pointer_page = usb_init_buffers_bulk.2.buffer_pointer_page ∧
  st.usb_td_bulk_1.total_bytes.total_bytes = 16384

/-- A reading in receive mode with the given offset and endpoint answer. -/
def Reading.rx (offset : Nat) (endpoint_is_ready : Bool) : Reading :=
  { offset := offset, mode := transceiver_mode_t.TRANSCEIVER_MODE_RX
    endpoint_is_ready := endpoint_is_ready }

/-- The slice whose shift register goes with word `p[j]` of the handler:
`p[7] .. p[0]` go with slices A, I, E, J, C, K, F, L. -/
def slice_of_word (j : Nat) : sgpio_slice :=
  match j with
  | 7 => SGPIO_SLICE_A
  | 6 => SGPIO_SLICE_I
  | 5 => SGPIO_SLICE_E
  | 4 => SGPIO_SLICE_J
  | 3 => SGPIO_SLICE_C
  | 2 => SGPIO_SLICE_K
  | 1 => SGPIO_SLICE_F
  | _ => SGPIO_SLICE_L

/-- A firmware state at write offset `offset`, in transmit mode, with byte `x`
of memory holding `x mod 251` and shift registers zero. -/
def Firmware.tx_at_offset (offset : Nat) : Firmware :=
  { transceiver_mode := transceiver_mode_t.TRANSCEIVER_MODE_TX
    memory := fun x => x % 251
    usb_bulk_buffer_offset := offset
    sgpio_reg_ss := fun _ => 0
    sgpio_status_1 := 0 }

/-! ## `usb_performance.c`: the vendor requests -/

/-- Modelled from the spec: the type `usb_transfer_stage_t`, declared in a USB
header of the firmware that is not among the sources at hand; the handlers only
compare a stage with `USB_TRANSFER_STAGE_SETUP`. -/
inductive usb_transfer_stage_t where
  | USB_TRANSFER_STAGE_SETUP
  | USB_TRANSFER_STAGE_DATA
  | USB_TRANSFER_STAGE_STATUS
  deriving DecidableEq, Repr

/-- The fields of `endpoint->setup` that the vendor handlers read: `request`
(8 bits), `value` and `index` (16 bits each). -/
structure usb_setup_t where
  request : Nat
  value : Nat
  index : Nat
  deriving DecidableEq, Repr

/-- The calls a vendor request handler makes: `set_transceiver_mode`,
`max2837_reg_write`, `max2837_reg_read`, `usb_endpoint_schedule` of the bytes
of `endpoint->buffer` on `endpoint->in`, `usb_endpoint_schedule_ack` on
`endpoint->in` or `endpoint->out`, and `usb_endpoint_stall`. -/
inductive vendor_event where
  | set_transceiver_mode (mode : transceiver_mode_t)
  | max2837_reg_write (r v : Nat)
  | max2837_reg_read (r : Nat)
  | usb_endpoint_schedule_in (data : List Nat)
  | usb_endpoint_schedule_ack_in
  | usb_endpoint_schedule_ack_out
  | usb_endpoint_stall
  deriving DecidableEq, Repr

/-- The function `usb_vendor_request_set_transceiver_mode`: the value returned
and the calls made. -/
def usb_vendor_request_set_transceiver_mode (setup : usb_setup_t)
    (stage : usb_transfer_stage_t) : Bool × List vendor_event :=
  if stage = usb_transfer_stage_t.USB_TRANSFER_STAGE_SETUP then
    if setup.value = 1 then
      (true, [vendor_event.set_transceiver_mode transceiver_mode_t.TRANSCEIVER_MODE_RX,
        vendor_event.usb_endpoint_schedule_ack_in])
    else if setup.value = 2 then
      (true, [vendor_event.set_transceiver_mode transceiver_mode_t.TRANSCEIVER_MODE_TX,
        vendor_event.usb_endpoint_schedule_ack_in])
    else (false, [])
  else (true, [])

/-- The function `usb_vendor_request_write_max2837`: the value returned and the
calls made. -/
def usb_vendor_request_write_max2837 (setup : usb_setup_t) (stage : usb_transfer_stage_t) :
    Bool × List vendor_event :=
  if stage = usb_transfer_stage_t.USB_TRANSFER_STAGE_SETUP then
    if setup.index < 32 then
      if setup.value < 0x3ff then
        (true, [vendor_event.max2837_reg_write setup.index setup.value,
          vendor_event.usb_endpoint_schedule_ack_in])
      else (false, [])
    else (false, [])
  else (true, [])

/-- The function `usb_vendor_request_read_max2837`; `reg_read r` is what
`max2837_reg_read(r)` returns. -/
def usb_vendor_request_read_max2837 (reg_read : Nat → Nat) (setup : usb_setup_t)
    (stage : usb_transfer_stage_t) : Bool × List vendor_event :=
  if stage = usb_transfer_stage_t.USB_TRANSFER_STAGE_SETUP then
    if setup.index < 32 then
      let value := reg_read setup.index % 2 ^ 16
      (true, [vendor_event.max2837_reg_read setup.index,
        vendor_event.usb_endpoint_schedule_in [(value >>> 8) % 256, value &&& 0xff],
        vendor_event.usb_endpoint_schedule_ack_out])
    else (false, [])
  else (true, [])

/-- The function `usb_vendor_request`: the handler chosen by `setup.request`
runs, and the endpoint is stalled when it did not return `true`.  The result is
the list of calls made. -/
def usb_vendor_request (reg_read : Nat → Nat) (setup : usb_setup_t)
    (stage : usb_transfer_stage_t) : List vendor_event :=
  let r : Bool × List vendor_event :=
    if setup.request = 1 then usb_vendor_request_set_transceiver_mode setup stage
    else if setup.request = 2 then usb_vendor_request_write_max2837 setup stage
    else if setup.request = 3 then usb_vendor_request_read_max2837 reg_read setup stage
    else (false, [])
  if r.1 ≠ true then r.2 ++ [vendor_event.usb_endpoint_stall] else r.2

/-- The setup packet in which a control request of the host reaches the
device: `bRequest` in 8 bits, `wValue` and `wIndex` in 16 bits. -/
def setup_of_control (c : ControlRequest) : usb_setup_t :=
  { request := c.request % 2 ^ 8, value := c.value % 2 ^ 16, index := c.index % 2 ^ 16 }

/-- The control request `hackrf_max2837_write` passes to
`libusb_control_transfer` for a register and a value. -/
def max2837_write_control (register_number value : Nat) : ControlRequest :=
  { request_type := LIBUSB_ENDPOINT_OUT ||| LIBUSB_REQUEST_TYPE_VENDOR ||| LIBUSB_RECIPIENT_DEVICE
    request := HACKRF_VENDOR_REQUEST_MAX2837_WRITE
    value := value
    index := register_number }

/-! ## `rffc5071.c`: the synthesizer and the serial routines -/

/-- The register fields written through the accessors `set_RFFC5071_*` in the
functions modelled here (the accessors are generated by `rffc5071_regs.def`,
which is not among the sources at hand; a call is kept as the field and the
value passed). -/
inductive rffc5071_field where
  | ENBL
  | PLLCPL
  | P1LODIV
  | P1N
  | P1PRESC
  | P1NMSB
  | P1NLSB
  | P2LODIV
  | P2N
  | P2PRESC
  | P2NMSB
  | P2NLSB
  deriving DecidableEq, Repr

/-- What the functions do to the register cache and the chip: a call of an
accessor, or a call of `rffc5071_regs_commit`. -/
inductive rffc5071_op where
  | set_field (f : rffc5071_field) (v : Nat)
  | regs_commit
  deriving DecidableEq, Repr

/-- The result of a computation that may divide by zero: a value, or the
division that failed. -/
inductive synth_result (α : Type) where
  | ok (a : α)
  | division_by_lo
  | division_by_lodiv
  deriving DecidableEq, Repr

/-- The constant `LO_MAX`. -/
def LO_MAX : Nat := 5400

/-- The constant `REF_FREQ`. -/
def REF_FREQ : Nat := 50

/-- The loop `while (x > 1) { n_lo++; x >>= 1; }` on the `uint16_t x` and the
`uint8_t n_lo`; `fuel` bounds the iterations (16 suffice for 16 bits). -/
def n_lo_loop : Nat → Nat → Nat → Nat
  | 0, _, n_lo => n_lo
  | fuel + 1, x, n_lo =>
    if x > 1 then n_lo_loop fuel (x >>> 1) ((n_lo + 1) % 2 ^ 8) else n_lo

/-- The local variables of `rffc5071_config_synth_int` when it returns. -/
structure synth_locals where
  n_lo : Nat
  lodiv : Nat
  fvco : Nat
  fbkdiv : Nat
  n : Nat
  tune_freq : Nat
  deriving DecidableEq, Repr

/-- The arithmetic of `rffc5071_config_synth_int` on the `uint16_t lo`, with
the widths of the C variables (`uint8_t n_lo, lodiv, fbkdiv`,
`uint16_t x, fvco, n, tune_freq`); the two divisions by a variable fail when
the divisor is `0`. -/
def synth_values (lo : Nat) : synth_result synth_locals :=
  if lo = 0 then synth_result.division_by_lo
  else
    let x := (LO_MAX / lo) % 2 ^ 16
    let n_lo := n_lo_loop 16 x 0
    let lodiv := (1 <<< n_lo) % 2 ^ 8
    let fvco := (lodiv * lo) % 2 ^ 16
    let fbkdiv := if fvco > 3200 then 4 else 2
    let n := ((fvco / fbkdiv) / REF_FREQ) % 2 ^ 16
    if lodiv = 0 then synth_result.division_by_lodiv
    else
      synth_result.ok
        { n_lo := n_lo, lodiv := lodiv, fvco := fvco, fbkdiv := fbkdiv, n := n
          tune_freq := (50 * n * fbkdiv / lodiv) % 2 ^ 16 }

/-- The accessor calls of `rffc5071_config_synth_int`, in order, for the
values it computed, ending with `rffc5071_regs_commit`. -/
def synth_ops (v : synth_locals) : List rffc5071_op :=
  [rffc5071_op.set_field rffc5071_field.PLLCPL (if v.fvco > 3200 then 3 else 2),
   rffc5071_op.set_field rffc5071_field.P1LODIV v.lodiv,
   rffc5071_op.set_field rffc5071_field.P1N v.n,
   rffc5071_op.set_field rffc5071_field.P1PRESC (v.fbkdiv >>> 1),
   rffc5071_op.set_field rffc5071_field.P1NMSB 0,
   rffc5071_op.set_field rffc5071_field.P1NLSB 0,
   rffc5071_op.set_field rffc5071_field.P2LODIV v.lodiv,
   rffc5071_op.set_field rffc5071_field.P2N v.n,
   rffc5071_op.set_field rffc5071_field.P2PRESC (v.fbkdiv >>> 1),
   rffc5071_op.set_field rffc5071_field.P2NMSB 0,
   rffc5071_op.set_field rffc5071_field.P2NLSB 0,
   rffc5071_op.regs_commit]

/-- The function `rffc5071_config_synth_int`: the tuned frequency it returns
and the accessor calls it makes. -/
def rffc5071_config_synth_int (lo : Nat) : synth_result (Nat × List rffc5071_op) :=
  match synth_values lo with
  | synth_result.division_by_lo => synth_result.division_by_lo
  | synth_result.division_by_lodiv => synth_result.division_by_lodiv
  | synth_result.ok v => synth_result.ok (v.tune_freq, synth_ops v)

/-- The frequency a call returned, `none` when it divided by zero. -/
def returned_frequency (r : synth_result (Nat × List rffc5071_op)) : Option Nat :=
  match r with
  | synth_result.ok x => some x.1
  | _ => none

/-- The function `rffc5071_disable`. -/
def rffc5071_disable : List rffc5071_op :=
  [rffc5071_op.set_field rffc5071_field.ENBL 0, rffc5071_op.regs_commit]

/-- The function `rffc5071_enable`. -/
def rffc5071_enable : List rffc5071_op :=
  [rffc5071_op.set_field rffc5071_field.ENBL 1, rffc5071_op.regs_commit]

/-- The function `rffc5071_set_frequency`: disable, configure for `mhz`,
enable; the result of the configuration is returned and `hz` is not read. -/
def rffc5071_set_frequency (mhz : Nat) (_hz : Nat) : synth_result (Nat × List rffc5071_op) :=
  match rffc5071_config_synth_int mhz with
  | synth_result.division_by_lo => synth_result.division_by_lo
  | synth_result.division_by_lodiv => synth_result.division_by_lodiv
  | synth_result.ok r =>
    synth_result.ok (r.1, rffc5071_disable ++ r.2 ++ rffc5071_enable)

/-- What the serial routines do to the pins of the mixer: a level written to
`ENX`, `SCLK` or `SDATA`, the write that clears `SCLK` and `SDATA` together,
the switch of `SDATA` to input or output, and a call of `serial_delay`. -/
inductive pin_event where
  | enx (level : Bool)
  | sclk (level : Bool)
  | sdata (level : Bool)
  | clear_sclk_sdata
  | sdata_input
  | sdata_output
  | serial_delay
  deriving DecidableEq, Repr

/-- The start of both serial routines: `ENX` high, `SCLK` and `SDATA` low, two
clocks, then `ENX` low. -/
def spi_start : List pin_event :=
  [pin_event.enx true, pin_event.clear_sclk_sdata,
   pin_event.serial_delay, pin_event.sclk true, pin_event.serial_delay, pin_event.sclk false,
   pin_event.serial_delay, pin_event.sclk true, pin_event.serial_delay, pin_event.sclk false,
   pin_event.enx false]

/-- The sending loop `while (bits--) { ... }` of both serial routines, `bits`
iterations: `SDATA` is set to `data & msb`, the `uint32_t data` is shifted
left, and `SCLK` is pulsed. -/
def spi_send_loop : Nat → Nat → Nat → List pin_event
  | 0, _, _ => []
  | bits + 1, data, msb =>
    [pin_event.sdata (decide (data &&& msb ≠ 0)),
     pin_event.serial_delay, pin_event.sclk true, pin_event.serial_delay, pin_event.sclk false]
      ++ spi_send_loop bits ((data <<< 1) % 2 ^ 32) msb

/-- The receiving loop of `rffc5071_spi_read`, `bits` iterations from the
`k`-th reading of `MIXER_SDATA_STATE` on: `data` is shifted left, `SCLK` is
pulsed, and the bit read is or-ed in. -/
def spi_receive_loop (sdata_state : Nat → Bool) : Nat → Nat → Nat → Nat × List pin_event
  | 0, _, data => (data, [])
  | bits + 1, k, data =>
    let data1 := (data <<< 1) % 2 ^ 32
    let data2 := if sdata_state k then data1 ||| 1 else data1
    let r := spi_receive_loop sdata_state bits (k + 1) data2
    (r.1, [pin_event.serial_delay, pin_event.sclk true, pin_event.serial_delay,
           pin_event.sclk false] ++ r.2)

/-- The function `rffc5071_spi_read` (the build without `DEBUG`);
`sdata_state k` is the `k`-th reading of `MIXER_SDATA_STATE`.  The result is
the `uint16_t` returned and the pin events. -/
def rffc5071_spi_read (sdata_state : Nat → Bool) (r : Nat) : Nat × List pin_event :=
  let bits := 9
  let msb := 1 <<< (bits - 1)
  let data := 0x80 ||| (r &&& 0x7f)
  let received := spi_receive_loop sdata_state 16 0 0
  (received.1 % 2 ^ 16,
    spi_start ++ spi_send_loop bits data msb
      ++ [pin_event.serial_delay, pin_event.sclk true, pin_event.serial_delay,
          pin_event.sclk false, pin_event.sdata_input]
      ++ received.2
      ++ [pin_event.sdata_output, pin_event.serial_delay, pin_event.enx true])

/-- The function `rffc5071_spi_write` (the build without `DEBUG`).  Its
parameters are `r` and `v`; the word it sends is computed from the identifiers
`reg` and `val`, which the function does not declare and which are taken here
as whatever values these names have where the function is compiled. -/
def rffc5071_spi_write (reg val : Nat) (_r _v : Nat) : List pin_event :=
  let bits := 25
  let msb := 1 <<< (bits - 1)
  let data := (((reg &&& 0x7f) <<< 16) ||| val) % 2 ^ 32
  spi_start ++ spi_send_loop bits data msb ++ [pin_event.serial_delay, pin_event.enx true]

/-- The pin events that clock out a list of bits: for each bit `SDATA` is set
and `SCLK` pulsed once. -/
def clock_out (bits : List Bool) : List pin_event :=
  bits.flatMap (fun b =>
    [pin_event.sdata b, pin_event.serial_delay, pin_event.sclk true, pin_event.serial_delay,
     pin_event.sclk false])

/-- The `width` low bits of `n`, most significant first. -/
def bits_msb_first (n width : Nat) : List Bool :=
  (List.range width).map (fun i => n.testBit (width - 1 - i))

/-- The number a list of bits spells, most significant first. -/
def value_msb_first (bits : List Bool) : Nat :=
  bits.foldl (fun acc b => 2 * acc + b.toNat) 0

/-- The clock pulses of the receiving loop: `n` times a delay, `SCLK` high, a
delay, `SCLK` low. -/
def clock_pulses (n : Nat) : List pin_event :=
  (List.replicate n [pin_event.serial_delay, pin_event.sclk true, pin_event.serial_delay,
    pin_event.sclk false]).flatten

/-! ## The write offset -/

/-- The offset after `n` applications of the offset update. -/
def offset_after : Nat → Nat → Nat
  | 0, o => o
  | n + 1, o => offset_after n (next_offset o)

/-! ## States named in the statements -/

/-- Transfer `t` after `prepare_transfers` has stored the endpoint and the
completion callback in it. -/
def stamp (endpoint_address : Nat) (callback : libusb_transfer_cb_fn) (t : libusb_transfer) :
    libusb_transfer :=
  { t with endpoint := endpoint_address % 256, callback := callback }

/-- Transfer `i` of a pool as `allocate_transfers` leaves it when the heap had
served `requests` requests before its handle was asked for: handle at address
`requests + 1`, buffer at `requests + 2`, no flags, no callback. -/
def fresh_transfer (device : hackrf_device) (requests : Nat) : libusb_transfer :=
  { addr := requests + 1, dev_handle := device.usb_device, flags := 0, endpoint := 0
    status := LIBUSB_TRANSFER_COMPLETED, length := device.buffer_size, actual_length := 0
    callback := libusb_transfer_cb_fn.NULL, user_data := device.addr, buffer := requests + 2 }

/-- The world in which `hackrf_open` calls `allocate_transfers`: the usb handle
is open, its interface claimed, and the device struct is the block at address
`w.heap.requests + 1`. -/
def World.at_allocate (env : Env) (w : World) : World :=
  { w with
    usb_open := env.open_device :: w.usb_open
    usb_claimed := env.open_device :: w.usb_claimed
    heap := { requests := w.heap.requests + 1
              live := (BlockKind.device, w.heap.requests + 1) :: w.heap.live } }

/-- The view the dispatcher builds for transfer `t` of `device`. -/
def view_of (device : hackrf_device) (t : libusb_transfer) : hackrf_transfer :=
  { device := device.addr
    buffer := t.buffer
    buffer_length := t.length
    valid_length := t.actual_length }

/-- Whether the completion of `t` is one the dispatcher submits again: the
status is `COMPLETED` and the sink of `device` returns `0` on its view. -/
def recycles (env : Env) (device : hackrf_device) (t : libusb_transfer) : Bool :=
  decide (t.status = LIBUSB_TRANSFER_COMPLETED) &&
    decide (env.sink device.callback (view_of device t) = 0)

/-- An outside world in which every request succeeds and the sink at every
address returns `0` (continue). -/
def Env.all_ok : Env :=
  { alloc_ok := fun _ => true
    submit_result := fun _ => 0
    control_result := fun _ => 0
    pthread_create_result := fun _ => 0
    sink := fun _ _ => 0
    open_device := 1
    set_configuration_result := 0
    claim_interface_result := 0
    pthread_join_result := fun _ => 0
    release_interface_result := 0
    control_data := fun _ => [] }

/-- As `Env.all_ok`, except that allocation request number `k` fails. -/
def Env.alloc_fails_at (k : Nat) : Env :=
  { Env.all_ok with alloc_ok := fun n => decide (n ≠ k) }

/-- As `Env.all_ok`, except that submission number `k` returns `-1`. -/
def Env.submit_fails_at (k : Nat) : Env :=
  { Env.all_ok with submit_result := fun n => if n = k then -1 else 0 }

/-- As `Env.all_ok`, except that every `pthread_create` returns `11`. -/
def Env.thread_fails : Env := { Env.all_ok with pthread_create_result := fun _ => 11 }

/-- As `Env.all_ok`, except that every `pthread_join` returns `3`. -/
def Env.join_fails : Env := { Env.all_ok with pthread_join_result := fun _ => 3 }

/-- As `Env.all_ok`, with a sink that returns `1` (stop). -/
def Env.sink_stops : Env := { Env.all_ok with sink := fun _ _ => 1 }

/-- The world before anything happened. -/
def World.empty : World :=
  { heap := { requests := 0, live := [] }
    submits := []
    controls := []
    sink_calls := []
    thread_requests := 0
    threads := []
    usb_open := []
    usb_claimed := []
    join_requests := 0 }

/-- Transfer number `i` of a pool of transfers of 1024 bytes as allocated for
the device at address `5`: handle at address `10 + i`, buffer at `20 + i`. -/
def pool_transfer (i : Nat) : libusb_transfer :=
  { addr := 10 + i, dev_handle := 1, flags := 0, endpoint := 0
    status := LIBUSB_TRANSFER_COMPLETED, length := 1024, actual_length := 0
    callback := libusb_transfer_cb_fn.NULL, user_data := 5, buffer := 20 + i }

/-- The four transfers of the idle pool. -/
def idle_pool : List libusb_transfer :=
  [pool_transfer 0, pool_transfer 1, pool_transfer 2, pool_transfer 3]

/-- The array of the idle pool, at address `6`. -/
def idle_array : TransferArray :=
  { addr := 6, slots := idle_pool.map some }

/-- A device that is open and idle: a pool of 4 transfers of 1024 bytes, no
sink, no event-pump thread, not streaming. -/
def idle_device : hackrf_device :=
  { addr := 5, usb_device := 1, transfers := some idle_array, callback := 0
    transfer_thread := 0, transfer_count := 4, buffer_size := 1024, streaming := false }

/-- The idle device after a successful start on endpoint `e` with the sink at
address `9`: every transfer carries the endpoint and the dispatcher, the event
pump is thread `1`, `streaming` is set. -/
def started_device (e : Nat) : hackrf_device :=
  { idle_device with
    transfers := some
      { addr := 6
        slots := idle_pool.map (fun t =>
          some (stamp e libusb_transfer_cb_fn.hackrf_libusb_transfer_callback t)) }
    callback := 9, transfer_thread := 1, streaming := true }

/-- The world after that start: one control request selecting mode `mode`, the
four submissions, one thread. -/
def started_world (mode : Nat) : World :=
  { World.empty with
    controls := [{ request_type := 0x40, request := 1, value := mode, index := 0 }]
    submits := [(10, 0), (11, 0), (12, 0), (13, 0)]
    thread_requests := 1
    threads := [1] }

/-- The idle device after a start on endpoint `e` whose second submission
failed: transfers 0 and 1 carry the endpoint and the dispatcher, transfers 2
and 3 are untouched, no sink, no thread, not streaming. -/
def half_submitted_device (e : Nat) : hackrf_device :=
  { idle_device with
    transfers := some
      { addr := 6
        slots :=
          [some (stamp e libusb_transfer_cb_fn.hackrf_libusb_transfer_callback (pool_transfer 0)),
           some (stamp e libusb_transfer_cb_fn.hackrf_libusb_transfer_callback (pool_transfer 1)),
           some (pool_transfer 2), some (pool_transfer 3)] } }

/-- The world after that start: one control request selecting mode `mode`, the
accepted submission of transfer 0 and the refused one of transfer 1, no thread. -/
def half_submitted_world (mode : Nat) : World :=
  { World.empty with
    controls := [{ request_type := 0x40, request := 1, value := mode, index := 0 }]
    submits := [(10, 0), (11, -1)] }

/-- Transfer number `i` of the scenario pool: handle at address `10 + i`, a
buffer of 1024 bytes at address `20 + i`, owned by the device at address `5`,
completed with the given status and 1024 bytes transferred. -/
def scenario_transfer (i : Nat) (status : libusb_transfer_status) : libusb_transfer :=
  { addr := 10 + i, dev_handle := 1, flags := 0, endpoint := 0x81, status := status
    length := 1024, actual_length := 1024
    callback := libusb_transfer_cb_fn.hackrf_libusb_transfer_callback
    user_data := 5, buffer := 20 + i }

/-- The device of the scenario: a pool of 4 transfers of 1024 bytes, the sink
at address `9`, the event pump registered as thread `1`. -/
def scenario_device (streaming : Bool) : hackrf_device :=
  { addr := 5, usb_device := 1
    transfers := some
      { addr := 6
        slots := List.map (fun i => some (scenario_transfer i LIBUSB_TRANSFER_COMPLETED))
          (List.range 4) }
    callback := 9, transfer_thread := 1, transfer_count := 4, buffer_size := 1024
    streaming := streaming }

/-! # Theorems -/

/-! ## Lists -/

theorem get?_mid {α : Type} (pre : List α) (x : α) (rest : List α) :
    (pre ++ x :: rest).get? pre.length = some x := by
  induction pre with
  | nil => rfl
  | cons a pre ih => simpa using ih

theorem set_mid {α : Type} (pre : List α) (x y : α) (rest : List α) :
    (pre ++ x :: rest).set pre.length y = pre ++ y :: rest := by
  induction pre with
  | nil => rfl
  | cons a pre ih => simp

/-! ## The completion dispatcher -/

theorem callback_cases (env : Env) (t : libusb_transfer) (device : hackrf_device)
    (w : World) (hcb : device.callback ≠ 0) :
    (t.status = LIBUSB_TRANSFER_COMPLETED →
      env.sink device.callback (view_of device t) = 0 →
      hackrf_libusb_transfer_callback env t device w = some (device,
        { w with
          sink_calls := w.sink_calls ++ [(device.callback, view_of device t)]
          submits := w.submits ++ [(t.addr, env.submit_result w.submits.length)] })) ∧
    (t.status = LIBUSB_TRANSFER_COMPLETED →
      env.sink device.callback (view_of device t) ≠ 0 →
      hackrf_libusb_transfer_callback env t device w = some ({ device with streaming := false },
        { w with
          sink_calls := w.sink_calls ++ [(device.callback, view_of device t)] })) ∧
    (t.status ≠ LIBUSB_TRANSFER_COMPLETED →
      hackrf_libusb_transfer_callback env t device w
        = some ({ device with streaming := false }, w)) := by
  refine ⟨?_, ?_, ?_⟩
  · intro hs hk
    simp [hackrf_libusb_transfer_callback, view_of, hs, hcb, libusb_submit_transfer] at *
    simp [hk]
  · intro hs hk
    simp [hackrf_libusb_transfer_callback, view_of, hs, hcb] at *
    simp [hk]
  · intro hs
    simp [hackrf_libusb_transfer_callback, hs]

/-- C1: the dispatcher on a completed transfer.  With status `COMPLETED` and a
sink returning `0`, the sink is called once with (buffer, requested length,
actual length), the same transfer is submitted once more and the device is
unchanged; with status `COMPLETED` and a sink returning non-zero, the sink is
called once, nothing is submitted and `streaming` becomes `false`; with any
other status the sink is not called, nothing is submitted and `streaming`
becomes `false`. -/
theorem C1_callback_contract (env : Env) (t : libusb_transfer) (device : hackrf_device)
    (w : World) (hcb : device.callback ≠ 0) :
    (t.status = LIBUSB_TRANSFER_COMPLETED →
      env.sink device.callback
        { device := device.addr, buffer := t.buffer, buffer_length := t.length
          valid_length := t.actual_length } = 0 →
      hackrf_libusb_transfer_callback env t device w = some (device,
        { w with
          sink_calls := w.sink_calls ++ [(device.callback,
            { device := device.addr, buffer := t.buffer, buffer_length := t.length
              valid_length := t.actual_length })]
          submits := w.submits ++ [(t.addr, env.submit_result w.submits.length)] })) ∧
    (t.status = LIBUSB_TRANSFER_COMPLETED →
      env.sink device.callback
        { device := device.addr, buffer := t.buffer, buffer_length := t.length
          valid_length := t.actual_length } ≠ 0 →
      hackrf_libusb_transfer_callback env t device w = some ({ device with streaming := false },
        { w with
          sink_calls := w.sink_calls ++ [(device.callback,
            { device := device.addr, buffer := t.buffer, buffer_length := t.length
              valid_length := t.actual_length })] })) ∧
    (t.status ≠ LIBUSB_TRANSFER_COMPLETED →
      hackrf_libusb_transfer_callback env t device w
        = some ({ device with streaming := false }, w)) :=
  callback_cases env t device w hcb

theorem C1_callback_contract_witness :
    (scenario_device true).callback ≠ 0 ∧
    hackrf_libusb_transfer_callback Env.all_ok (scenario_transfer 2 LIBUSB_TRANSFER_COMPLETED)
        (scenario_device true) World.empty
      = some (scenario_device true,
        { World.empty with
          sink_calls := [(9, { device := 5, buffer := 22, buffer_length := 1024
                               valid_length := 1024 })]
          submits := [(12, 0)] }) ∧
    hackrf_libusb_transfer_callback Env.sink_stops (scenario_transfer 2 LIBUSB_TRANSFER_COMPLETED)
        (scenario_device true) World.empty
      = some (scenario_device false,
        { World.empty with
          sink_calls := [(9, { device := 5, buffer := 22, buffer_length := 1024
                               valid_length := 1024 })] }) ∧
    hackrf_libusb_transfer_callback Env.all_ok (scenario_transfer 0 LIBUSB_TRANSFER_ERROR)
        (scenario_device true) World.empty
      = some (scenario_device false, World.empty) :=
  ⟨by decide,
   (C1_callback_contract Env.all_ok (scenario_transfer 2 LIBUSB_TRANSFER_COMPLETED)
      (scenario_device true) World.empty (by decide)).1 rfl rfl,
   (C1_callback_contract Env.sink_stops (scenario_transfer 2 LIBUSB_TRANSFER_COMPLETED)
      (scenario_device true) World.empty (by decide)).2.1 rfl (by decide),
   (C1_callback_contract Env.all_ok (scenario_transfer 0 LIBUSB_TRANSFER_ERROR)
      (scenario_device true) World.empty (by decide)).2.2 (by decide)⟩

theorem clear_streaming_of_cleared (device : hackrf_device) (hs : device.streaming = false) :
    { device with streaming := false } = device := by
  cases device
  simp_all

theorem callback_of_cleared (env : Env) (t : libusb_transfer) (device : hackrf_device)
    (w : World) (hs : device.streaming = false) (hcb : device.callback ≠ 0) :
    ∃ w1, hackrf_libusb_transfer_callback env t device w = some (device, w1) ∧
      w1.submits.map Prod.fst
        = w.submits.map Prod.fst ++ (if recycles env device t then [t.addr] else []) := by
  by_cases hst : t.status = LIBUSB_TRANSFER_COMPLETED
  · by_cases hk : env.sink device.callback (view_of device t) = 0
    · refine ⟨_, (callback_cases env t device w hcb).1 hst hk, ?_⟩
      simp [recycles, hst, hk]
    · refine ⟨{ w with sink_calls := w.sink_calls ++ [(device.callback, view_of device t)] },
        ?_, ?_⟩
      · rw [(callback_cases env t device w hcb).2.1 hst hk,
          clear_streaming_of_cleared device hs]
      · simp [recycles, hst, hk]
  · refine ⟨w, ?_, ?_⟩
    · rw [(callback_cases env t device w hcb).2.2 hst, clear_streaming_of_cleared device hs]
    · simp [recycles, hst]

/-- C2 (as the code has it): once `streaming` is cleared, every later run of
completion callbacks returns with the device unchanged, so `streaming` stays
`false`; a completion is not submitted again when its status is not
`COMPLETED` or its sink returns stop, but the dispatcher does not read the
flag: the transfers submitted again are exactly the completions with status
`COMPLETED` whose sink returns `0`, in order. -/
theorem C2_after_clear (env : Env) (ts : List libusb_transfer) (device : hackrf_device)
    (w : World) (hs : device.streaming = false) (hcb : device.callback ≠ 0) :
    ∃ d1 w1, run_callbacks env ts device w = some (d1, w1) ∧
      d1 = device ∧ d1.streaming = false ∧
      w1.submits.map Prod.fst
        = w.submits.map Prod.fst ++ (ts.filter (recycles env device)).map (fun t => t.addr) := by
  induction ts generalizing w with
  | nil => exact ⟨device, w, rfl, rfl, hs, by simp⟩
  | cons t ts ih =>
    obtain ⟨w1, h1, hsub1⟩ := callback_of_cleared env t device w hs hcb
    obtain ⟨d2, w2, h2, hd2, hs2, hsub2⟩ := ih w1
    refine ⟨d2, w2, ?_, hd2, hs2, ?_⟩
    · simp only [run_callbacks, h1, h2]
    · rw [hsub2, hsub1]
      by_cases hr : recycles env device t = true
      · simp [List.filter_cons, hr]
      · simp [List.filter_cons, hr]

theorem C2_after_clear_witness :
    (scenario_device false).streaming = false ∧ (scenario_device false).callback ≠ 0 ∧
    ∃ d1 w1, run_callbacks Env.all_ok
        [scenario_transfer 1 LIBUSB_TRANSFER_STALL, scenario_transfer 3 LIBUSB_TRANSFER_COMPLETED]
        (scenario_device false) World.empty = some (d1, w1) ∧
      d1 = scenario_device false ∧ d1.streaming = false ∧
      w1.submits.map Prod.fst
        = World.empty.submits.map Prod.fst ++
          ([scenario_transfer 1 LIBUSB_TRANSFER_STALL,
            scenario_transfer 3 LIBUSB_TRANSFER_COMPLETED].filter
              (recycles Env.all_ok (scenario_device false))).map (fun t => t.addr) :=
  ⟨rfl, by decide, C2_after_clear Env.all_ok _ (scenario_device false) World.empty rfl (by decide)⟩

/-- C2 fails as stated on the scenario of the specification: pool of 4, sink
returning continue; transfer 0 completes with an error, which clears
`streaming`; the completions of transfers 1 and 3 that follow are both
submitted again (handles 11 and 13), although `streaming` is `false`. -/
theorem C2_resubmits_after_clear :
    hackrf_libusb_transfer_callback Env.all_ok (scenario_transfer 0 LIBUSB_TRANSFER_ERROR)
        (scenario_device true) World.empty = some (scenario_device false, World.empty) ∧
    (scenario_device false).streaming = false ∧
    run_callbacks Env.all_ok
        [scenario_transfer 1 LIBUSB_TRANSFER_COMPLETED,
         scenario_transfer 3 LIBUSB_TRANSFER_COMPLETED]
        (scenario_device false) World.empty
      = some (scenario_device false,
          { World.empty with
            sink_calls :=
              [(9, { device := 5, buffer := 21, buffer_length := 1024, valid_length := 1024 }),
               (9, { device := 5, buffer := 23, buffer_length := 1024, valid_length := 1024 })]
            submits := [(11, 0), (13, 0)] }) := by
  decide

theorem callback_total (env : Env) (t : libusb_transfer) (device : hackrf_device)
    (w : World) (hcb : device.callback ≠ 0) :
    ∃ d1 w1, hackrf_libusb_transfer_callback env t device w = some (d1, w1) ∧
      (d1 = device ∨ d1 = { device with streaming := false }) := by
  by_cases hst : t.status = LIBUSB_TRANSFER_COMPLETED
  · by_cases hk : env.sink device.callback (view_of device t) = 0
    · exact ⟨_, _, (callback_cases env t device w hcb).1 hst hk, Or.inl rfl⟩
    · exact ⟨_, _, (callback_cases env t device w hcb).2.1 hst hk, Or.inr rfl⟩
  · exact ⟨_, _, (callback_cases env t device w hcb).2.2 hst, Or.inr rfl⟩

theorem run_callbacks_total (env : Env) (ts : List libusb_transfer) (device : hackrf_device)
    (w : World) (hcb : device.callback ≠ 0) :
    ∃ d1 w1, run_callbacks env ts device w = some (d1, w1) ∧
      (d1 = device ∨ d1 = { device with streaming := false }) := by
  induction ts generalizing device w with
  | nil => exact ⟨device, w, rfl, Or.inl rfl⟩
  | cons t ts ih =>
    obtain ⟨d1, w1, h1, hd1⟩ := callback_total env t device w hcb
    have hcb1 : d1.callback ≠ 0 := by
      rcases hd1 with h | h <;> rw [h] <;> exact hcb
    obtain ⟨d2, w2, h2, hd2⟩ := ih d1 w1 hcb1
    refine ⟨d2, w2, by simp only [run_callbacks, h1, h2], ?_⟩
    rcases hd1 with h | h <;> rcases hd2 with h' | h' <;> rw [h', h] <;> simp

/-! ## Start -/

theorem prepare_loop_frame (env : Env) (e : Nat) (cb : libusb_transfer_cb_fn) (n i : Nat)
    (slots : List (Option libusb_transfer)) (w : World)
    (r : hackrf_error × List (Option libusb_transfer) × World)
    (h : prepare_transfers_loop env e cb n i slots w = some r) :
    r.2.2 = { w with submits := r.2.2.submits } := by
  induction n generalizing i slots w with
  | zero =>
    simp only [prepare_transfers_loop, Option.some.injEq] at h
    rw [← h]
  | succ n ih =>
    simp only [prepare_transfers_loop] at h
    split at h
    · rename_i t ht
      simp only [libusb_submit_transfer] at h
      split at h
      · simp only [Option.some.injEq] at h
        rw [← h]
      · have := ih _ _ _ h
        rw [this]
    · exact absurd h (by simp)

theorem prepare_frame (env : Env) (device : hackrf_device) (e : Nat)
    (cb : libusb_transfer_cb_fn) (w : World) (r : hackrf_error) (d1 : hackrf_device)
    (w1 : World) (h : prepare_transfers env device e cb w = some (r, d1, w1)) :
    d1 = { device with transfers := d1.transfers } ∧ w1 = { w with submits := w1.submits } := by
  unfold prepare_transfers at h
  split at h
  · split at h
    · rename_i arr hp r1 hloop
      simp only [Option.some.injEq, Prod.mk.injEq] at h
      obtain ⟨_, hd, hw⟩ := h
      refine ⟨by rw [← hd], ?_⟩
      have := prepare_loop_frame env e cb _ _ _ _ r1 hloop
      rw [← hw]
      exact this
    · exact absurd h (by simp)
  · simp only [Option.some.injEq, Prod.mk.injEq] at h
    obtain ⟨_, hd, hw⟩ := h
    exact ⟨by rw [← hd], by rw [← hw]⟩

/-- C3 on the code: on a handle with a registered event-pump thread
(`transfer_thread != 0`, as after a successful start without a stop), a call
of `hackrf_start_rx` whose mode select succeeds leaves the device, the
submissions and the threads unchanged, so no second thread is created, but it
returns `HACKRF_SUCCESS`, not `HACKRF_ERROR_BUSY`: the `HACKRF_ERROR_BUSY` of
`create_transfer_thread` is dropped.  The same call of `hackrf_start_tx`
returns `HACKRF_ERROR_BUSY`. -/
theorem C3_second_start_rx_returns_success (env : Env) (device : hackrf_device) (cb : Nat)
    (w : World) (hthread : device.transfer_thread ≠ 0)
    (hmode : env.control_result w.controls.length = 0) :
    hackrf_start_rx env device cb w = some (HACKRF_SUCCESS, device,
      { w with controls := w.controls ++
          [{ request_type := 0x40, request := 1, value := 1, index := 0 }] }) ∧
    hackrf_start_tx env device cb w = some (HACKRF_ERROR_BUSY, device,
      { w with controls := w.controls ++
          [{ request_type := 0x40, request := 1, value := 2, index := 0 }] }) := by
  constructor
  · simp [hackrf_start_rx, hackrf_set_transceiver_mode, libusb_control_transfer, hmode,
      create_transfer_thread, hthread, LIBUSB_ENDPOINT_OUT, LIBUSB_REQUEST_TYPE_VENDOR,
      LIBUSB_RECIPIENT_DEVICE, HACKRF_VENDOR_REQUEST_SET_TRANSCEIVER_MODE,
      hackrf_transceiver_mode.val]
  · simp [hackrf_start_tx, hackrf_set_transceiver_mode, libusb_control_transfer, hmode,
      create_transfer_thread, hthread, LIBUSB_ENDPOINT_OUT, LIBUSB_REQUEST_TYPE_VENDOR,
      LIBUSB_RECIPIENT_DEVICE, HACKRF_VENDOR_REQUEST_SET_TRANSCEIVER_MODE,
      hackrf_transceiver_mode.val]

theorem C3_second_start_rx_returns_success_witness :
    hackrf_start_rx Env.all_ok idle_device 9 World.empty
      = some (HACKRF_SUCCESS, started_device 0x81, started_world 1) ∧
    (started_device 0x81).transfer_thread ≠ 0 ∧
    Env.all_ok.control_result (started_world 1).controls.length = 0 ∧
    hackrf_start_rx Env.all_ok (started_device 0x81) 9 (started_world 1)
      = some (HACKRF_SUCCESS, started_device 0x81,
          { started_world 1 with controls := (started_world 1).controls ++
              [{ request_type := 0x40, request := 1, value := 1, index := 0 }] }) ∧
    hackrf_start_tx Env.all_ok (started_device 0x81) 9 (started_world 1)
      = some (HACKRF_ERROR_BUSY, started_device 0x81,
          { started_world 1 with controls := (started_world 1).controls ++
              [{ request_type := 0x40, request := 1, value := 2, index := 0 }] }) :=
  ⟨by decide, by decide, rfl,
   C3_second_start_rx_returns_success Env.all_ok (started_device 0x81) 9 (started_world 1)
     (by decide) rfl⟩

/-- C4 on the code: on an idle handle (no thread registered), when the mode
select succeeds and `prepare_transfers` fails with `HACKRF_ERROR_LIBUSB`
because a submission failed, neither start creates a thread or touches
`streaming`; `hackrf_start_tx` returns `HACKRF_ERROR_LIBUSB`, but
`hackrf_start_rx` returns `HACKRF_SUCCESS` although streaming was not
started. -/
theorem C4_start_rx_hides_submit_failure (env : Env) (device : hackrf_device) (cb : Nat)
    (w : World) (d1 : hackrf_device) (w1 : World) (hidle : device.transfer_thread = 0)
    (hmode : env.control_result w.controls.length = 0)
    (hsub : prepare_transfers env device (LIBUSB_ENDPOINT_IN ||| 1)
        libusb_transfer_cb_fn.hackrf_libusb_transfer_callback
        (hackrf_set_transceiver_mode env
          hackrf_transceiver_mode.HACKRF_TRANSCEIVER_MODE_RECEIVE w).2
      = some (HACKRF_ERROR_LIBUSB, d1, w1)) :
    hackrf_start_rx env device cb w = some (HACKRF_SUCCESS, d1, w1) ∧
    d1.streaming = device.streaming ∧ d1.transfer_thread = 0 ∧ d1.callback = device.callback ∧
    w1.threads = w.threads ∧
    (∀ d2 w2, prepare_transfers env device (LIBUSB_ENDPOINT_OUT ||| 2)
        libusb_transfer_cb_fn.hackrf_libusb_transfer_callback
        (hackrf_set_transceiver_mode env
          hackrf_transceiver_mode.HACKRF_TRANSCEIVER_MODE_TRANSMIT w).2
        = some (HACKRF_ERROR_LIBUSB, d2, w2) →
      hackrf_start_tx env device cb w = some (HACKRF_ERROR_LIBUSB, d2, w2) ∧
      d2.streaming = device.streaming ∧ d2.transfer_thread = 0 ∧ w2.threads = w.threads) := by
  have hm1 : ∀ m, (hackrf_set_transceiver_mode env m w).1 = HACKRF_SUCCESS := by
    intro m
    simp [hackrf_set_transceiver_mode, libusb_control_transfer, hmode]
  have hmt : ∀ m, (hackrf_set_transceiver_mode env m w).2.threads = w.threads := by
    intro m
    simp [hackrf_set_transceiver_mode, libusb_control_transfer, hmode]
  refine ⟨?_, ?_, ?_, ?_, ?_, ?_⟩
  · simp only [hackrf_start_rx, hm1, if_true, create_transfer_thread, hidle, hsub]
    simp
  · rw [(prepare_frame _ _ _ _ _ _ _ _ hsub).1]
  · rw [(prepare_frame _ _ _ _ _ _ _ _ hsub).1]; exact hidle
  · rw [(prepare_frame _ _ _ _ _ _ _ _ hsub).1]
  · rw [(prepare_frame _ _ _ _ _ _ _ _ hsub).2]; exact hmt _
  · intro d2 w2 hsub2
    refine ⟨?_, ?_, ?_, ?_⟩
    · simp only [hackrf_start_tx, hm1, if_true, create_transfer_thread, hidle, hsub2]
      simp
    · rw [(prepare_frame _ _ _ _ _ _ _ _ hsub2).1]
    · rw [(prepare_frame _ _ _ _ _ _ _ _ hsub2).1]; exact hidle
    · rw [(prepare_frame _ _ _ _ _ _ _ _ hsub2).2]; exact hmt _

theorem C4_start_rx_hides_submit_failure_witness :
    idle_device.transfer_thread = 0 ∧
    (Env.submit_fails_at 1).control_result World.empty.controls.length = 0 ∧
    prepare_transfers (Env.submit_fails_at 1) idle_device (LIBUSB_ENDPOINT_IN ||| 1)
        libusb_transfer_cb_fn.hackrf_libusb_transfer_callback
        (hackrf_set_transceiver_mode (Env.submit_fails_at 1)
          hackrf_transceiver_mode.HACKRF_TRANSCEIVER_MODE_RECEIVE World.empty).2
      = some (HACKRF_ERROR_LIBUSB, half_submitted_device 0x81, half_submitted_world 1) ∧
    hackrf_start_rx (Env.submit_fails_at 1) idle_device 9 World.empty
      = some (HACKRF_SUCCESS, half_submitted_device 0x81, half_submitted_world 1) ∧
    (half_submitted_device 0x81).streaming = false ∧
    (half_submitted_world 1).threads = [] ∧
    hackrf_start_tx (Env.submit_fails_at 1) idle_device 9 World.empty
      = some (HACKRF_ERROR_LIBUSB, half_submitted_device 0x02, half_submitted_world 2) :=
  ⟨rfl, rfl, by decide,
   (C4_start_rx_hides_submit_failure (Env.submit_fails_at 1) idle_device 9 World.empty
      (half_submitted_device 0x81) (half_submitted_world 1) rfl rfl (by decide)).1,
   rfl, rfl,
   ((C4_start_rx_hides_submit_failure (Env.submit_fails_at 1) idle_device 9 World.empty
      (half_submitted_device 0x81) (half_submitted_world 1) rfl rfl (by decide)).2.2.2.2.2
      (half_submitted_device 0x02) (half_submitted_world 2) (by decide)).1⟩

/-! ## The transfer pool: allocation and release -/

theorem count_cons (k k1 : BlockKind) (p requests : Nat) (live : List (BlockKind × Nat)) :
    Heap.count k { requests := requests, live := (k1, p) :: live }
      = Heap.count k { requests := requests, live := live } + (if k1 = k then 1 else 0) := by
  by_cases h : k1 = k <;> simp [Heap.count, List.filter_cons, h]

theorem count_free_mem (k : BlockKind) (p : Nat) (h : Heap) (hm : (k, p) ∈ h.live) :
    (h.free k p).count k + 1 = h.count k := by
  obtain ⟨requests, live⟩ := h
  simp only [Heap.free, Heap.count] at hm ⊢
  induction live with
  | nil => simp at hm
  | cons b live ih =>
    by_cases hb : b = (k, p)
    · subst hb
      simp [List.filter_cons]
    · have hm1 : (k, p) ∈ live := by
        rcases List.mem_cons.mp hm with h1 | h1
        · exact absurd h1.symm hb
        · exact h1
      have := ih hm1
      rw [List.erase_cons_tail (by simpa using hb)]
      by_cases hk : b.1 = k
      · simp only [List.filter_cons, hk, decide_True, if_true, List.length_cons]
        omega
      · simp only [List.filter_cons, hk, decide_False]
        simpa using this

theorem count_free_other (k k1 : BlockKind) (p : Nat) (h : Heap) (hne : k1 ≠ k) :
    (h.free k p).count k1 = h.count k1 := by
  obtain ⟨requests, live⟩ := h
  simp only [Heap.free, Heap.count]
  induction live with
  | nil => simp
  | cons b live ih =>
    by_cases hb : b = (k, p)
    · subst hb
      simp [List.filter_cons, hne.symm]
    · rw [List.erase_cons_tail (by simpa using hb)]
      by_cases hk : b.1 = k1
      · simp only [List.filter_cons, hk, decide_True, if_true, List.length_cons]
        omega
      · simp only [List.filter_cons, hk, decide_False]
        simpa using ih

theorem mem_free_of_ne (k : BlockKind) (p : Nat) (h : Heap) (b : BlockKind × Nat)
    (hb : b ∈ h.live) (hne : b ≠ (k, p)) : b ∈ (h.free k p).live := by
  simp only [Heap.free]
  exact (List.mem_erase_of_ne hne).mpr hb

theorem libusb_free_transfer_of_no_flags (t : libusb_transfer) (h : Heap) (hf : t.flags = 0) :
    libusb_free_transfer t h = h.free BlockKind.handle t.addr := by
  simp [libusb_free_transfer, hf]

theorem free_loop_handles (ts : List libusb_transfer) (pre : List (Option libusb_transfer))
    (h : Heap) (hflags : ∀ t ∈ ts, t.flags = 0)
    (hmem : ∀ t ∈ ts, (BlockKind.handle, t.addr) ∈ h.live)
    (hnd : (ts.map (fun t => t.addr)).Nodup) :
    ∃ h1, free_transfers_loop ts.length pre.length (pre ++ ts.map some) h
        = some (pre ++ ts.map (fun _ => none), h1) ∧
      h1.count BlockKind.handle + ts.length = h.count BlockKind.handle ∧
      (∀ k, k ≠ BlockKind.handle → h1.count k = h.count k) ∧
      (∀ b ∈ h.live, b.1 ≠ BlockKind.handle → b ∈ h1.live) := by
  induction ts generalizing pre h with
  | nil => exact ⟨h, by simp [free_transfers_loop], by simp, fun _ _ => rfl, fun _ hb _ => hb⟩
  | cons t ts ih =>
    have hf : t.flags = 0 := hflags t (by simp)
    have hm : (BlockKind.handle, t.addr) ∈ h.live := hmem t (by simp)
    have hnd1 : (ts.map (fun t => t.addr)).Nodup := (List.nodup_cons.mp hnd).2
    have hnot : t.addr ∉ ts.map (fun t => t.addr) := (List.nodup_cons.mp hnd).1
    have hmem1 : ∀ u ∈ ts,
        (BlockKind.handle, u.addr) ∈ (h.free BlockKind.handle t.addr).live := by
      intro u hu
      apply mem_free_of_ne _ _ _ _ (hmem u (by simp [hu]))
      intro heq
      apply hnot
      have : u.addr = t.addr := by simpa using heq
      rw [← this]
      exact List.mem_map_of_mem _ hu
    obtain ⟨h1, hrun, hcnt, hother, hkeep⟩ :=
      ih (pre ++ [none]) (h.free BlockKind.handle t.addr)
        (fun u hu => hflags u (by simp [hu])) hmem1 hnd1
    refine ⟨h1, ?_, ?_, ?_, ?_⟩
    · simp only [List.length_append, List.length_singleton, List.append_assoc,
        List.singleton_append] at hrun
      simp only [List.length_cons, List.map_cons, free_transfers_loop, get?_mid, set_mid,
        libusb_free_transfer_of_no_flags t h hf]
      exact hrun
    · have := count_free_mem BlockKind.handle t.addr h hm
      simp only [List.length_cons]
      omega
    · intro k hk
      rw [hother k hk, count_free_other BlockKind.handle k t.addr h hk]
    · intro b hb hbk
      apply hkeep b _ hbk
      apply mem_free_of_ne _ _ _ _ hb
      intro heq
      apply hbk
      rw [heq]

theorem allocate_loop_step (env : Env) (device : hackrf_device) (n : Nat)
    (pre : List (Option libusb_transfer)) (h : Heap)
    (a1 : env.alloc_ok h.requests = true) (a2 : env.alloc_ok (h.requests + 1) = true) :
    allocate_transfers_loop env device (n + 1) pre.length
        (pre ++ List.replicate (n + 1) none) h
      = allocate_transfers_loop env device n (pre ++ [some (fresh_transfer device h.requests)]).length
          ((pre ++ [some (fresh_transfer device h.requests)]) ++ List.replicate n none)
          { requests := h.requests + 2
            live := (BlockKind.buffer, h.requests + 2) :: (BlockKind.handle, h.requests + 1)
              :: h.live } := by
  simp [allocate_transfers_loop, libusb_alloc_transfer, Heap.alloc, a1, a2,
    List.replicate_succ, set_mid, libusb_fill_bulk_transfer, fresh_transfer]

theorem allocate_loop_failure_codes (env : Env) (device : hackrf_device) (n : Nat)
    (pre : List (Option libusb_transfer)) (h : Heap)
    (a : env.alloc_ok h.requests = false ∨ env.alloc_ok (h.requests + 1) = false) :
    (allocate_transfers_loop env device (n + 1) pre.length
        (pre ++ List.replicate (n + 1) none) h).1 ≠ HACKRF_SUCCESS := by
  by_cases a1 : env.alloc_ok h.requests = true
  · have a2 : env.alloc_ok (h.requests + 1) = false := by
      rcases a with a | a
      · rw [a1] at a; exact absurd a (by decide)
      · exact a
    simp [allocate_transfers_loop, libusb_alloc_transfer, Heap.alloc, a1, a2]
  · simp [allocate_transfers_loop, libusb_alloc_transfer, Heap.alloc, a1]

theorem allocate_loop_success (env : Env) (device : hackrf_device) (n : Nat)
    (pre : List (Option libusb_transfer)) (h : Heap)
    (hs : (allocate_transfers_loop env device n pre.length
        (pre ++ List.replicate n none) h).1 = HACKRF_SUCCESS) :
    ∃ (ts : List libusb_transfer) (h1 : Heap), ts.length = n ∧
      allocate_transfers_loop env device n pre.length (pre ++ List.replicate n none) h
        = (HACKRF_SUCCESS, pre ++ ts.map some, h1) ∧
      (∀ t ∈ ts, t.flags = 0 ∧ t.buffer ≠ 0 ∧ t.length = device.buffer_size ∧
        h.requests < t.addr ∧ (BlockKind.handle, t.addr) ∈ h1.live) ∧
      (ts.map (fun t => t.addr)).Nodup ∧
      h1.count BlockKind.handle = h.count BlockKind.handle + n ∧
      h1.count BlockKind.buffer = h.count BlockKind.buffer + n ∧
      (∀ k, k ≠ BlockKind.handle → k ≠ BlockKind.buffer → h1.count k = h.count k) ∧
      (∀ b ∈ h.live, b ∈ h1.live) := by
  induction n generalizing pre h with
  | zero =>
    refine ⟨[], h, rfl, by simp [allocate_transfers_loop], ?_, by simp, rfl, rfl,
      fun _ _ _ => rfl, fun _ hb => hb⟩
    intro t ht
    simp at ht
  | succ n ih =>
    by_cases a1 : env.alloc_ok h.requests = true
    · by_cases a2 : env.alloc_ok (h.requests + 1) = true
      · rw [allocate_loop_step env device n pre h a1 a2] at hs ⊢
        obtain ⟨ts, h1, hlen, hrun, hts, hnd, hch, hcb, hck, hkeep⟩ := ih _ _ hs
        refine ⟨fresh_transfer device h.requests :: ts, h1, by simp [hlen], ?_, ?_, ?_, ?_, ?_,
          ?_, ?_⟩
        · rw [hrun]; simp
        · intro t ht
          rcases List.mem_cons.mp ht with heq | hin
          · subst heq
            refine ⟨rfl, by simp [fresh_transfer], rfl, by simp [fresh_transfer], ?_⟩
            apply hkeep
            simp [fresh_transfer]
          · obtain ⟨hf, hb, hl, hr, hm⟩ := hts t hin
            exact ⟨hf, hb, hl, by simp at hr; omega, hm⟩
        · rw [List.map_cons, List.nodup_cons]
          refine ⟨?_, hnd⟩
          intro hin
          obtain ⟨u, hu, hue⟩ := List.mem_map.mp hin
          have := (hts u hu).2.2.2.1
          simp [fresh_transfer] at hue this
          omega
        · rw [hch, count_cons, count_cons]
          simp [Heap.count]
          omega
        · rw [hcb, count_cons, count_cons]
          simp [Heap.count]
          omega
        · intro k hk1 hk2
          rw [hck k hk1 hk2, count_cons, count_cons]
          simp [Heap.count, hk1.symm, hk2.symm]
        · intro b hb
          apply hkeep
          simp [hb]
      · exact absurd hs (allocate_loop_failure_codes env device n pre h
          (Or.inr (by simpa using a2)))
    · exact absurd hs (allocate_loop_failure_codes env device n pre h
        (Or.inl (by simpa using a1)))

theorem allocate_success (env : Env) (device : hackrf_device) (w : World)
    (hnone : device.transfers = none)
    (hs : (allocate_transfers env device w).1 = HACKRF_SUCCESS) :
    ∃ (ts : List libusb_transfer) (h1 : Heap), ts.length = device.transfer_count ∧
      allocate_transfers env device w = (HACKRF_SUCCESS,
        { device with transfers := some { addr := w.heap.requests + 1, slots := ts.map some } },
        { w with heap := h1 }) ∧
      (∀ t ∈ ts, t.flags = 0 ∧ t.buffer ≠ 0 ∧ t.length = device.buffer_size ∧
        (BlockKind.handle, t.addr) ∈ h1.live) ∧
      (ts.map (fun t => t.addr)).Nodup ∧
      (BlockKind.pool, w.heap.requests + 1) ∈ h1.live ∧
      h1.count BlockKind.handle = w.heap.count BlockKind.handle + device.transfer_count ∧
      h1.count BlockKind.buffer = w.heap.count BlockKind.buffer + device.transfer_count ∧
      h1.count BlockKind.pool = w.heap.count BlockKind.pool + 1 ∧
      h1.count BlockKind.device = w.heap.count BlockKind.device := by
  by_cases a : env.alloc_ok w.heap.requests = true
  · have hrun : allocate_transfers env device w
        = ((allocate_transfers_loop env device device.transfer_count ([] : List (Option libusb_transfer)).length
            ([] ++ List.replicate device.transfer_count none)
            { requests := w.heap.requests + 1
              live := (BlockKind.pool, w.heap.requests + 1) :: w.heap.live }).1,
          { device with
            transfers := some (TransferArray.mk (w.heap.requests + 1)
              (allocate_transfers_loop env device device.transfer_count
                  ([] : List (Option libusb_transfer)).length ([] ++ List.replicate device.transfer_count none)
                  { requests := w.heap.requests + 1
                    live := (BlockKind.pool, w.heap.requests + 1) :: w.heap.live }).2.1) },
          { w with
            heap := (allocate_transfers_loop env device device.transfer_count
                  ([] : List (Option libusb_transfer)).length ([] ++ List.replicate device.transfer_count none)
                  { requests := w.heap.requests + 1
                    live := (BlockKind.pool, w.heap.requests + 1) :: w.heap.live }).2.2 }) := by
      simp [allocate_transfers, hnone, Heap.alloc, a]
    rw [hrun] at hs ⊢
    obtain ⟨ts, h1, hlen, hloop, hts, hnd, hch, hcb, hck, hkeep⟩ :=
      allocate_loop_success env device device.transfer_count ([] : List (Option libusb_transfer)) _ hs
    refine ⟨ts, h1, hlen, ?_, ?_, hnd, ?_, ?_, ?_, ?_, ?_⟩
    · rw [hloop]; simp
    · intro t ht
      obtain ⟨hf, hb, hl, _, hm⟩ := hts t ht
      exact ⟨hf, hb, hl, hm⟩
    · apply hkeep; simp
    · rw [hch, count_cons]; simp [Heap.count]
    · rw [hcb, count_cons]; simp [Heap.count]
    · rw [hck _ (by decide) (by decide), count_cons]; simp [Heap.count]
    · rw [hck _ (by decide) (by decide), count_cons]; simp [Heap.count]
  · have a0 : env.alloc_ok w.heap.requests = false := by simpa using a
    simp [allocate_transfers, hnone, Heap.alloc, a0] at hs

theorem release_after_allocate (device : hackrf_device) (w : World) (addr : Nat)
    (ts : List libusb_transfer)
    (hpool : device.transfers = some { addr := addr, slots := ts.map some })
    (hcount : device.transfer_count = ts.length)
    (hflags : ∀ t ∈ ts, t.flags = 0)
    (hmem : ∀ t ∈ ts, (BlockKind.handle, t.addr) ∈ w.heap.live)
    (hnd : (ts.map (fun t => t.addr)).Nodup)
    (harr : (BlockKind.pool, addr) ∈ w.heap.live) :
    ∃ w2, free_transfers device w = some (HACKRF_SUCCESS, { device with transfers := none }, w2) ∧
      w2.heap.count BlockKind.handle + ts.length = w.heap.count BlockKind.handle ∧
      w2.heap.count BlockKind.pool + 1 = w.heap.count BlockKind.pool ∧
      w2.heap.count BlockKind.buffer = w.heap.count BlockKind.buffer ∧
      w2.heap.count BlockKind.device = w.heap.count BlockKind.device := by
  obtain ⟨h1, hrun, hcnt, hother, hkeep⟩ := free_loop_handles ts [] w.heap hflags hmem hnd
  simp only [List.length_nil, List.nil_append] at hrun
  refine ⟨{ w with heap := h1.free BlockKind.pool addr }, ?_, ?_, ?_, ?_, ?_⟩
  · simp only [free_transfers, hpool, hcount, hrun]
  · rw [count_free_other _ _ _ _ (by decide)]; exact hcnt
  · have := count_free_mem BlockKind.pool addr h1 (hkeep _ harr (by simp))
    rw [← hother BlockKind.pool (by decide)]
    exact this
  · rw [count_free_other _ _ _ _ (by decide)]; exact hother _ (by decide)
  · rw [count_free_other _ _ _ _ (by decide)]; exact hother _ (by decide)

theorem allocate_loop_frame (env : Env) (device : hackrf_device) (n i : Nat)
    (slots : List (Option libusb_transfer)) (h : Heap) :
    (∀ b ∈ h.live, b ∈ (allocate_transfers_loop env device n i slots h).2.2.live) ∧
    (∀ k, k ≠ BlockKind.handle → k ≠ BlockKind.buffer →
      (allocate_transfers_loop env device n i slots h).2.2.count k = h.count k) := by
  induction n generalizing i slots h with
  | zero => simp [allocate_transfers_loop]
  | succ n ih =>
    by_cases a1 : env.alloc_ok h.requests = true
    · by_cases a2 : env.alloc_ok (h.requests + 1) = true
      · have hstep : allocate_transfers_loop env device (n + 1) i slots h
            = allocate_transfers_loop env device n (i + 1)
                (slots.set i (some (fresh_transfer device h.requests)))
                { requests := h.requests + 2
                  live := (BlockKind.buffer, h.requests + 2)
                    :: (BlockKind.handle, h.requests + 1) :: h.live } := by
          simp [allocate_transfers_loop, libusb_alloc_transfer, Heap.alloc, a1, a2,
            libusb_fill_bulk_transfer, fresh_transfer]
        rw [hstep]
        obtain ⟨hkeep, hcnt⟩ := ih (i + 1)
          (slots.set i (some (fresh_transfer device h.requests)))
          { requests := h.requests + 2
            live := (BlockKind.buffer, h.requests + 2)
              :: (BlockKind.handle, h.requests + 1) :: h.live }
        refine ⟨fun b hb => hkeep b (by simp [hb]), ?_⟩
        intro k hk1 hk2
        rw [hcnt k hk1 hk2, count_cons, count_cons]
        simp [Heap.count, hk1.symm, hk2.symm]
      · have a2f : env.alloc_ok (h.requests + 1) = false := by simpa using a2
        have hstop : (allocate_transfers_loop env device (n + 1) i slots h).2.2
            = { requests := h.requests + 2
                live := (BlockKind.handle, h.requests + 1) :: h.live } := by
          simp [allocate_transfers_loop, libusb_alloc_transfer, Heap.alloc, a1, a2f]
        rw [hstop]
        refine ⟨fun b hb => by simp [hb], ?_⟩
        intro k hk1 hk2
        rw [count_cons]
        simp [Heap.count, hk1.symm]
    · have a1f : env.alloc_ok h.requests = false := by simpa using a1
      have hstop : (allocate_transfers_loop env device (n + 1) i slots h).2.2
          = { requests := h.requests + 1, live := h.live } := by
        simp [allocate_transfers_loop, libusb_alloc_transfer, Heap.alloc, a1f]
      rw [hstop]
      exact ⟨fun b hb => hb, fun k _ _ => rfl⟩

theorem hackrf_open_eq (env : Env) (w : World) (hdev : env.open_device ≠ 0)
    (hcfg : env.set_configuration_result = 0) (hclaim : env.claim_interface_result = 0)
    (hmalloc : env.alloc_ok w.heap.requests = true) :
    hackrf_open env false w =
      if (allocate_transfers env (lib_device_init (w.heap.requests + 1) env.open_device)
          (w.at_allocate env)).1 ≠ HACKRF_SUCCESS then
        (HACKRF_ERROR_NO_MEM, none,
          { (allocate_transfers env (lib_device_init (w.heap.requests + 1) env.open_device)
              (w.at_allocate env)).2.2 with
            heap := (allocate_transfers env
              (lib_device_init (w.heap.requests + 1) env.open_device)
              (w.at_allocate env)).2.2.heap.free BlockKind.device (w.heap.requests + 1)
            usb_claimed := (allocate_transfers env
              (lib_device_init (w.heap.requests + 1) env.open_device)
              (w.at_allocate env)).2.2.usb_claimed.erase env.open_device
            usb_open := (allocate_transfers env
              (lib_device_init (w.heap.requests + 1) env.open_device)
              (w.at_allocate env)).2.2.usb_open.erase env.open_device })
      else
        (HACKRF_SUCCESS,
          some (allocate_transfers env (lib_device_init (w.heap.requests + 1) env.open_device)
            (w.at_allocate env)).2.1,
          (allocate_transfers env (lib_device_init (w.heap.requests + 1) env.open_device)
            (w.at_allocate env)).2.2) := by
  simp [hackrf_open, hdev, hcfg, hclaim, Heap.alloc, hmalloc, World.at_allocate]

theorem hackrf_open_success_inv (env : Env) (w : World)
    (hopen : (hackrf_open env false w).1 = HACKRF_SUCCESS) :
    env.open_device ≠ 0 ∧ env.set_configuration_result = 0 ∧ env.claim_interface_result = 0 ∧
      env.alloc_ok w.heap.requests = true := by
  by_cases hdev : env.open_device = 0
  · simp [hackrf_open, hdev] at hopen
  · by_cases hcfg : env.set_configuration_result = 0
    · by_cases hclaim : env.claim_interface_result = 0
      · by_cases hmalloc : env.alloc_ok w.heap.requests = true
        · exact ⟨hdev, hcfg, hclaim, hmalloc⟩
        · simp [hackrf_open, hdev, hcfg, hclaim, Heap.alloc, hmalloc] at hopen
      · simp [hackrf_open, hdev, hcfg, hclaim] at hopen
    · simp [hackrf_open, hdev, hcfg] at hopen

theorem allocate_heap_eq (env : Env) (device : hackrf_device) (w : World)
    (hnone : device.transfers = none) (hcalloc : env.alloc_ok w.heap.requests = true) :
    (allocate_transfers env device w).2.2.heap
      = (allocate_transfers_loop env device device.transfer_count 0
          (List.replicate device.transfer_count none)
          { requests := w.heap.requests + 1
            live := (BlockKind.pool, w.heap.requests + 1) :: w.heap.live }).2.2 := by
  simp [allocate_transfers, hnone, Heap.alloc, hcalloc]

/-- C5 fails on the code, at every index: whenever `hackrf_open` got as far as
a pool array (device found, configured and claimed, the device struct and the
array allocated) and then fails, which under these conditions means that the
allocation of some transfer handle or buffer failed, it returns
`HACKRF_ERROR_NO_MEM` with no handle stored while the pool array, at address
`requests + 2`, is still allocated: one more live pool block than before the
call.  The device struct itself has been freed. -/
theorem C5_failed_open_keeps_pool (env : Env) (w : World) (hdev : env.open_device ≠ 0)
    (hcfg : env.set_configuration_result = 0) (hclaim : env.claim_interface_result = 0)
    (hmalloc : env.alloc_ok w.heap.requests = true)
    (hcalloc : env.alloc_ok (w.heap.requests + 1) = true)
    (hfail : (hackrf_open env false w).1 ≠ HACKRF_SUCCESS) :
    (hackrf_open env false w).1 = HACKRF_ERROR_NO_MEM ∧
    (hackrf_open env false w).2.1 = none ∧
    (BlockKind.pool, w.heap.requests + 2) ∈ (hackrf_open env false w).2.2.heap.live ∧
    (hackrf_open env false w).2.2.heap.count BlockKind.pool
      = w.heap.count BlockKind.pool + 1 ∧
    (hackrf_open env false w).2.2.heap.count BlockKind.device
      = w.heap.count BlockKind.device := by
  have heq := hackrf_open_eq env w hdev hcfg hclaim hmalloc
  by_cases hs : (allocate_transfers env (lib_device_init (w.heap.requests + 1) env.open_device)
      (w.at_allocate env)).1 = HACKRF_SUCCESS
  · rw [heq] at hfail
    simp [hs] at hfail
  · rw [heq]
    simp only [ne_eq, hs, not_false_eq_true, if_true]
    have hheap := allocate_heap_eq env (lib_device_init (w.heap.requests + 1) env.open_device)
      (w.at_allocate env) rfl hcalloc
    obtain ⟨hkeep, hcnt⟩ := allocate_loop_frame env
      (lib_device_init (w.heap.requests + 1) env.open_device)
      (lib_device_init (w.heap.requests + 1) env.open_device).transfer_count 0
      (List.replicate (lib_device_init (w.heap.requests + 1) env.open_device).transfer_count none)
      { requests := (w.at_allocate env).heap.requests + 1
        live := (BlockKind.pool, (w.at_allocate env).heap.requests + 1)
          :: (w.at_allocate env).heap.live }
    rw [← hheap] at hkeep hcnt
    refine ⟨trivial, trivial, ?_, ?_, ?_⟩
    · apply mem_free_of_ne
      · apply hkeep
        simp [World.at_allocate]
      · simp
    · show Heap.count BlockKind.pool (Heap.free BlockKind.device _ _) = _
      rw [count_free_other _ _ _ _ (by decide), hcnt _ (by decide) (by decide), count_cons]
      simp [World.at_allocate, Heap.count]
    · show Heap.count BlockKind.device (Heap.free BlockKind.device _ _) = _
      have hm : (BlockKind.device, w.heap.requests + 1) ∈
          (allocate_transfers env (lib_device_init (w.heap.requests + 1) env.open_device)
            (w.at_allocate env)).2.2.heap.live := by
        apply hkeep
        simp [World.at_allocate]
      have h1 := count_free_mem BlockKind.device (w.heap.requests + 1) _ hm
      have h2 := hcnt BlockKind.device (by decide) (by decide)
      rw [count_cons] at h2
      simp [World.at_allocate, Heap.count] at h1 h2 ⊢
      omega

theorem C5_failed_open_keeps_pool_witness :
    (Env.alloc_fails_at 5).open_device ≠ 0 ∧
    (hackrf_open (Env.alloc_fails_at 5) false World.empty).1 ≠ HACKRF_SUCCESS ∧
    ((hackrf_open (Env.alloc_fails_at 5) false World.empty).1 = HACKRF_ERROR_NO_MEM ∧
      (hackrf_open (Env.alloc_fails_at 5) false World.empty).2.1 = none ∧
      (BlockKind.pool, World.empty.heap.requests + 2)
        ∈ (hackrf_open (Env.alloc_fails_at 5) false World.empty).2.2.heap.live ∧
      (hackrf_open (Env.alloc_fails_at 5) false World.empty).2.2.heap.count BlockKind.pool
        = World.empty.heap.count BlockKind.pool + 1 ∧
      (hackrf_open (Env.alloc_fails_at 5) false World.empty).2.2.heap.count BlockKind.device
        = World.empty.heap.count BlockKind.device) ∧
    (hackrf_open (Env.alloc_fails_at 5) false World.empty).2.2.heap.live
      = [(BlockKind.handle, 5), (BlockKind.buffer, 4), (BlockKind.handle, 3),
         (BlockKind.pool, 2)] :=
  ⟨by decide, by decide,
   C5_failed_open_keeps_pool (Env.alloc_fails_at 5) World.empty (by decide) rfl rfl rfl rfl
     (by decide),
   by decide⟩

/-- C7 fails on the code: whenever `hackrf_open` succeeds, its
`allocate_transfers` has added 1024 transfer handles, 1024 buffers and the pool
array to the heap; `free_transfers` on that handle then returns
`HACKRF_SUCCESS` with the pool pointer `NULL`, all 1024 handles and the array
freed, and all 1024 buffers still allocated (the handles do not carry
`LIBUSB_TRANSFER_FREE_BUFFER` and no `free` is called on the buffers). -/
theorem C7_release_keeps_buffers (env : Env) (w : World)
    (hopen : (hackrf_open env false w).1 = HACKRF_SUCCESS) :
    ∃ dev w1 w2, hackrf_open env false w = (HACKRF_SUCCESS, some dev, w1) ∧
      dev.transfer_count = 1024 ∧ dev.buffer_size = 16384 ∧
      w1.heap.count BlockKind.handle = w.heap.count BlockKind.handle + 1024 ∧
      w1.heap.count BlockKind.buffer = w.heap.count BlockKind.buffer + 1024 ∧
      w1.heap.count BlockKind.pool = w.heap.count BlockKind.pool + 1 ∧
      free_transfers dev w1 = some (HACKRF_SUCCESS, { dev with transfers := none }, w2) ∧
      w2.heap.count BlockKind.handle = w.heap.count BlockKind.handle ∧
      w2.heap.count BlockKind.pool = w.heap.count BlockKind.pool ∧
      w2.heap.count BlockKind.buffer = w.heap.count BlockKind.buffer + 1024 := by
  obtain ⟨hdev, hcfg, hclaim, hmalloc⟩ := hackrf_open_success_inv env w hopen
  have heq := hackrf_open_eq env w hdev hcfg hclaim hmalloc
  by_cases hs : (allocate_transfers env (lib_device_init (w.heap.requests + 1) env.open_device)
      (w.at_allocate env)).1 = HACKRF_SUCCESS
  · obtain ⟨ts, h1, hlen, hrun, hts, hnd, harr, hch, hcb, hcp, _⟩ :=
      allocate_success env (lib_device_init (w.heap.requests + 1) env.open_device)
        (w.at_allocate env) rfl hs
    rw [hrun] at heq
    simp only [ne_eq, not_true_eq_false, if_false] at heq
    have hb0 : (w.at_allocate env).heap.count BlockKind.buffer = w.heap.count BlockKind.buffer := by
      simp [World.at_allocate, Heap.count]
    have hh0 : (w.at_allocate env).heap.count BlockKind.handle = w.heap.count BlockKind.handle := by
      simp [World.at_allocate, Heap.count]
    have hp0 : (w.at_allocate env).heap.count BlockKind.pool = w.heap.count BlockKind.pool := by
      simp [World.at_allocate, Heap.count]
    have hN : (lib_device_init (w.heap.requests + 1) env.open_device).transfer_count = 1024 := rfl
    obtain ⟨w2, hfree, hfh, hfp, hfb, _⟩ := release_after_allocate
      { lib_device_init (w.heap.requests + 1) env.open_device with
        transfers := some (TransferArray.mk ((w.at_allocate env).heap.requests + 1)
          (ts.map some)) }
      { w.at_allocate env with heap := h1 } ((w.at_allocate env).heap.requests + 1) ts rfl
      (by rw [hlen]) (fun t ht => (hts t ht).1) (fun t ht => (hts t ht).2.2.2) hnd harr
    refine ⟨_, _, w2, heq, rfl, rfl, ?_, ?_, ?_, hfree, ?_, ?_, ?_⟩
    · show Heap.count BlockKind.handle h1 = _
      rw [hch, hh0, hN]
    · show Heap.count BlockKind.buffer h1 = _
      rw [hcb, hb0, hN]
    · show Heap.count BlockKind.pool h1 = _
      rw [hcp, hp0]
    · have e1 : Heap.count BlockKind.handle w2.heap + ts.length
          = Heap.count BlockKind.handle h1 := hfh
      rw [hch, hh0, hN, hlen, hN] at e1
      omega
    · have e1 : Heap.count BlockKind.pool w2.heap + 1 = Heap.count BlockKind.pool h1 := hfp
      rw [hcp, hp0] at e1
      omega
    · have e1 : Heap.count BlockKind.buffer w2.heap = Heap.count BlockKind.buffer h1 := hfb
      rw [e1, hcb, hb0, hN]
  · rw [heq] at hopen
    simp [hs] at hopen

set_option maxRecDepth 100000 in
theorem C7_release_keeps_buffers_witness :
    (hackrf_open Env.all_ok false World.empty).1 = HACKRF_SUCCESS ∧
    ∃ dev w1 w2, hackrf_open Env.all_ok false World.empty = (HACKRF_SUCCESS, some dev, w1) ∧
      dev.transfer_count = 1024 ∧ dev.buffer_size = 16384 ∧
      w1.heap.count BlockKind.handle = World.empty.heap.count BlockKind.handle + 1024 ∧
      w1.heap.count BlockKind.buffer = World.empty.heap.count BlockKind.buffer + 1024 ∧
      w1.heap.count BlockKind.pool = World.empty.heap.count BlockKind.pool + 1 ∧
      free_transfers dev w1 = some (HACKRF_SUCCESS, { dev with transfers := none }, w2) ∧
      w2.heap.count BlockKind.handle = World.empty.heap.count BlockKind.handle ∧
      w2.heap.count BlockKind.pool = World.empty.heap.count BlockKind.pool ∧
      w2.heap.count BlockKind.buffer = World.empty.heap.count BlockKind.buffer + 1024 :=
  ⟨by decide, C7_release_keeps_buffers Env.all_ok World.empty (by decide)⟩

/-! ## Streaming flag, stop -/

/-- C11: `streaming` is false in the handle stored by a successful
`hackrf_open`, false after `hackrf_stop_rx` and after `hackrf_stop_tx`
whatever they return, false after a completion callback whose status is not
`COMPLETED`, and false after an iteration of the event pump whose
event-servicing call returned an error (such an iteration returns whenever a
sink is registered). -/
theorem C11_streaming_cleared (env : Env) (w : World) (device : hackrf_device)
    (t : libusb_transfer) (completed : List libusb_transfer) (error : Int) :
    ((hackrf_open env false w).1 = HACKRF_SUCCESS →
      ∃ dev, (hackrf_open env false w).2.1 = some dev ∧ dev.streaming = false) ∧
    (hackrf_stop_rx env device w).2.1.streaming = false ∧
    (hackrf_stop_tx env device w).2.1.streaming = false ∧
    (t.status ≠ LIBUSB_TRANSFER_COMPLETED →
      ∃ d1 w1, hackrf_libusb_transfer_callback env t device w = some (d1, w1) ∧
        d1.streaming = false) ∧
    (error ≠ 0 →
      (∀ d1 w1, transfer_threadproc_iteration env completed error device w = some (d1, w1) →
        d1.streaming = false) ∧
      (device.callback ≠ 0 →
        ∃ d1 w1, transfer_threadproc_iteration env completed error device w = some (d1, w1) ∧
          d1.streaming = false)) := by
  refine ⟨?_, ?_, ?_, ?_, ?_⟩
  · intro hopen
    obtain ⟨hdev, hcfg, hclaim, hmalloc⟩ := hackrf_open_success_inv env w hopen
    have heq := hackrf_open_eq env w hdev hcfg hclaim hmalloc
    by_cases hs : (allocate_transfers env
        (lib_device_init (w.heap.requests + 1) env.open_device) (w.at_allocate env)).1
        = HACKRF_SUCCESS
    · obtain ⟨ts, h1, _, hrun, _⟩ :=
        allocate_success env (lib_device_init (w.heap.requests + 1) env.open_device)
          (w.at_allocate env) rfl hs
      rw [hrun] at heq
      simp only [ne_eq, not_true_eq_false, if_false] at heq
      rw [heq]
      exact ⟨_, rfl, rfl⟩
    · rw [heq] at hopen
      simp [hs] at hopen
  · simp only [hackrf_stop_rx, kill_transfer_thread]
    split
    · split <;> rfl
    · rfl
  · simp only [hackrf_stop_tx, kill_transfer_thread]
    split
    · split <;> rfl
    · rfl
  · intro hst
    exact ⟨{ device with streaming := false }, w,
      by simp [hackrf_libusb_transfer_callback, hst], rfl⟩
  · intro herr
    have hall : ∀ d1 w1,
        transfer_threadproc_iteration env completed error device w = some (d1, w1) →
        d1.streaming = false := by
      intro d1 w1 h
      simp only [transfer_threadproc_iteration] at h
      split at h
      · exact absurd h (by simp)
      · simp only [ne_eq, herr, not_false_eq_true, if_true, Option.some.injEq,
          Prod.mk.injEq] at h
        rw [← h.1]
    refine ⟨hall, ?_⟩
    intro hcb
    obtain ⟨d1, w1, hrun, _⟩ := run_callbacks_total env completed device w hcb
    refine ⟨{ d1 with streaming := false }, w1, ?_, rfl⟩
    simp [transfer_threadproc_iteration, hrun, herr]

set_option maxRecDepth 100000 in
theorem C11_streaming_cleared_witness :
    (hackrf_open Env.all_ok false World.empty).1 = HACKRF_SUCCESS ∧
    (∃ dev, (hackrf_open Env.all_ok false World.empty).2.1 = some dev ∧
      dev.streaming = false) ∧
    (hackrf_stop_rx Env.join_fails (started_device 0x81) (started_world 1)).1
      = HACKRF_ERROR_THREAD ∧
    (hackrf_stop_rx Env.join_fails (started_device 0x81) (started_world 1)).2.1.streaming
      = false ∧
    (∃ d1 w1, hackrf_libusb_transfer_callback Env.all_ok
        (scenario_transfer 0 LIBUSB_TRANSFER_ERROR) (started_device 0x81) (started_world 1)
        = some (d1, w1) ∧ d1.streaming = false) ∧
    (∃ d1 w1, transfer_threadproc_iteration Env.all_ok
        [scenario_transfer 2 LIBUSB_TRANSFER_COMPLETED] (-1) (started_device 0x81)
        (started_world 1) = some (d1, w1) ∧ d1.streaming = false) :=
  ⟨by decide,
   (C11_streaming_cleared Env.all_ok World.empty (started_device 0x81)
      (scenario_transfer 0 LIBUSB_TRANSFER_ERROR) [] 0).1 (by decide),
   by decide,
   (C11_streaming_cleared Env.join_fails (started_world 1) (started_device 0x81)
      (scenario_transfer 0 LIBUSB_TRANSFER_ERROR) [] 0).2.1,
   (C11_streaming_cleared Env.all_ok (started_world 1) (started_device 0x81)
      (scenario_transfer 0 LIBUSB_TRANSFER_ERROR) [] 0).2.2.2.1 (by decide),
   ((C11_streaming_cleared Env.all_ok (started_world 1) (started_device 0x81)
      (scenario_transfer 0 LIBUSB_TRANSFER_ERROR)
      [scenario_transfer 2 LIBUSB_TRANSFER_COMPLETED] (-1)).2.2.2.2 (by decide)).2
      (by decide)⟩

/-- C13: `kill_transfer_thread` (so `hackrf_stop_rx` and `hackrf_stop_tx`)
returns `HACKRF_SUCCESS` or `HACKRF_ERROR_THREAD` with `streaming` cleared;
`pthread_join` is called iff a thread is registered; the result is
`HACKRF_SUCCESS` iff no thread is registered or the join returns `0`, and then
`transfer_thread` is `0`; it is `HACKRF_ERROR_THREAD` iff a thread is
registered and the join fails, and then `transfer_thread` is unchanged; a
stop after a successful stop returns `HACKRF_SUCCESS` and changes neither the
device nor the world. -/
theorem C13_kill_transfer_thread (env : Env) (device : hackrf_device) (w : World) :
    hackrf_stop_rx env device w = kill_transfer_thread env device w ∧
    hackrf_stop_tx env device w = kill_transfer_thread env device w ∧
    ((kill_transfer_thread env device w).1 = HACKRF_SUCCESS ∨
      (kill_transfer_thread env device w).1 = HACKRF_ERROR_THREAD) ∧
    (kill_transfer_thread env device w).2.1.streaming = false ∧
    (kill_transfer_thread env device w).2.2.join_requests
      = w.join_requests + (if device.transfer_thread ≠ 0 then 1 else 0) ∧
    ((kill_transfer_thread env device w).1 = HACKRF_SUCCESS ↔
      device.transfer_thread = 0 ∨ env.pthread_join_result w.join_requests = 0) ∧
    ((kill_transfer_thread env device w).1 = HACKRF_SUCCESS →
      (kill_transfer_thread env device w).2.1.transfer_thread = 0) ∧
    ((kill_transfer_thread env device w).1 = HACKRF_ERROR_THREAD ↔
      device.transfer_thread ≠ 0 ∧ env.pthread_join_result w.join_requests ≠ 0) ∧
    ((kill_transfer_thread env device w).1 = HACKRF_ERROR_THREAD →
      (kill_transfer_thread env device w).2.1.transfer_thread = device.transfer_thread ∧
      (kill_transfer_thread env device w).2.2.threads = w.threads) ∧
    ((kill_transfer_thread env device w).1 = HACKRF_SUCCESS →
      kill_transfer_thread env (kill_transfer_thread env device w).2.1
          (kill_transfer_thread env device w).2.2
        = (HACKRF_SUCCESS, (kill_transfer_thread env device w).2.1,
            (kill_transfer_thread env device w).2.2)) := by
  by_cases ht : device.transfer_thread = 0
  · simp [hackrf_stop_rx, hackrf_stop_tx, kill_transfer_thread, ht]
  · by_cases hj : env.pthread_join_result w.join_requests = 0
    · simp [hackrf_stop_rx, hackrf_stop_tx, kill_transfer_thread, pthread_join, ht, hj]
    · simp [hackrf_stop_rx, hackrf_stop_tx, kill_transfer_thread, pthread_join, ht, hj]

theorem C13_kill_transfer_thread_witness :
    kill_transfer_thread Env.all_ok (started_device 0x81) (started_world 1)
      = (HACKRF_SUCCESS, { started_device 0x81 with streaming := false, transfer_thread := 0 },
          { started_world 1 with join_requests := 1, threads := [] }) ∧
    kill_transfer_thread Env.join_fails (started_device 0x81) (started_world 1)
      = (HACKRF_ERROR_THREAD, { started_device 0x81 with streaming := false },
          { started_world 1 with join_requests := 1 }) ∧
    kill_transfer_thread Env.all_ok
        { started_device 0x81 with streaming := false, transfer_thread := 0 }
        { started_world 1 with join_requests := 1, threads := [] }
      = (HACKRF_SUCCESS, { started_device 0x81 with streaming := false, transfer_thread := 0 },
          { started_world 1 with join_requests := 1, threads := [] }) :=
  ⟨by decide, by decide,
   by
    have h := (C13_kill_transfer_thread Env.all_ok (started_device 0x81)
      (started_world 1)).2.2.2.2.2.2.2.2.2 (by decide)
    have e : kill_transfer_thread Env.all_ok (started_device 0x81) (started_world 1)
        = (HACKRF_SUCCESS,
            { started_device 0x81 with streaming := false, transfer_thread := 0 },
            { started_world 1 with join_requests := 1, threads := [] }) := by decide
    rw [e] at h
    exact h⟩

/-! ## The transfer pool: submission -/

theorem accepted_of_all_ok (l : List libusb_transfer) :
    List.map Prod.fst (List.filter (fun s : Nat × Int => decide (s.2 = 0))
      (l.map (fun t => (t.addr, (0 : Int))))) = l.map (fun t => t.addr) := by
  induction l with
  | nil => rfl
  | cons t l ih => simp [ih]

theorem prepare_loop_all_ok (env : Env) (e : Nat) (cb : libusb_transfer_cb_fn)
    (ts : List libusb_transfer) (pre : List (Option libusb_transfer)) (w : World)
    (hok : ∀ i, i < ts.length → env.submit_result (w.submits.length + i) = 0) :
    prepare_transfers_loop env e cb ts.length pre.length (pre ++ ts.map some) w
      = some (HACKRF_SUCCESS, pre ++ ts.map (fun t => some (stamp e cb t)),
          { w with submits := w.submits ++ ts.map (fun t => (t.addr, 0)) }) := by
  induction ts generalizing pre w with
  | nil => simp [prepare_transfers_loop]
  | cons t ts ih =>
    have h0 : env.submit_result w.submits.length = 0 := by
      simpa using hok 0 (by simp)
    have hrest : ∀ i, i < ts.length →
        env.submit_result ((w.submits ++ [(t.addr, (0 : Int))]).length + i) = 0 := by
      intro i hi
      have := hok (i + 1) (by simp; omega)
      simpa [Nat.add_assoc, Nat.add_comm 1 i] using this
    have hstep := ih (pre ++ [some (stamp e cb t)])
      { w with submits := w.submits ++ [(t.addr, 0)] } hrest
    simp only [List.length_append, List.length_singleton, List.append_assoc,
      List.singleton_append] at hstep
    simp only [List.length_cons, List.map_cons, prepare_transfers_loop, get?_mid, set_mid]
    simp [libusb_submit_transfer, h0, stamp] at hstep ⊢
    exact hstep

theorem prepare_loop_first_failure (env : Env) (e : Nat) (cb : libusb_transfer_cb_fn)
    (ts : List libusb_transfer) (pre : List (Option libusb_transfer)) (w : World)
    (i : Nat) (hi : i < ts.length)
    (hfail : env.submit_result (w.submits.length + i) ≠ 0)
    (hok : ∀ j, j < i → env.submit_result (w.submits.length + j) = 0) :
    prepare_transfers_loop env e cb ts.length pre.length (pre ++ ts.map some) w
      = some (HACKRF_ERROR_LIBUSB,
          pre ++ ((ts.take (i + 1)).map (fun t => some (stamp e cb t))
            ++ (ts.drop (i + 1)).map some),
          { w with submits := w.submits ++ ((ts.take i).map (fun t => (t.addr, 0))
              ++ [(ts[i].addr, env.submit_result (w.submits.length + i))]) }) := by
  induction ts generalizing pre w i with
  | nil => simp at hi
  | cons t ts ih =>
    cases i with
    | zero =>
      simp only [List.length_cons, List.map_cons, prepare_transfers_loop, get?_mid, set_mid]
      simp at hfail
      simp [libusb_submit_transfer, hfail, stamp]
    | succ i =>
      have h0 : env.submit_result w.submits.length = 0 := by
        simpa using hok 0 (by omega)
      have hi1 : i < ts.length := by simpa using hi
      have hfail1 : env.submit_result ((w.submits ++ [(t.addr, (0 : Int))]).length + i) ≠ 0 := by
        simpa [Nat.add_assoc, Nat.add_comm 1 i] using hfail
      have hok1 : ∀ j, j < i →
          env.submit_result ((w.submits ++ [(t.addr, (0 : Int))]).length + j) = 0 := by
        intro j hj
        have := hok (j + 1) (by omega)
        simpa [Nat.add_assoc, Nat.add_comm 1 j] using this
      have hstep := ih (pre ++ [some (stamp e cb t)])
        { w with submits := w.submits ++ [(t.addr, 0)] } i hi1 hfail1 hok1
      simp only [List.length_append, List.length_singleton, List.append_assoc,
        List.singleton_append] at hstep
      simp only [List.length_cons, List.map_cons, prepare_transfers_loop, get?_mid, set_mid]
      simp [libusb_submit_transfer, h0, stamp, Nat.add_assoc, Nat.add_comm 1 i] at hstep ⊢
      exact hstep

theorem first_failure_exists (f : Nat → Int) (n : Nat) (h : ¬ ∀ i, i < n → f i = 0) :
    ∃ i, i < n ∧ f i ≠ 0 ∧ ∀ j, j < i → f j = 0 := by
  induction n with
  | zero => exact absurd (fun i hi => absurd hi (Nat.not_lt_zero i)) h
  | succ n ih =>
    by_cases hn : ∀ i, i < n → f i = 0
    · refine ⟨n, Nat.lt_succ_self n, ?_, hn⟩
      intro hz
      apply h
      intro i hi
      rcases Nat.lt_succ_iff_lt_or_eq.mp hi with hlt | heq
      · exact hn i hlt
      · rw [heq]; exact hz
    · obtain ⟨i, hi, hne, hlt⟩ := ih hn
      exact ⟨i, Nat.lt_succ_of_lt hi, hne, hlt⟩

/-- C6: `prepare_transfers` on a pool of `N` transfers, whatever the
submissions return.  It returns `HACKRF_SUCCESS` iff all `N` submissions
return `0`; then every transfer carries the endpoint and the callback and the
submissions made are those of transfers `0 .. N-1`, once each, in index order.
Otherwise, `i` being the first index whose submission fails, it returns
`HACKRF_ERROR_LIBUSB`, transfers `0 .. i-1` were submitted and stay in flight,
the failing submission of transfer `i` is the last one made, and the
transfers after `i` are neither modified nor submitted. -/
theorem C6_prepare_transfers (env : Env) (device : hackrf_device) (arr : TransferArray)
    (ts : List libusb_transfer) (e : Nat) (cb : libusb_transfer_cb_fn) (w : World)
    (hpool : device.transfers = some arr) (hslots : arr.slots = ts.map some)
    (hcount : device.transfer_count = ts.length) :
    ((∃ d1 w1, prepare_transfers env device e cb w = some (HACKRF_SUCCESS, d1, w1)) ↔
      ∀ i, i < ts.length → env.submit_result (w.submits.length + i) = 0) ∧
    ((∀ i, i < ts.length → env.submit_result (w.submits.length + i) = 0) →
      prepare_transfers env device e cb w = some (HACKRF_SUCCESS,
        { device with
          transfers := some { arr with slots := ts.map (fun t => some (stamp e cb t)) } },
        { w with submits := w.submits ++ ts.map (fun t => (t.addr, 0)) })) ∧
    (∀ i (hi : i < ts.length), env.submit_result (w.submits.length + i) ≠ 0 →
      (∀ j, j < i → env.submit_result (w.submits.length + j) = 0) →
      ∃ w1, prepare_transfers env device e cb w = some (HACKRF_ERROR_LIBUSB,
        { device with
          transfers := some { arr with
            slots := (ts.take (i + 1)).map (fun t => some (stamp e cb t))
              ++ (ts.drop (i + 1)).map some } }, w1) ∧
        w1 = { w with submits := w.submits ++ ((ts.take i).map (fun t => (t.addr, 0))
              ++ [(ts[i].addr, env.submit_result (w.submits.length + i))]) } ∧
        w1.in_flight = w.in_flight ++ (ts.take i).map (fun t => t.addr)) := by
  have hall : (∀ i, i < ts.length → env.submit_result (w.submits.length + i) = 0) →
      prepare_transfers env device e cb w = some (HACKRF_SUCCESS,
        { device with
          transfers := some { arr with slots := ts.map (fun t => some (stamp e cb t)) } },
        { w with submits := w.submits ++ ts.map (fun t => (t.addr, 0)) }) := by
    intro hok
    have h := prepare_loop_all_ok env e cb ts [] w hok
    simp only [List.length_nil, List.nil_append] at h
    simp only [prepare_transfers, hpool, hslots, hcount, h]
  have hfirst : ∀ i (hi : i < ts.length), env.submit_result (w.submits.length + i) ≠ 0 →
      (∀ j, j < i → env.submit_result (w.submits.length + j) = 0) →
      prepare_transfers env device e cb w = some (HACKRF_ERROR_LIBUSB,
        { device with
          transfers := some { arr with
            slots := (ts.take (i + 1)).map (fun t => some (stamp e cb t))
              ++ (ts.drop (i + 1)).map some } },
        { w with submits := w.submits ++ ((ts.take i).map (fun t => (t.addr, 0))
              ++ [(ts[i].addr, env.submit_result (w.submits.length + i))]) }) := by
    intro i hi hfail hok
    have h := prepare_loop_first_failure env e cb ts [] w i hi hfail hok
    simp only [List.length_nil, List.nil_append] at h
    simp only [prepare_transfers, hpool, hslots, hcount, h]
  refine ⟨⟨?_, fun hok => ⟨_, _, hall hok⟩⟩, hall, ?_⟩
  · rintro ⟨d1, w1, hres⟩
    by_contra hnot
    obtain ⟨i, hi, hne, hlt⟩ :=
      first_failure_exists (fun i => env.submit_result (w.submits.length + i)) ts.length hnot
    rw [hfirst i hi hne hlt] at hres
    simp at hres
  · intro i hi hfail hok
    refine ⟨_, hfirst i hi hfail hok, rfl, ?_⟩
    simp only [World.in_flight, List.filter_append, List.map_append, accepted_of_all_ok]
    simp [hfail]

theorem C6_prepare_transfers_witness :
    idle_device.transfers = some idle_array ∧
    idle_array.slots = idle_pool.map some ∧
    idle_device.transfer_count = idle_pool.length ∧
    prepare_transfers Env.all_ok idle_device 0x81
        libusb_transfer_cb_fn.hackrf_libusb_transfer_callback World.empty
      = some (HACKRF_SUCCESS,
          { idle_device with
            transfers := some { idle_array with
              slots := idle_pool.map (fun t =>
                some (stamp 0x81 libusb_transfer_cb_fn.hackrf_libusb_transfer_callback t)) } },
          { World.empty with
            submits := World.empty.submits ++ idle_pool.map (fun t => (t.addr, 0)) }) ∧
    prepare_transfers (Env.submit_fails_at 1) idle_device 0x81
        libusb_transfer_cb_fn.hackrf_libusb_transfer_callback World.empty
      = some (HACKRF_ERROR_LIBUSB, half_submitted_device 0x81,
          { World.empty with submits := [(10, 0), (11, -1)] }) ∧
    ∃ w1, prepare_transfers (Env.submit_fails_at 1) idle_device 0x81
        libusb_transfer_cb_fn.hackrf_libusb_transfer_callback World.empty
      = some (HACKRF_ERROR_LIBUSB,
          { idle_device with
            transfers := some { idle_array with
              slots := (idle_pool.take (1 + 1)).map (fun t =>
                  some (stamp 0x81 libusb_transfer_cb_fn.hackrf_libusb_transfer_callback t))
                ++ (idle_pool.drop (1 + 1)).map some } }, w1) ∧
        w1 = { World.empty with
          submits := World.empty.submits ++ ((idle_pool.take 1).map (fun t => (t.addr, 0))
            ++ [((idle_pool.get ⟨1, by decide⟩).addr,
                (Env.submit_fails_at 1).submit_result (World.empty.submits.length + 1))]) } ∧
        w1.in_flight = World.empty.in_flight ++ (idle_pool.take 1).map (fun t => t.addr) :=
  ⟨rfl, rfl, rfl,
   (C6_prepare_transfers Env.all_ok idle_device idle_array idle_pool 0x81
      libusb_transfer_cb_fn.hackrf_libusb_transfer_callback World.empty rfl rfl rfl).2.1
      (fun _ _ => rfl),
   by decide,
   (C6_prepare_transfers (Env.submit_fails_at 1) idle_device idle_array idle_pool 0x81
      libusb_transfer_cb_fn.hackrf_libusb_transfer_callback World.empty rfl rfl rfl).2.2
      1 (by decide) (by decide) (by decide)⟩

/-! ## Thread creation that fails -/

theorem prepare_transfers_all_ok (env : Env) (device : hackrf_device) (arr : TransferArray)
    (ts : List libusb_transfer) (e : Nat) (cb : libusb_transfer_cb_fn) (w : World)
    (hpool : device.transfers = some arr) (hslots : arr.slots = ts.map some)
    (hcount : device.transfer_count = ts.length)
    (hok : ∀ i, i < ts.length → env.submit_result (w.submits.length + i) = 0) :
    prepare_transfers env device e cb w = some (HACKRF_SUCCESS,
      { device with
        transfers := some { arr with slots := ts.map (fun t => some (stamp e cb t)) } },
      { w with submits := w.submits ++ ts.map (fun t => (t.addr, 0)) }) := by
  have h := prepare_loop_all_ok env e cb ts [] w hok
  simp only [List.length_nil, List.nil_append] at h
  simp only [prepare_transfers, hpool, hslots, hcount, h]

/-- C12 fails on the code: on an idle handle with its pool (no thread
registered, as after `hackrf_open`), when the mode select and every submission
succeed and `pthread_create` fails, `hackrf_start_tx` returns
`HACKRF_ERROR_THREAD` and leaves `streaming` true with no thread registered
(`transfer_thread == 0`) and no thread created; `hackrf_start_rx` leaves the
same state and returns `HACKRF_SUCCESS`. -/
theorem C12_failed_start_leaves_streaming (env : Env) (device : hackrf_device)
    (arr : TransferArray) (ts : List libusb_transfer) (cb : Nat) (w : World)
    (hidle : device.transfer_thread = 0)
    (hpool : device.transfers = some arr) (hslots : arr.slots = ts.map some)
    (hcount : device.transfer_count = ts.length)
    (hmode : env.control_result w.controls.length = 0)
    (hsub : ∀ i, i < ts.length → env.submit_result (w.submits.length + i) = 0)
    (hthread : env.pthread_create_result w.thread_requests ≠ 0) :
    (∃ d1 w1, hackrf_start_tx env device cb w = some (HACKRF_ERROR_THREAD, d1, w1) ∧
      d1.streaming = true ∧ hackrf_is_streaming d1 = true ∧ d1.transfer_thread = 0 ∧
      w1.threads = w.threads) ∧
    (∃ d1 w1, hackrf_start_rx env device cb w = some (HACKRF_SUCCESS, d1, w1) ∧
      d1.streaming = true ∧ hackrf_is_streaming d1 = true ∧ d1.transfer_thread = 0 ∧
      w1.threads = w.threads) := by
  have hm : ∀ m, hackrf_set_transceiver_mode env m w
      = (HACKRF_SUCCESS, { w with controls := w.controls ++
          [{ request_type := 0x40, request := 1, value := m.val, index := 0 }] }) := by
    intro m
    simp [hackrf_set_transceiver_mode, libusb_control_transfer, hmode, LIBUSB_ENDPOINT_OUT,
      LIBUSB_REQUEST_TYPE_VENDOR, LIBUSB_RECIPIENT_DEVICE,
      HACKRF_VENDOR_REQUEST_SET_TRANSCEIVER_MODE]
  have hp : ∀ (e : Nat) (m : hackrf_transceiver_mode),
      prepare_transfers env device e libusb_transfer_cb_fn.hackrf_libusb_transfer_callback
        { w with controls := w.controls ++
          [{ request_type := 0x40, request := 1, value := m.val, index := 0 }] }
      = some (HACKRF_SUCCESS,
        { device with
          transfers := some { arr with
            slots := ts.map (fun t =>
              some (stamp e libusb_transfer_cb_fn.hackrf_libusb_transfer_callback t)) } },
        { w with
          controls := w.controls ++
            [{ request_type := 0x40, request := 1, value := m.val, index := 0 }]
          submits := w.submits ++ ts.map (fun t => (t.addr, 0)) }) :=
    fun e m => prepare_transfers_all_ok env device arr ts e _ _ hpool hslots hcount hsub
  have hp1 := hp (LIBUSB_ENDPOINT_IN ||| 1)
    hackrf_transceiver_mode.HACKRF_TRANSCEIVER_MODE_RECEIVE
  have hp2 := hp (LIBUSB_ENDPOINT_OUT ||| 2)
    hackrf_transceiver_mode.HACKRF_TRANSCEIVER_MODE_TRANSMIT
  simp only [hackrf_transceiver_mode.val] at hp1 hp2
  have htx : hackrf_start_tx env device cb w = some (HACKRF_ERROR_THREAD,
      { device with
        transfers := some { arr with
          slots := ts.map (fun t => some
            (stamp (LIBUSB_ENDPOINT_OUT ||| 2)
              libusb_transfer_cb_fn.hackrf_libusb_transfer_callback t)) }
        callback := cb, streaming := true },
      { w with
        controls := w.controls ++ [{ request_type := 0x40, request := 1, value := 2, index := 0 }]
        submits := w.submits ++ ts.map (fun t => (t.addr, 0))
        thread_requests := w.thread_requests + 1 }) := by
    simp only [hackrf_start_tx, create_transfer_thread, hidle, hm, pthread_create,
      hthread, if_true, ne_eq, not_true_eq_false, if_false, not_false_eq_true,
      hackrf_transceiver_mode.val, hp2]
  have hrx : hackrf_start_rx env device cb w = some (HACKRF_SUCCESS,
      { device with
        transfers := some { arr with
          slots := ts.map (fun t => some
            (stamp (LIBUSB_ENDPOINT_IN ||| 1)
              libusb_transfer_cb_fn.hackrf_libusb_transfer_callback t)) }
        callback := cb, streaming := true },
      { w with
        controls := w.controls ++ [{ request_type := 0x40, request := 1, value := 1, index := 0 }]
        submits := w.submits ++ ts.map (fun t => (t.addr, 0))
        thread_requests := w.thread_requests + 1 }) := by
    simp only [hackrf_start_rx, create_transfer_thread, hidle, hm, pthread_create,
      hthread, if_true, ne_eq, not_true_eq_false, if_false, not_false_eq_true,
      hackrf_transceiver_mode.val, hp1]
  exact ⟨⟨_, _, htx, rfl, rfl, hidle, rfl⟩, ⟨_, _, hrx, rfl, rfl, hidle, rfl⟩⟩

theorem C12_failed_start_leaves_streaming_witness :
    idle_device.transfer_thread = 0 ∧
    Env.thread_fails.pthread_create_result World.empty.thread_requests ≠ 0 ∧
    hackrf_start_tx Env.thread_fails idle_device 9 World.empty
      = some (HACKRF_ERROR_THREAD, { started_device 0x02 with transfer_thread := 0 },
          { started_world 2 with threads := [] }) ∧
    (∃ d1 w1, hackrf_start_tx Env.thread_fails idle_device 9 World.empty
        = some (HACKRF_ERROR_THREAD, d1, w1) ∧
      d1.streaming = true ∧ hackrf_is_streaming d1 = true ∧ d1.transfer_thread = 0 ∧
      w1.threads = World.empty.threads) :=
  ⟨rfl, by decide, by decide,
   (C12_failed_start_leaves_streaming Env.thread_fails idle_device idle_array idle_pool 9
      World.empty rfl rfl rfl rfl rfl (fun _ _ => rfl) (by decide)).1⟩

/-! ## Close -/

theorem free_loop_total (n i : Nat) (slots : List (Option libusb_transfer)) (h : Heap)
    (hlen : i + n ≤ slots.length) :
    ∃ r, free_transfers_loop n i slots h = some r := by
  induction n generalizing i slots h with
  | zero => exact ⟨_, rfl⟩
  | succ n ih =>
    have hi : i < slots.length := by omega
    have hget : slots.get? i = some (slots.get ⟨i, hi⟩) := List.get?_eq_get hi
    cases hx : slots.get ⟨i, hi⟩ with
    | none =>
      rw [hx] at hget
      simp only [free_transfers_loop, hget]
      exact ih (i + 1) slots h (by omega)
    | some t =>
      rw [hx] at hget
      simp only [free_transfers_loop, hget]
      exact ih (i + 1) _ _ (by rw [List.length_set]; omega)

/-- C15: the four register-access functions.  Each returns
`HACKRF_ERROR_INVALID_PARAM` exactly on its bad arguments (`hackrf_max2837_read`
iff `register_number >= 32`, `hackrf_max2837_write` iff `register_number >= 32`
or `value >= 0x400`, `hackrf_si5351c_read` iff `register_number >= 256`,
`hackrf_si5351c_write` iff `register_number >= 256` or `value >= 256`) and then
issues no control request; on in-range arguments exactly one control request
is issued and the result is `HACKRF_ERROR_LIBUSB` or `HACKRF_SUCCESS` according
to the transport result alone (reads succeed iff at least 2, respectively 1,
bytes were transferred; writes iff the result is `0`). -/
theorem C15_register_access (env : Env) (register_number value : Nat) (w : World) :
    (((hackrf_max2837_read env register_number w).1 = HACKRF_ERROR_INVALID_PARAM
        ↔ register_number ≥ 32) ∧
      (register_number ≥ 32 → (hackrf_max2837_read env register_number w).2.2 = w) ∧
      (register_number < 32 →
        (hackrf_max2837_read env register_number w).2.2.controls = w.controls ++
          [{ request_type := 0xC0, request := 3, value := 0, index := register_number }] ∧
        (hackrf_max2837_read env register_number w).1
          = if env.control_result w.controls.length < 2 then HACKRF_ERROR_LIBUSB
            else HACKRF_SUCCESS)) ∧
    (((hackrf_max2837_write env register_number value w).1 = HACKRF_ERROR_INVALID_PARAM
        ↔ register_number ≥ 32 ∨ value ≥ 0x400) ∧
      (register_number ≥ 32 ∨ value ≥ 0x400 →
        (hackrf_max2837_write env register_number value w).2 = w) ∧
      (register_number < 32 → value < 0x400 →
        (hackrf_max2837_write env register_number value w).2.controls = w.controls ++
          [{ request_type := 0x40, request := 2, value := value, index := register_number }] ∧
        (hackrf_max2837_write env register_number value w).1
          = if env.control_result w.controls.length ≠ 0 then HACKRF_ERROR_LIBUSB
            else HACKRF_SUCCESS)) ∧
    (((hackrf_si5351c_read env register_number w).1 = HACKRF_ERROR_INVALID_PARAM
        ↔ register_number ≥ 256) ∧
      (register_number ≥ 256 → (hackrf_si5351c_read env register_number w).2.2 = w) ∧
      (register_number < 256 →
        (hackrf_si5351c_read env register_number w).2.2.controls = w.controls ++
          [{ request_type := 0xC0, request := 5, value := 0, index := register_number }] ∧
        (hackrf_si5351c_read env register_number w).1
          = if env.control_result w.controls.length < 1 then HACKRF_ERROR_LIBUSB
            else HACKRF_SUCCESS)) ∧
    (((hackrf_si5351c_write env register_number value w).1 = HACKRF_ERROR_INVALID_PARAM
        ↔ register_number ≥ 256 ∨ value ≥ 256) ∧
      (register_number ≥ 256 ∨ value ≥ 256 →
        (hackrf_si5351c_write env register_number value w).2 = w) ∧
      (register_number < 256 → value < 256 →
        (hackrf_si5351c_write env register_number value w).2.controls = w.controls ++
          [{ request_type := 0x40, request := 4, value := value, index := register_number }] ∧
        (hackrf_si5351c_write env register_number value w).1
          = if env.control_result w.controls.length ≠ 0 then HACKRF_ERROR_LIBUSB
            else HACKRF_SUCCESS)) := by
  refine ⟨?_, ?_, ?_, ?_⟩
  · by_cases hr : register_number ≥ 32
    · simp [hackrf_max2837_read, hr]
    · have hr1 : register_number < 32 := by omega
      by_cases hc : env.control_result w.controls.length < 2
      · simp [hackrf_max2837_read, hr, hr1, hc, libusb_control_transfer_in,
          LIBUSB_ENDPOINT_IN, LIBUSB_REQUEST_TYPE_VENDOR, LIBUSB_RECIPIENT_DEVICE,
          HACKRF_VENDOR_REQUEST_MAX2837_READ]
      · simp [hackrf_max2837_read, hr, hr1, hc, libusb_control_transfer_in,
          LIBUSB_ENDPOINT_IN, LIBUSB_REQUEST_TYPE_VENDOR, LIBUSB_RECIPIENT_DEVICE,
          HACKRF_VENDOR_REQUEST_MAX2837_READ]
  · by_cases hr : register_number ≥ 32
    · simp [hackrf_max2837_write, hr]
    · have hr1 : register_number < 32 := by omega
      by_cases hv : value ≥ 0x400
      · simp [hackrf_max2837_write, hr, hr1, hv]
      · have hv1 : value < 0x400 := by omega
        by_cases hc : env.control_result w.controls.length = 0
        · simp [hackrf_max2837_write, hr, hr1, hv, hv1, hc, libusb_control_transfer,
            LIBUSB_ENDPOINT_OUT, LIBUSB_REQUEST_TYPE_VENDOR, LIBUSB_RECIPIENT_DEVICE,
            HACKRF_VENDOR_REQUEST_MAX2837_WRITE]
        · simp [hackrf_max2837_write, hr, hr1, hv, hv1, hc, libusb_control_transfer,
            LIBUSB_ENDPOINT_OUT, LIBUSB_REQUEST_TYPE_VENDOR, LIBUSB_RECIPIENT_DEVICE,
            HACKRF_VENDOR_REQUEST_MAX2837_WRITE]
  · by_cases hr : register_number ≥ 256
    · simp [hackrf_si5351c_read, hr]
    · have hr1 : register_number < 256 := by omega
      by_cases hc : env.control_result w.controls.length < 1
      · simp [hackrf_si5351c_read, hr, hr1, hc, libusb_control_transfer_in,
          LIBUSB_ENDPOINT_IN, LIBUSB_REQUEST_TYPE_VENDOR, LIBUSB_RECIPIENT_DEVICE,
          HACKRF_VENDOR_REQUEST_SI5351C_READ]
      · simp [hackrf_si5351c_read, hr, hr1, hc, libusb_control_transfer_in,
          LIBUSB_ENDPOINT_IN, LIBUSB_REQUEST_TYPE_VENDOR, LIBUSB_RECIPIENT_DEVICE,
          HACKRF_VENDOR_REQUEST_SI5351C_READ]
  · by_cases hr : register_number ≥ 256
    · simp [hackrf_si5351c_write, hr]
    · have hr1 : register_number < 256 := by omega
      by_cases hv : value ≥ 256
      · simp [hackrf_si5351c_write, hr, hr1, hv]
      · have hv1 : value < 256 := by omega
        by_cases hc : env.control_result w.controls.length = 0
        · simp [hackrf_si5351c_write, hr, hr1, hv, hv1, hc, libusb_control_transfer,
            LIBUSB_ENDPOINT_OUT, LIBUSB_REQUEST_TYPE_VENDOR, LIBUSB_RECIPIENT_DEVICE,
            HACKRF_VENDOR_REQUEST_SI5351C_WRITE]
        · simp [hackrf_si5351c_write, hr, hr1, hv, hv1, hc, libusb_control_transfer,
            LIBUSB_ENDPOINT_OUT, LIBUSB_REQUEST_TYPE_VENDOR, LIBUSB_RECIPIENT_DEVICE,
            HACKRF_VENDOR_REQUEST_SI5351C_WRITE]

/-! ## The write offset of the sample buffer -/

theorem next_offset_eq_mod (o : Nat) : next_offset o = (o + 32) % 2 ^ 32 % 32768 := by
  unfold next_offset usb_bulk_buffer_mask
  exact Nat.and_pow_two_sub_one_eq_mod _ 15

theorem sgpio_irqhandler_offset (s : Firmware) :
    (sgpio_irqhandler s).usb_bulk_buffer_offset = next_offset s.usb_bulk_buffer_offset := by
  rfl

theorem fire_offset (n : Nat) (s : Firmware) :
    (fire n s).usb_bulk_buffer_offset = offset_after n s.usb_bulk_buffer_offset := by
  induction n generalizing s with
  | zero => rfl
  | succ n ih => simp only [fire, offset_after, ih, sgpio_irqhandler_offset]

theorem offset_after_closed (n o : Nat) (ho : o < 32768) :
    offset_after n o = (o + 32 * n) % 32768 := by
  induction n generalizing o with
  | zero => simp [offset_after]; omega
  | succ n ih =>
    have h1 : next_offset o < 32768 := by rw [next_offset_eq_mod]; omega
    rw [offset_after, ih _ h1, next_offset_eq_mod]
    omega

/-- C8: with buffer size 32768 and group size 32, from every starting offset
below 32768 the offset is back at its starting value after 1024 firings of
`sgpio_irqhandler`, and after no smaller positive number of firings. -/
theorem C8_offset_period (s : Firmware) (h : s.usb_bulk_buffer_offset < 32768) :
    (fire 1024 s).usb_bulk_buffer_offset = s.usb_bulk_buffer_offset ∧
    ∀ n, 0 < n → n < 1024 →
      (fire n s).usb_bulk_buffer_offset ≠ s.usb_bulk_buffer_offset := by
  refine ⟨?_, ?_⟩
  · rw [fire_offset, offset_after_closed _ _ h]; omega
  · intro n h0 h1
    rw [fire_offset, offset_after_closed _ _ h]; omega

theorem C8_offset_period_witness :
    (Firmware.at_offset 4096).usb_bulk_buffer_offset < 32768 ∧
    ((fire 1024 (Firmware.at_offset 4096)).usb_bulk_buffer_offset
        = (Firmware.at_offset 4096).usb_bulk_buffer_offset ∧
      ∀ n, 0 < n → n < 1024 →
        (fire n (Firmware.at_offset 4096)).usb_bulk_buffer_offset
          ≠ (Firmware.at_offset 4096).usb_bulk_buffer_offset) :=
  ⟨by decide, C8_offset_period (Firmware.at_offset 4096) (by decide)⟩

/-- C9: over the 1024 firings of one wrap that starts at offset 0, the
half-buffer test of the scheduler loop (`offset < 16384`) changes value at
exactly two firings, the 512th, which brings the offset to 16384, and the
1024th, which wraps it to 0; the first wait is released only by the former
and the second wait only by the latter. -/
theorem C9_half_crossings (s : Firmware) (h : s.usb_bulk_buffer_offset = 0) :
    (∀ k, k < 1024 →
      (wait_buffer_0 (fire k s).usb_bulk_buffer_offset
          ≠ wait_buffer_0 (fire (k + 1) s).usb_bulk_buffer_offset
        ↔ k = 511 ∨ k = 1023)) ∧
    (fire 512 s).usb_bulk_buffer_offset = 16384 ∧
    (fire 1024 s).usb_bulk_buffer_offset = 0 ∧
    (∀ k, k < 1024 →
      (wait_buffer_0 (fire k s).usb_bulk_buffer_offset = true ∧
          wait_buffer_0 (fire (k + 1) s).usb_bulk_buffer_offset = false
        ↔ k = 511)) ∧
    (∀ k, k < 1024 →
      (wait_buffer_1 (fire k s).usb_bulk_buffer_offset = true ∧
          wait_buffer_1 (fire (k + 1) s).usb_bulk_buffer_offset = false
        ↔ k = 1023)) ∧
    ((List.range 1024).filter (fun k =>
        wait_buffer_0 (fire k s).usb_bulk_buffer_offset
          != wait_buffer_0 (fire (k + 1) s).usb_bulk_buffer_offset)).length = 2 := by
  have hc : ∀ k, (fire k s).usb_bulk_buffer_offset = 32 * k % 32768 := by
    intro k
    rw [fire_offset, h, offset_after_closed _ _ (by omega)]
    simp
  have key : ∀ k, k < 1024 →
      (wait_buffer_0 (fire k s).usb_bulk_buffer_offset
          ≠ wait_buffer_0 (fire (k + 1) s).usb_bulk_buffer_offset
        ↔ k = 511 ∨ k = 1023) := by
    intro k hk
    simp only [hc, wait_buffer_0, ne_eq, decide_eq_decide]
    omega
  refine ⟨key, ?_, ?_, ?_, ?_, ?_⟩
  · rw [hc]
  · rw [hc]
  · intro k hk
    simp only [hc, wait_buffer_0, decide_eq_true_eq, decide_eq_false_iff_not]
    omega
  · intro k hk
    simp only [hc, wait_buffer_1, decide_eq_true_eq, decide_eq_false_iff_not]
    omega
  · have hf : (List.range 1024).filter (fun k =>
        wait_buffer_0 (fire k s).usb_bulk_buffer_offset
          != wait_buffer_0 (fire (k + 1) s).usb_bulk_buffer_offset)
        = (List.range 1024).filter (fun k => decide (k = 511 ∨ k = 1023)) := by
      apply List.filter_congr
      intro k hk
      have hk1 : k < 1024 := List.mem_range.mp hk
      have := key k hk1
      by_cases hx : k = 511 ∨ k = 1023
      · simp only [hx, decide_True, bne_iff_ne]; exact this.mpr hx
      · simp only [hx, decide_False, bne_eq_false_iff_eq]
        exact not_not.mp (fun hne => hx (this.mp hne))
    rw [hf]
    set_option maxRecDepth 100000 in decide

theorem C9_half_crossings_witness :
    (Firmware.at_offset 0).usb_bulk_buffer_offset = 0 ∧
    (fire 512 (Firmware.at_offset 0)).usb_bulk_buffer_offset = 16384 :=
  ⟨rfl, (C9_half_crossings (Firmware.at_offset 0) rfl).2.1⟩

/-- C10: for every value of `usb_bulk_buffer_offset`, so for every 32-bit
value and also where the 32-bit addition wraps, one firing of
`sgpio_irqhandler` leaves the offset equal to `(old + 32) mod 32768`, which
lies in `[0, 32768)`. -/
theorem C10_offset_step (s : Firmware) :
    (sgpio_irqhandler s).usb_bulk_buffer_offset = (s.usb_bulk_buffer_offset + 32) % 32768 ∧
    (sgpio_irqhandler s).usb_bulk_buffer_offset < 32768 := by
  rw [sgpio_irqhandler_offset, next_offset_eq_mod]
  omega

/-! ## The words moved by the interrupt handler -/

theorem store32_other (m : Nat → Nat) (a v x : Nat) (ha : a + 3 < 2 ^ 32)
    (hx : x < a ∨ a + 4 ≤ x) : store32 m a v x = m x := by
  have h0 : a % 2 ^ 32 = a := Nat.mod_eq_of_lt (by omega)
  have h1 : (a + 1) % 2 ^ 32 = a + 1 := Nat.mod_eq_of_lt (by omega)
  have h2 : (a + 2) % 2 ^ 32 = a + 2 := Nat.mod_eq_of_lt (by omega)
  have h3 : (a + 3) % 2 ^ 32 = a + 3 := Nat.mod_eq_of_lt (by omega)
  simp only [store32, h0, h1, h2, h3]
  rw [if_neg (by omega), if_neg (by omega), if_neg (by omega), if_neg (by omega)]

theorem load32_store32_same (m : Nat → Nat) (a v : Nat) (ha : a + 3 < 2 ^ 32) :
    load32 (store32 m a v) a = v % 2 ^ 32 := by
  have h0 : a % 2 ^ 32 = a := Nat.mod_eq_of_lt (by omega)
  have h1 : (a + 1) % 2 ^ 32 = a + 1 := Nat.mod_eq_of_lt (by omega)
  have h2 : (a + 2) % 2 ^ 32 = a + 2 := Nat.mod_eq_of_lt (by omega)
  have h3 : (a + 3) % 2 ^ 32 = a + 3 := Nat.mod_eq_of_lt (by omega)
  have e1 : ¬ a + 1 = a := by omega
  have e2 : ¬ a + 2 = a := by omega
  have e3 : ¬ a + 2 = a + 1 := by omega
  have e4 : ¬ a + 3 = a := by omega
  have e5 : ¬ a + 3 = a + 1 := by omega
  have e6 : ¬ a + 3 = a + 2 := by omega
  simp only [load32, store32, h0, h1, h2, h3, if_true, e1, e2, e3, e4, e5, e6, if_false]
  omega

theorem load32_store32_other (m : Nat → Nat) (a v b : Nat) (ha : a + 3 < 2 ^ 32)
    (hb : b + 3 < 2 ^ 32) (hd : b + 4 ≤ a ∨ a + 4 ≤ b) :
    load32 (store32 m a v) b = load32 m b := by
  have h0 : b % 2 ^ 32 = b := Nat.mod_eq_of_lt (by omega)
  have h1 : (b + 1) % 2 ^ 32 = b + 1 := Nat.mod_eq_of_lt (by omega)
  have h2 : (b + 2) % 2 ^ 32 = b + 2 := Nat.mod_eq_of_lt (by omega)
  have h3 : (b + 3) % 2 ^ 32 = b + 3 := Nat.mod_eq_of_lt (by omega)
  simp only [load32, h0, h1, h2, h3]
  rw [store32_other m a v b ha (by omega), store32_other m a v (b + 1) ha (by omega),
    store32_other m a v (b + 2) ha (by omega), store32_other m a v (b + 3) ha (by omega)]

theorem load32_lt (m : Nat → Nat) (a : Nat) : load32 m a < 2 ^ 32 := by
  simp only [load32]
  omega

theorem irq_rx_memory (s : Firmware)
    (hmode : s.transceiver_mode = transceiver_mode_t.TRANSCEIVER_MODE_RX) :
    (sgpio_irqhandler s).memory
      = store32 (store32 (store32 (store32 (store32 (store32 (store32 (store32 s.memory
          (usb_bulk_buffer + s.usb_bulk_buffer_offset + 28) (s.sgpio_reg_ss SGPIO_SLICE_A))
          (usb_bulk_buffer + s.usb_bulk_buffer_offset + 24) (s.sgpio_reg_ss SGPIO_SLICE_I))
          (usb_bulk_buffer + s.usb_bulk_buffer_offset + 20) (s.sgpio_reg_ss SGPIO_SLICE_E))
          (usb_bulk_buffer + s.usb_bulk_buffer_offset + 16) (s.sgpio_reg_ss SGPIO_SLICE_J))
          (usb_bulk_buffer + s.usb_bulk_buffer_offset + 12) (s.sgpio_reg_ss SGPIO_SLICE_C))
          (usb_bulk_buffer + s.usb_bulk_buffer_offset + 8) (s.sgpio_reg_ss SGPIO_SLICE_K))
          (usb_bulk_buffer + s.usb_bulk_buffer_offset + 4) (s.sgpio_reg_ss SGPIO_SLICE_F))
          (usb_bulk_buffer + s.usb_bulk_buffer_offset + 0) (s.sgpio_reg_ss SGPIO_SLICE_L) ∧
    (sgpio_irqhandler s).sgpio_reg_ss = s.sgpio_reg_ss := by
  simp only [sgpio_irqhandler, hmode, if_true]
  exact ⟨trivial, trivial⟩

theorem irq_tx_regs (s : Firmware)
    (hmode : s.transceiver_mode ≠ transceiver_mode_t.TRANSCEIVER_MODE_RX) :
    (sgpio_irqhandler s).memory = s.memory ∧
    ∀ j, j < 8 → (sgpio_irqhandler s).sgpio_reg_ss (slice_of_word j)
      = load32 s.memory (usb_bulk_buffer + s.usb_bulk_buffer_offset + 4 * j) := by
  simp only [sgpio_irqhandler, hmode, if_false]
  refine ⟨trivial, ?_⟩
  intro j hj
  have hl : ∀ a, load32 s.memory a < 4294967296 := load32_lt s.memory
  interval_cases j <;>
    simp [slice_of_word, set_reg_ss] <;> exact hl _

/-- C16: one firing of `sgpio_irqhandler` at a write offset `off` that is a
multiple of 32 below 32768.  The 32 bytes `[off, off + 32)` lie inside the
buffer of 32768 bytes and the offset advances by 32.  In receive mode the
words `p[7] .. p[0]` at buffer bytes `off + 4 j` hold the shift registers of
slices A, I, E, J, C, K, F, L afterwards, every byte of memory outside
`[off, off + 32)` of the buffer and every shift register is unchanged.  In
transmit mode those eight shift registers hold the eight words afterwards and
memory is unchanged. -/
theorem C16_irq_frame (s : Firmware) (hmul : s.usb_bulk_buffer_offset % 32 = 0)
    (hlt : s.usb_bulk_buffer_offset < 32768) :
    s.usb_bulk_buffer_offset + 32 ≤ 32768 ∧
    (sgpio_irqhandler s).usb_bulk_buffer_offset = (s.usb_bulk_buffer_offset + 32) % 32768 ∧
    (s.transceiver_mode = transceiver_mode_t.TRANSCEIVER_MODE_RX →
      (∀ j, j < 8 →
        load32 (sgpio_irqhandler s).memory (usb_bulk_buffer + s.usb_bulk_buffer_offset + 4 * j)
          = s.sgpio_reg_ss (slice_of_word j) % 2 ^ 32) ∧
      (∀ x, x < usb_bulk_buffer + s.usb_bulk_buffer_offset ∨
          usb_bulk_buffer + s.usb_bulk_buffer_offset + 32 ≤ x →
        (sgpio_irqhandler s).memory x = s.memory x) ∧
      (sgpio_irqhandler s).sgpio_reg_ss = s.sgpio_reg_ss) ∧
    (s.transceiver_mode = transceiver_mode_t.TRANSCEIVER_MODE_TX →
      (∀ j, j < 8 →
        (sgpio_irqhandler s).sgpio_reg_ss (slice_of_word j)
          = load32 s.memory (usb_bulk_buffer + s.usb_bulk_buffer_offset + 4 * j)) ∧
      (sgpio_irqhandler s).memory = s.memory) := by
  have hbase : usb_bulk_buffer = 0x20004000 := rfl
  refine ⟨by omega, ?_, ?_, ?_⟩
  · rw [sgpio_irqhandler_offset, next_offset_eq_mod]
    omega
  · intro hmode
    obtain ⟨hmem, hregs⟩ := irq_rx_memory s hmode
    refine ⟨?_, ?_, hregs⟩
    · intro j hj
      rw [hmem]
      have hp : usb_bulk_buffer + s.usb_bulk_buffer_offset + 32 ≤ 2 ^ 32 := by omega
      generalize usb_bulk_buffer + s.usb_bulk_buffer_offset = p at *
      interval_cases j <;>
        simp (disch := omega) only [load32_store32_other, load32_store32_same, slice_of_word,
          Nat.mul_zero, Nat.mul_one, Nat.reduceMul, Nat.add_zero]
    · intro x hx
      rw [hmem]
      have hp : usb_bulk_buffer + s.usb_bulk_buffer_offset + 32 ≤ 2 ^ 32 := by omega
      generalize usb_bulk_buffer + s.usb_bulk_buffer_offset = p at *
      simp (disch := omega) only [store32_other, Nat.add_zero]
  · intro hmode
    have hne : s.transceiver_mode ≠ transceiver_mode_t.TRANSCEIVER_MODE_RX := by
      rw [hmode]; decide
    exact ⟨(irq_tx_regs s hne).2, (irq_tx_regs s hne).1⟩

/-! ## The scheduler loop -/

theorem scheduler_init_invariant : Scheduler.init.Invariant := by
  refine ⟨rfl, ?_, ?_, ?_, ?_, ?_, rfl, rfl, rfl, rfl⟩
  · intro e he
    simp [Scheduler.init] at he
  · intro _; rfl
  · intro h
    simp [Scheduler.init] at h
  · intro h
    simp [Scheduler.init] at h
  · intro h
    simp [Scheduler.init] at h

theorem main_loop_step_invariant (r : Reading) (st : Scheduler) (h : st.Invariant) :
    (main_loop_step r st).Invariant := by
  obtain ⟨halt, hobs, heven, hodd, hl0, hl1, hp0, hb0, hp1, hb1⟩ := h
  cases hpc : st.pc with
  | waiting_0 =>
    have hev := heven (Or.inl hpc)
    by_cases hw : wait_buffer_0 r.offset = true
    · simp only [main_loop_step, hpc, hw, if_true]
      exact ⟨halt, hobs, fun _ => hev, fun h => by simp [hpc] at h,
        fun h => by simp [hpc] at h, fun h => by simp [hpc] at h, hp0, hb0, hp1, hb1⟩
    · have hw0 := hw
      simp only [Bool.not_eq_true] at hw0
      simp only [main_loop_step, hpc, hw0, Bool.false_eq_true, if_false]
      refine ⟨halt, hobs, fun _ => hev, fun h => by simp at h, ?_, fun h => by simp at h,
        hp0, hb0, hp1, hb1⟩
      intro _
      simp only [wait_buffer_0, decide_eq_true_eq] at hw
      show r.offset ≥ 16384
      omega
  | scheduling_0 =>
    have hev := heven (Or.inr hpc)
    by_cases hr : r.endpoint_is_ready = true
    · simp only [main_loop_step, hpc, hr, if_true]
      exact ⟨halt, hobs, heven, hodd, hl0, hl1, hp0, hb0, hp1, hb1⟩
    · have hr0 : r.endpoint_is_ready = false := by simpa using hr
      simp only [main_loop_step, hpc, hr0, Bool.false_eq_true, if_false]
      refine ⟨?_, ?_, fun h => by simp at h, ?_, fun h => by simp at h,
        fun h => by simp at h, hp0, rfl, hp1, hb1⟩
      · simp only [List.map_append, List.map_cons, List.map_nil, List.length_append,
          List.length_singleton, List.range_succ, halt]
        simp [hev]
      · intro e he
        rcases List.mem_append.mp he with h1 | h1
        · exact hobs e h1
        · simp only [List.mem_singleton] at h1
          subst h1
          exact ⟨fun _ => hl0 hpc, fun h => by simp at h⟩
      · intro _
        simp only [List.length_append, List.length_singleton]
        omega
  | waiting_1 =>
    have hod := hodd (Or.inl hpc)
    by_cases hw : wait_buffer_1 r.offset = true
    · simp only [main_loop_step, hpc, hw, if_true]
      exact ⟨halt, hobs, fun h => by simp [hpc] at h, fun _ => hod,
        fun h => by simp [hpc] at h, fun h => by simp [hpc] at h, hp0, hb0, hp1, hb1⟩
    · have hw0 := hw
      simp only [Bool.not_eq_true] at hw0
      simp only [main_loop_step, hpc, hw0, Bool.false_eq_true, if_false]
      refine ⟨halt, hobs, fun h => by simp at h, fun _ => hod, fun h => by simp at h, ?_,
        hp0, hb0, hp1, hb1⟩
      intro _
      simp only [wait_buffer_1, decide_eq_true_eq] at hw
      show r.offset < 16384
      omega
  | scheduling_1 =>
    have hod := hodd (Or.inr hpc)
    by_cases hr : r.endpoint_is_ready = true
    · simp only [main_loop_step, hpc, hr, if_true]
      exact ⟨halt, hobs, heven, hodd, hl0, hl1, hp0, hb0, hp1, hb1⟩
    · have hr0 : r.endpoint_is_ready = false := by simpa using hr
      simp only [main_loop_step, hpc, hr0, Bool.false_eq_true, if_false]
      refine ⟨?_, ?_, ?_, fun h => by simp at h, fun h => by simp at h,
        fun h => by simp at h, hp0, hb0, hp1, rfl⟩
      · simp only [List.map_append, List.map_cons, List.map_nil, List.length_append,
          List.length_singleton, List.range_succ, halt]
        simp [hod]
      · intro e he
        rcases List.mem_append.mp he with h1 | h1
        · exact hobs e h1
        · simp only [List.mem_singleton] at h1
          subst h1
          exact ⟨fun h => by simp at h, fun _ => hl1 hpc⟩
      · intro _
        simp only [List.length_append, List.length_singleton]
        omega

theorem main_loop_invariant (rs : List Reading) (st : Scheduler) (h : st.Invariant) :
    (main_loop rs st).Invariant := by
  induction rs generalizing st with
  | nil => exact h
  | cons r rs ih => exact ih _ (main_loop_step_invariant r st h)

theorem td_bytes_of_pages (td : usb_transfer_descriptor_t) (first : Nat)
    (hfirst : first = 0 ∨ first = 16384)
    (hpages : td.buffer_pointer_page =
      [usb_bulk_buffer + first, usb_bulk_buffer + first + 0x1000,
       usb_bulk_buffer + first + 0x2000, usb_bulk_buffer + first + 0x3000,
       usb_bulk_buffer + first + 0x4000])
    (hbytes : td.total_bytes.total_bytes = 16384) (k : Nat) :
    td_byte_address td k
      = if k < 16384 then some (usb_bulk_buffer + first + k) else none := by
  unfold td_byte_address
  rw [hbytes, hpages]
  by_cases hk : k < 16384
  · simp only [if_pos hk, List.get?_cons_zero]
    have hp : (usb_bulk_buffer + first) % 4096 = 0 := by
      rcases hfirst with h | h <;> subst h <;> decide
    have hq : ∀ c, c % 4096 = 0 →
        (usb_bulk_buffer + first + c) / 4096 * 4096 = usb_bulk_buffer + first + c := by
      intro c hc
      have : (usb_bulk_buffer + first + c) % 4096 = 0 := by omega
      omega
    simp only [hp, Nat.zero_add]
    have hcases : k / 4096 = 0 ∨ k / 4096 = 1 ∨ k / 4096 = 2 ∨ k / 4096 = 3 := by omega
    rcases hcases with h | h | h | h
    · simp only [h, if_true]
    · simp only [h, List.get?_cons_succ, List.get?_cons_zero]
      rw [hq 0x1000 (by decide)]
      simp only [Nat.reduceEqDiff, OfNat.ofNat_ne_zero, if_false, Nat.one_lt_ofNat, if_true,
        Nat.succ_ne_zero, Option.some.injEq]
      omega
    · simp only [h, List.get?_cons_succ, List.get?_cons_zero]
      rw [hq 0x2000 (by decide)]
      simp only [OfNat.ofNat_ne_zero, if_false, Nat.reduceLT, if_true, Option.some.injEq]
      omega
    · simp only [h, List.get?_cons_succ, List.get?_cons_zero]
      rw [hq 0x3000 (by decide)]
      simp only [OfNat.ofNat_ne_zero, if_false, Nat.reduceLT, if_true, Option.some.injEq]
      omega
  · simp only [if_neg hk]

/-- C17: the scheduler loop of `main`, whatever it reads.  As
`usb_init_buffers_bulk` sets them and at every later point of the loop, the
two descriptors describe the two halves of the buffer: byte `k` of descriptor
0 is byte `k` of the buffer and byte `k` of descriptor 1 is byte `16384 + k`
of the buffer, for `k < 16384`, and neither descriptor has a byte `16384` or
later, so that they cover the `32768` bytes of the buffer without overlap; the
descriptors passed to `usb_endpoint_prime` are 0, 1, 0, 1, ... in this order;
and descriptor 0 is primed only when the last offset read was at least 16384,
descriptor 1 only when it was below 16384. -/
theorem C17_scheduler_alternates (rs : List Reading) :
    (∀ k, td_byte_address usb_init_buffers_bulk.1 k
        = if k < 16384 then some (usb_bulk_buffer + k) else none) ∧
    (∀ k, td_byte_address usb_init_buffers_bulk.2 k
        = if k < 16384 then some (usb_bulk_buffer + 16384 + k) else none) ∧
    16384 + 16384 = usb_bulk_buffer_mask + 1 ∧
    (∀ k, td_byte_address (main_loop rs Scheduler.init).usb_td_bulk_0 k
        = if k < 16384 then some (usb_bulk_buffer + k) else none) ∧
    (∀ k, td_byte_address (main_loop rs Scheduler.init).usb_td_bulk_1 k
        = if k < 16384 then some (usb_bulk_buffer + 16384 + k) else none) ∧
    (∀ j k, j < 16384 → k < 16384 →
      td_byte_address (main_loop rs Scheduler.init).usb_td_bulk_0 j
        ≠ td_byte_address (main_loop rs Scheduler.init).usb_td_bulk_1 k) ∧
    (∀ x, x < 32768 →
      (x < 16384 ∧
        td_byte_address (main_loop rs Scheduler.init).usb_td_bulk_0 x
          = some (usb_bulk_buffer + x)) ∨
      (16384 ≤ x ∧
        td_byte_address (main_loop rs Scheduler.init).usb_td_bulk_1 (x - 16384)
          = some (usb_bulk_buffer + x))) ∧
    (main_loop rs Scheduler.init).primed.map (fun e => e.td)
      = (List.range (main_loop rs Scheduler.init).primed.length).map (fun k => k % 2) ∧
    (∀ e ∈ (main_loop rs Scheduler.init).primed,
      (e.td = 0 → e.observed_offset ≥ 16384) ∧ (e.td = 1 → e.observed_offset < 16384)) := by
  obtain ⟨halt, hobs, _, _, _, _, hp0, hb0, hp1, hb1⟩ :=
    main_loop_invariant rs Scheduler.init scheduler_init_invariant
  have h0 := td_bytes_of_pages (main_loop rs Scheduler.init).usb_td_bulk_0 0 (Or.inl rfl)
    (by rw [hp0]; rfl) hb0
  have h1 := td_bytes_of_pages (main_loop rs Scheduler.init).usb_td_bulk_1 16384 (Or.inr rfl)
    (by rw [hp1]; rfl) hb1
  simp only [Nat.add_zero] at h0
  refine ⟨?_, ?_, by decide, h0, h1, ?_, ?_, halt, hobs⟩
  · have h := td_bytes_of_pages usb_init_buffers_bulk.1 0 (Or.inl rfl) rfl rfl
    simpa only [Nat.add_zero] using h
  · exact td_bytes_of_pages usb_init_buffers_bulk.2 16384 (Or.inr rfl) rfl rfl
  · intro j k hj hk
    rw [h0 j, h1 k, if_pos hj, if_pos hk]
    intro h
    have := Option.some.inj h
    omega
  · intro x hx
    by_cases hlow : x < 16384
    · left
      exact ⟨hlow, by rw [h0 x, if_pos hlow]⟩
    · right
      refine ⟨by omega, ?_⟩
      have e : usb_bulk_buffer + 16384 + (x - 16384) = usb_bulk_buffer + x := by omega
      rw [h1 (x - 16384), if_pos (by omega), e]

theorem C17_scheduler_alternates_witness :
    (main_loop
      [Reading.rx 0 false, Reading.rx 16352 false, Reading.rx 16384 false, Reading.rx 16416 true,
       Reading.rx 16416 false, Reading.rx 32736 false, Reading.rx 0 false, Reading.rx 32 false,
       Reading.rx 64 false, Reading.rx 16384 false]
      Scheduler.init).primed
      = [{ endpoint := 0x81, td := 0, observed_offset := 16384 },
         { endpoint := 0x81, td := 1, observed_offset := 0 }] ∧
    (∀ e ∈ (main_loop
      [Reading.rx 0 false, Reading.rx 16352 false, Reading.rx 16384 false, Reading.rx 16416 true,
       Reading.rx 16416 false, Reading.rx 32736 false, Reading.rx 0 false, Reading.rx 32 false,
       Reading.rx 64 false, Reading.rx 16384 false]
      Scheduler.init).primed,
      (e.td = 0 → e.observed_offset ≥ 16384) ∧ (e.td = 1 → e.observed_offset < 16384)) ∧
    td_byte_address (main_loop
      [Reading.rx 0 false, Reading.rx 16352 false, Reading.rx 16384 false, Reading.rx 16416 true,
       Reading.rx 16416 false, Reading.rx 32736 false, Reading.rx 0 false, Reading.rx 32 false,
       Reading.rx 64 false, Reading.rx 16384 false]
      Scheduler.init).usb_td_bulk_1 16383 = some (usb_bulk_buffer + 32767) :=
  ⟨by decide, (C17_scheduler_alternates _).2.2.2.2.2.2.2.2,
   ((C17_scheduler_alternates _).2.2.2.2.1 16383).trans (by decide)⟩

theorem C16_irq_frame_witness :
    (Firmware.at_offset 64).usb_bulk_buffer_offset % 32 = 0 ∧
    (Firmware.at_offset 64).usb_bulk_buffer_offset < 32768 ∧
    (sgpio_irqhandler (Firmware.at_offset 64)).usb_bulk_buffer_offset = (64 + 32) % 32768 ∧
    (∀ x, x < usb_bulk_buffer + 64 ∨ usb_bulk_buffer + 64 + 32 ≤ x →
      (sgpio_irqhandler (Firmware.at_offset 64)).memory x = (Firmware.at_offset 64).memory x) ∧
    (∀ j, j < 8 →
      (sgpio_irqhandler (Firmware.tx_at_offset 32736)).sgpio_reg_ss (slice_of_word j)
        = load32 (Firmware.tx_at_offset 32736).memory (usb_bulk_buffer + 32736 + 4 * j)) :=
  ⟨by decide, by decide,
   (C16_irq_frame (Firmware.at_offset 64) (by decide) (by decide)).2.1,
   ((C16_irq_frame (Firmware.at_offset 64) (by decide) (by decide)).2.2.1 rfl).2.1,
   ((C16_irq_frame (Firmware.tx_at_offset 32736) (by decide) (by decide)).2.2.2 rfl).1⟩

/-! ## The synthesizer arithmetic -/

theorem n_lo_loop_spec (fuel x acc : Nat) (hx : 1 ≤ x) (hlt : x < 2 ^ fuel)
    (hacc : acc + fuel < 256) :
    ∃ k, n_lo_loop fuel x acc = acc + k ∧ 2 ^ k ≤ x ∧ x < 2 ^ (k + 1) := by
  induction fuel generalizing x acc with
  | zero => simp at hlt; omega
  | succ fuel ih =>
    by_cases h1 : x > 1
    · have hx2 : 1 ≤ x >>> 1 := by rw [Nat.shiftRight_eq_div_pow]; omega
      have hlt2 : x >>> 1 < 2 ^ fuel := by
        rw [Nat.shiftRight_eq_div_pow]
        rw [Nat.pow_succ] at hlt
        omega
      have hmod : (acc + 1) % 2 ^ 8 = acc + 1 := Nat.mod_eq_of_lt (by omega)
      obtain ⟨k, hk, hlo, hhi⟩ := ih (x >>> 1) (acc + 1) hx2 hlt2 (by omega)
      refine ⟨k + 1, ?_, ?_, ?_⟩
      · simp only [n_lo_loop, h1, if_true, hmod, hk]
        omega
      · rw [Nat.shiftRight_eq_div_pow] at hlo
        rw [Nat.pow_succ]
        omega
      · rw [Nat.shiftRight_eq_div_pow] at hhi
        rw [Nat.pow_succ]
        omega
    · refine ⟨0, ?_, ?_, ?_⟩
      · simp only [n_lo_loop, h1, if_false, Nat.add_zero]
      · simpa using hx
      · simp; omega

theorem tune_le (L lo fbk : Nat) : 50 * (L * lo / fbk / 50) * fbk / L ≤ lo := by
  apply Nat.div_le_of_le_mul
  have h1 : L * lo / fbk / 50 * 50 ≤ L * lo / fbk := Nat.div_mul_le_self _ _
  have h2 : L * lo / fbk * fbk ≤ L * lo := Nat.div_mul_le_self _ _
  calc 50 * (L * lo / fbk / 50) * fbk
      = (L * lo / fbk / 50 * 50) * fbk := by rw [Nat.mul_comm 50]
    _ ≤ (L * lo / fbk) * fbk := Nat.mul_le_mul_right _ h1
    _ ≤ L * lo := h2

theorem synth_values_in_range (lo : Nat) (h22 : 22 ≤ lo) (h5400 : lo ≤ 5400) :
    ∃ v, synth_values lo = synth_result.ok v ∧
      v.n_lo ≤ 7 ∧ v.lodiv = 2 ^ v.n_lo ∧ 1 ≤ v.lodiv ∧ v.lodiv ≤ 128 ∧
      v.fvco = v.lodiv * lo ∧ 2700 < v.fvco ∧ v.fvco ≤ 5400 ∧ v.tune_freq ≤ lo := by
  have hlo0 : lo ≠ 0 := by omega
  have hlopos : 0 < lo := by omega
  have hx1 : 1 ≤ 5400 / lo := (Nat.le_div_iff_mul_le hlopos).mpr (by omega)
  have hx245 : 5400 / lo < 246 := (Nat.div_lt_iff_lt_mul hlopos).mpr (by omega)
  have hxmod : (LO_MAX / lo) % 2 ^ 16 = 5400 / lo := Nat.mod_eq_of_lt (by
    show 5400 / lo < 2 ^ 16
    omega)
  obtain ⟨k, hk, hklo, hkhi⟩ := n_lo_loop_spec 16 (5400 / lo) 0 hx1 (by omega) (by omega)
  rw [Nat.zero_add] at hk
  have hk8 : k ≤ 7 := by
    by_contra hge
    have : 2 ^ 8 ≤ 2 ^ k := Nat.pow_le_pow_right (by omega) (by omega)
    omega
  have hL128 : 2 ^ k ≤ 128 := by
    have : 2 ^ k ≤ 2 ^ 7 := Nat.pow_le_pow_right (by omega) hk8
    omega
  have hL1 : 1 ≤ 2 ^ k := Nat.one_le_two_pow
  have hmul : 2 ^ k * lo ≤ 5400 := (Nat.le_div_iff_mul_le hlopos).mp hklo
  have hmul2 : 5400 < 2 ^ (k + 1) * lo := (Nat.div_lt_iff_lt_mul hlopos).mp hkhi
  have hmul3 : 2700 < 2 ^ k * lo := by
    rw [Nat.pow_succ, Nat.mul_right_comm] at hmul2
    omega
  have hl : (1 <<< k) % 2 ^ 8 = 2 ^ k := by
    rw [Nat.one_shiftLeft]
    exact Nat.mod_eq_of_lt (by omega)
  have hf : (2 ^ k * lo) % 2 ^ 16 = 2 ^ k * lo := Nat.mod_eq_of_lt (by omega)
  have hn : ∀ fbk, (2 ^ k * lo / fbk / REF_FREQ) % 2 ^ 16 = 2 ^ k * lo / fbk / 50 := by
    intro fbk
    apply Nat.mod_eq_of_lt
    have h1 : 2 ^ k * lo / fbk / 50 ≤ 2 ^ k * lo / fbk := Nat.div_le_self _ _
    have h2 : 2 ^ k * lo / fbk ≤ 2 ^ k * lo := Nat.div_le_self _ _
    show 2 ^ k * lo / fbk / 50 < 2 ^ 16
    omega
  have ht : ∀ fbk, (50 * (2 ^ k * lo / fbk / 50) * fbk / 2 ^ k) % 2 ^ 16
      = 50 * (2 ^ k * lo / fbk / 50) * fbk / 2 ^ k := by
    intro fbk
    apply Nat.mod_eq_of_lt
    have := tune_le (2 ^ k) lo fbk
    omega
  have hne : 2 ^ k ≠ 0 := by omega
  refine ⟨{ n_lo := k, lodiv := 2 ^ k, fvco := 2 ^ k * lo
            fbkdiv := if 2 ^ k * lo > 3200 then 4 else 2
            n := 2 ^ k * lo / (if 2 ^ k * lo > 3200 then 4 else 2) / 50
            tune_freq := 50 * (2 ^ k * lo / (if 2 ^ k * lo > 3200 then 4 else 2) / 50)
              * (if 2 ^ k * lo > 3200 then 4 else 2) / 2 ^ k },
    ?_, hk8, rfl, hL1, hL128, rfl, hmul3, hmul, tune_le _ _ _⟩
  simp only [synth_values, hlo0, if_false, hxmod, hk, hl, hf, hn, ht, hne]

theorem config_of_values (lo : Nat) (v : synth_locals)
    (h : synth_values lo = synth_result.ok v) :
    rffc5071_config_synth_int lo = synth_result.ok (v.tune_freq, synth_ops v) ∧
    ∀ hz, rffc5071_set_frequency lo hz
      = synth_result.ok (v.tune_freq, rffc5071_disable ++ synth_ops v ++ rffc5071_enable) := by
  refine ⟨?_, ?_⟩
  · simp only [rffc5071_config_synth_int, h]
  · intro hz
    simp only [rffc5071_set_frequency, rffc5071_config_synth_int, h]

/-- C20: the arithmetic of `rffc5071_config_synth_int` with the widths of the
C variables.  For every `lo` from 22 to 5400 the function returns, `n_lo` is at
most 7 and `lodiv = 2 ^ n_lo` lies between 1 and 128 (nothing is lost in the
`uint8_t`), `fvco = lodiv * lo` (nothing is lost in the `uint16_t`) with
`2700 < fvco <= 5400`, and the frequency returned is at most `lo`.  For
`lo = 0` the division `LO_MAX / lo` is by zero, and for every `lo` from 1 to
21 `lodiv` is truncated to `0` and the division by `lodiv` is by zero. -/
theorem C20_synth_safety :
    (∀ lo, 22 ≤ lo → lo ≤ 5400 →
      ∃ v, synth_values lo = synth_result.ok v ∧
        rffc5071_config_synth_int lo = synth_result.ok (v.tune_freq, synth_ops v) ∧
        v.n_lo ≤ 7 ∧ v.lodiv = 2 ^ v.n_lo ∧ 1 ≤ v.lodiv ∧ v.lodiv ≤ 128 ∧
        v.fvco = v.lodiv * lo ∧ 2700 < v.fvco ∧ v.fvco ≤ 5400 ∧ v.tune_freq ≤ lo) ∧
    synth_values 0 = synth_result.division_by_lo ∧
    rffc5071_config_synth_int 0 = synth_result.division_by_lo ∧
    (∀ lo, 1 ≤ lo → lo ≤ 21 →
      synth_values lo = synth_result.division_by_lodiv ∧
      rffc5071_config_synth_int lo = synth_result.division_by_lodiv) := by
  refine ⟨?_, rfl, rfl, ?_⟩
  · intro lo h22 h5400
    obtain ⟨v, hv, hrest⟩ := synth_values_in_range lo h22 h5400
    exact ⟨v, hv, (config_of_values lo v hv).1, hrest⟩
  · intro lo h1 h21
    interval_cases lo <;> exact ⟨by decide, by decide⟩

/-- C18 on the code: `rffc5071_set_frequency` does not read `hz`, returns a
frequency that is at most `mhz` for every `mhz` from 22 to 5400, and maps the
six test inputs as listed (500, 525, 550 and 1500, 1550 to themselves, 1525 to
1500); but the result is not always a multiple of 25 within 50 below the
request: 3399 gives 3200, which is 199 below, and 30 gives 29. -/
theorem C18_set_frequency_steps :
    (∀ mhz hz hz1, rffc5071_set_frequency mhz hz = rffc5071_set_frequency mhz hz1) ∧
    (∀ mhz hz, 22 ≤ mhz → mhz ≤ 5400 →
      ∃ f, returned_frequency (rffc5071_set_frequency mhz hz) = some f ∧ f ≤ mhz) ∧
    (∀ hz, returned_frequency (rffc5071_set_frequency 500 hz) = some 500 ∧
      returned_frequency (rffc5071_set_frequency 525 hz) = some 525 ∧
      returned_frequency (rffc5071_set_frequency 550 hz) = some 550 ∧
      returned_frequency (rffc5071_set_frequency 1500 hz) = some 1500 ∧
      returned_frequency (rffc5071_set_frequency 1525 hz) = some 1500 ∧
      returned_frequency (rffc5071_set_frequency 1550 hz) = some 1550) ∧
    (∀ hz, returned_frequency (rffc5071_set_frequency 3399 hz) = some 3200 ∧
      returned_frequency (rffc5071_set_frequency 30 hz) = some 29) ∧
    ¬ (3399 - 3200 < 50) ∧ ¬ (29 % 25 = 0) := by
  have hz0 : ∀ mhz hz, rffc5071_set_frequency mhz hz = rffc5071_set_frequency mhz 0 :=
    fun _ _ => rfl
  refine ⟨fun _ _ _ => rfl, ?_, ?_, ?_, by decide, by decide⟩
  · intro mhz hz h22 h5400
    obtain ⟨v, hv, hrest⟩ := synth_values_in_range mhz h22 h5400
    refine ⟨v.tune_freq, ?_, hrest.2.2.2.2.2.2.2⟩
    rw [(config_of_values mhz v hv).2 hz]
    rfl
  · intro hz
    simp only [hz0 _ hz]
    decide
  · intro hz
    simp only [hz0 _ hz]
    decide

/-! ## The serial frames of the synthesizer -/

theorem clock_out_cons (b : Bool) (bs : List Bool) :
    clock_out (b :: bs) =
      [pin_event.sdata b, pin_event.serial_delay, pin_event.sclk true, pin_event.serial_delay,
        pin_event.sclk false] ++ clock_out bs := by
  simp [clock_out]

theorem and_two_pow_ne_zero (data m : Nat) :
    decide (data &&& 2 ^ m ≠ 0) = data.testBit m := by
  rw [Nat.and_two_pow]
  cases h : data.testBit m <;> simp

theorem spi_send_loop_eq (m : Nat) (hm : m < 32) :
    ∀ n data, n ≤ m + 1 →
      spi_send_loop n data (2 ^ m)
        = clock_out ((List.range n).map (fun i => data.testBit (m - i))) := by
  intro n
  induction n with
  | zero => intro data _; simp [spi_send_loop, clock_out]
  | succ n ih =>
    intro data hn
    rw [List.range_succ_eq_map, List.map_cons, clock_out_cons, spi_send_loop,
      and_two_pow_ne_zero, ih _ (by omega), List.map_map]
    congr 2
    apply List.map_congr_left
    intro i hi
    have hi1 : i < n := List.mem_range.mp hi
    simp only [Function.comp, Nat.testBit_mod_two_pow, Nat.testBit_shiftLeft]
    have h1 : m - i < 32 := by omega
    have h2 : m - i ≥ 1 := by omega
    simp only [h1, h2, decide_True, Bool.true_and]
    congr 1

theorem foldl_bits_lt : ∀ (bits : List Bool) (data : Nat),
    bits.foldl (fun acc b => 2 * acc + b.toNat) data < (data + 1) * 2 ^ bits.length := by
  intro bits
  induction bits with
  | nil => intro data; simp
  | cons b bs ih =>
    intro data
    rw [List.foldl_cons, List.length_cons]
    have h := ih (2 * data + b.toNat)
    have hb : b.toNat ≤ 1 := by cases b <;> simp
    have : (2 * data + b.toNat + 1) * 2 ^ bs.length ≤ (data + 1) * 2 ^ (bs.length + 1) := by
      rw [pow_succ, ← Nat.mul_assoc, Nat.mul_right_comm]
      apply Nat.mul_le_mul_right
      omega
    omega

theorem spi_receive_loop_spec (s : Nat → Bool) :
    ∀ n k data, (data + 1) * 2 ^ n ≤ 2 ^ 32 →
      spi_receive_loop s n k data
        = (((List.range n).map (fun i => s (k + i))).foldl
            (fun acc b => 2 * acc + b.toNat) data, clock_pulses n) := by
  intro n
  induction n with
  | zero => intro k data _; simp [spi_receive_loop, clock_pulses]
  | succ n ih =>
    intro k data h
    have hpos : 0 < 2 ^ n := Nat.pow_pos (by decide)
    have h2 : 2 * data + 2 ≤ 2 ^ 32 := by
      have : (data + 1) * 2 ≤ (data + 1) * 2 ^ (n + 1) := by
        apply Nat.mul_le_mul_left
        rw [pow_succ]; omega
      omega
    have hd1 : (data <<< 1) % 2 ^ 32 = 2 * data := by
      rw [Nat.shiftLeft_eq, Nat.mod_eq_of_lt (by omega)]; omega
    have hd2 : (if s k then (data <<< 1) % 2 ^ 32 ||| 1 else (data <<< 1) % 2 ^ 32)
        = 2 * data + (s k).toNat := by
      rw [hd1]
      cases s k
      · simp
      · have := Nat.mul_add_lt_is_or (show 1 < 2 ^ 1 by decide) data
        simp only [pow_one] at this
        simp [this]
    have hstep : (2 * data + (s k).toNat + 1) * 2 ^ n ≤ 2 ^ 32 := by
      have hb : (s k).toNat ≤ 1 := by cases s k <;> simp
      have : (2 * data + (s k).toNat + 1) * 2 ^ n ≤ (data + 1) * 2 ^ (n + 1) := by
        rw [pow_succ, ← Nat.mul_assoc, Nat.mul_right_comm]
        apply Nat.mul_le_mul_right
        omega
      omega
    simp only [spi_receive_loop]
    rw [hd2, ih (k + 1) _ hstep, List.range_succ_eq_map, List.map_cons, List.foldl_cons,
      List.map_map]
    simp only [Nat.add_zero, clock_pulses, List.replicate_succ, List.flatten_cons, Prod.mk.injEq,
      and_true]
    congr 2
    funext i
    simp only [Function.comp]
    congr 1
    omega


theorem flags_of_read_word (x : Nat) (hx : x < 128) :
    (List.range 9).map (fun i => (0x80 ||| x).testBit (8 - i))
      = [false, true] ++ bits_msb_first x 7 := by
  have h8 : x.testBit 8 = false := Nat.testBit_lt_two_pow (by omega)
  have h7 : x.testBit 7 = false := Nat.testBit_lt_two_pow (by omega)
  have key : ∀ j, (0x80 ||| x).testBit j = (decide (7 = j) || x.testBit j) := by
    intro j
    rw [Nat.testBit_or, show (0x80 : Nat) = 2 ^ 7 from rfl, Nat.testBit_two_pow]
  have hr9 : List.range 9 = [0, 1, 2, 3, 4, 5, 6, 7, 8] := by decide
  have hr7 : List.range 7 = [0, 1, 2, 3, 4, 5, 6] := by decide
  simp only [hr9, List.map_cons, List.map_nil, key, bits_msb_first, hr7]
  simp [h8, h7]

theorem flags_of_write_word (x val : Nat) (hx : x < 128) (hv : val < 2 ^ 16) :
    (List.range 25).map (fun i => (((x <<< 16) ||| val) % 2 ^ 32).testBit (24 - i))
      = [false, false] ++ bits_msb_first x 7 ++ bits_msb_first val 16 := by
  have h8 : x.testBit 8 = false := Nat.testBit_lt_two_pow (by omega)
  have h7 : x.testBit 7 = false := Nat.testBit_lt_two_pow (by omega)
  have hv16 : ∀ j, 16 ≤ j → val.testBit j = false := fun j hj =>
    Nat.testBit_lt_two_pow (lt_of_lt_of_le hv (Nat.pow_le_pow_right (by decide) hj))
  have key : ∀ j, j < 32 → (((x <<< 16) ||| val) % 2 ^ 32).testBit j
      = ((decide (16 ≤ j) && x.testBit (j - 16)) || val.testBit j) := by
    intro j hj
    rw [Nat.testBit_mod_two_pow, Nat.testBit_or, Nat.testBit_shiftLeft]
    simp [hj]
  have hr25 : List.range 25 = [0, 1, 2, 3, 4, 5, 6, 7, 8, 9, 10, 11, 12, 13, 14, 15, 16, 17,
      18, 19, 20, 21, 22, 23, 24] := by decide
  have hr16 : List.range 16 = [0, 1, 2, 3, 4, 5, 6, 7, 8, 9, 10, 11, 12, 13, 14, 15] := by
    decide
  have hr7 : List.range 7 = [0, 1, 2, 3, 4, 5, 6] := by decide
  simp only [hr25, List.map_cons, List.map_nil, bits_msb_first, hr16, hr7]
  simp (disch := omega) only [key]
  simp [h8, h7, hv16]

/-- C19 (as the code behaves): `rffc5071_spi_read` clocks out the nine bits
0, 1 and the seven bits of `r & 0x7f`, most significant first, then one more
clock, then reads sixteen bits which it returns assembled most significant
first.  `rffc5071_spi_write` clocks out twenty-five bits, but they are 0, 0,
the seven bits of `reg & 0x7f` and the sixteen bits of `val`: the frame does
not depend on its parameters `r` and `v`, so that with `reg = 0`, `val = 0` the
call for `r = 1`, `v = 0xffff` sends twenty-five zeros and not the documented
frame. -/
theorem C19_serial_frames :
    (∀ (sdata_state : Nat → Bool) (r : Nat),
      rffc5071_spi_read sdata_state r =
        (value_msb_first ((List.range 16).map sdata_state),
          spi_start ++ clock_out ([false, true] ++ bits_msb_first (r &&& 0x7f) 7)
            ++ [pin_event.serial_delay, pin_event.sclk true, pin_event.serial_delay,
                pin_event.sclk false, pin_event.sdata_input]
            ++ clock_pulses 16
            ++ [pin_event.sdata_output, pin_event.serial_delay, pin_event.enx true]) ∧
      ([false, true] ++ bits_msb_first (r &&& 0x7f) 7).length = 9) ∧
    (∀ reg val r v : Nat, val < 2 ^ 16 →
      rffc5071_spi_write reg val r v =
        spi_start
          ++ clock_out ([false, false] ++ bits_msb_first (reg &&& 0x7f) 7 ++ bits_msb_first val 16)
          ++ [pin_event.serial_delay, pin_event.enx true] ∧
      ([false, false] ++ bits_msb_first (reg &&& 0x7f) 7 ++ bits_msb_first val 16).length = 25) ∧
    (∀ reg val r v r1 v1 : Nat,
      rffc5071_spi_write reg val r v = rffc5071_spi_write reg val r1 v1) ∧
    rffc5071_spi_write 0 0 1 0xffff =
      spi_start ++ clock_out (List.replicate 25 false)
        ++ [pin_event.serial_delay, pin_event.enx true] ∧
    rffc5071_spi_write 0 0 1 0xffff ≠
      spi_start
        ++ clock_out ([false, false] ++ bits_msb_first (1 &&& 0x7f) 7 ++ bits_msb_first 0xffff 16)
        ++ [pin_event.serial_delay, pin_event.enx true] := by
  have hmask : ∀ r : Nat, r &&& 0x7f < 128 := fun r => by
    have := Nat.and_pow_two_sub_one_eq_mod r 7
    simp only [Nat.reducePow, Nat.add_one_sub_one] at this
    have h := Nat.mod_lt r (show 128 > 0 by decide)
    omega
  refine ⟨?_, ?_, fun _ _ _ _ _ _ => rfl, by decide, by decide⟩
  · intro sdata_state r
    refine ⟨?_, by simp [bits_msb_first]⟩
    have hrecv := spi_receive_loop_spec sdata_state 16 0 0 (by decide)
    have hlt := foldl_bits_lt ((List.range 16).map sdata_state) 0
    simp only [List.length_map, List.length_range, Nat.zero_add, Nat.one_mul] at hlt
    simp only [Nat.zero_add] at hrecv
    have hsend := spi_send_loop_eq 8 (by decide) 9 (0x80 ||| (r &&& 0x7f)) (by decide)
    rw [flags_of_read_word _ (hmask r)] at hsend
    simp only [rffc5071_spi_read, hrecv, Nat.one_shiftLeft]
    rw [hsend, Nat.mod_eq_of_lt hlt]
    rfl
  · intro reg val r v hv
    refine ⟨?_, by simp [bits_msb_first]⟩
    have hsend := spi_send_loop_eq 24 (by decide) 25
      ((((reg &&& 0x7f) <<< 16) ||| val) % 2 ^ 32) (by decide)
    rw [flags_of_write_word _ _ (hmask reg) hv] at hsend
    simp only [rffc5071_spi_write, Nat.one_shiftLeft]
    rw [hsend]

/-! ## Host and firmware on MAX2837 register writes -/

theorem host_max2837_write_cases (env : Env) (register_number value : Nat) (w : World) :
    (register_number < 32 ∧ value < 0x400 ∧
      (hackrf_max2837_write env register_number value w).1 ≠ HACKRF_ERROR_INVALID_PARAM ∧
      (hackrf_max2837_write env register_number value w).2.controls
        = w.controls ++ [max2837_write_control register_number value]) ∨
    ((register_number ≥ 32 ∨ value ≥ 0x400) ∧
      hackrf_max2837_write env register_number value w = (HACKRF_ERROR_INVALID_PARAM, w)) := by
  by_cases hr : register_number ≥ 32
  · right
    exact ⟨Or.inl hr, by simp only [hackrf_max2837_write, if_pos hr]⟩
  · by_cases hv : value ≥ 0x400
    · right
      exact ⟨Or.inr hv, by simp only [hackrf_max2837_write, if_neg hr, if_pos hv]⟩
    · left
      refine ⟨by omega, by omega, ?_, ?_⟩
      · simp only [hackrf_max2837_write, if_neg hr, if_neg hv]
        split <;> exact fun h => hackrf_error.noConfusion h
      · simp only [hackrf_max2837_write, if_neg hr, if_neg hv, libusb_control_transfer,
          max2837_write_control]
        split <;> rfl

theorem firmware_max2837_write_cases (reg_read : Nat → Nat) (register_number value : Nat)
    (hr : register_number < 2 ^ 8) (hv : value < 2 ^ 16) :
    (register_number < 32 ∧ value < 0x3ff ∧
      usb_vendor_request_write_max2837
          (setup_of_control (max2837_write_control register_number value))
          usb_transfer_stage_t.USB_TRANSFER_STAGE_SETUP
        = (true, [vendor_event.max2837_reg_write register_number value,
            vendor_event.usb_endpoint_schedule_ack_in]) ∧
      usb_vendor_request reg_read
          (setup_of_control (max2837_write_control register_number value))
          usb_transfer_stage_t.USB_TRANSFER_STAGE_SETUP
        = [vendor_event.max2837_reg_write register_number value,
            vendor_event.usb_endpoint_schedule_ack_in]) ∨
    ((register_number ≥ 32 ∨ value ≥ 0x3ff) ∧
      usb_vendor_request_write_max2837
          (setup_of_control (max2837_write_control register_number value))
          usb_transfer_stage_t.USB_TRANSFER_STAGE_SETUP = (false, []) ∧
      usb_vendor_request reg_read
          (setup_of_control (max2837_write_control register_number value))
          usb_transfer_stage_t.USB_TRANSFER_STAGE_SETUP = [vendor_event.usb_endpoint_stall]) := by
  have hi : register_number % 2 ^ 16 = register_number := Nat.mod_eq_of_lt (by omega)
  have hw : value % 2 ^ 16 = value := Nat.mod_eq_of_lt hv
  have hsetup : setup_of_control (max2837_write_control register_number value)
      = { request := 2, value := value, index := register_number } := by
    simp only [setup_of_control, max2837_write_control, HACKRF_VENDOR_REQUEST_MAX2837_WRITE, hi, hw]
    rfl
  rw [hsetup]
  by_cases h1 : register_number < 32
  · by_cases h2 : value < 0x3ff
    · left
      refine ⟨h1, h2, ?_, ?_⟩
      · simp only [usb_vendor_request_write_max2837, if_pos h1, if_pos h2, if_true]
      · simp [usb_vendor_request, usb_vendor_request_write_max2837, h1, h2]
    · right
      refine ⟨Or.inr (by omega), ?_, ?_⟩
      · simp only [usb_vendor_request_write_max2837, if_pos h1, if_neg h2, if_true]
      · simp [usb_vendor_request, usb_vendor_request_write_max2837, h1, h2]
  · right
    refine ⟨Or.inl (by omega), ?_, ?_⟩
    · simp only [usb_vendor_request_write_max2837, if_neg h1, if_true]
    · simp [usb_vendor_request, usb_vendor_request_write_max2837, h1]

/-- C21 (as the code behaves): for a register number of 8 bits and a value of
16 bits, every pair that `hackrf_max2837_write` rejects with
`HACKRF_ERROR_INVALID_PARAM` is rejected by `usb_vendor_request_write_max2837`
in the setup stage (it returns `false`, writes nothing, and
`usb_vendor_request` stalls the endpoint), and every pair the host accepts with
`value` other than `0x3ff` is accepted (the register is written, the
acknowledgement scheduled, `true` returned, no stall).  The pairs with
`register_number < 32` and `value = 0x3ff` are accepted by the host, which
sends the request, and rejected by the firmware, which compares the value with
`0x3ff` where the host compares it with `0x400`. -/
theorem C21_max2837_write_ranges (env : Env) (reg_read : Nat → Nat)
    (register_number value : Nat) (w : World) :
    (register_number < 2 ^ 8 → value < 2 ^ 16 →
      (hackrf_max2837_write env register_number value w).1 = HACKRF_ERROR_INVALID_PARAM →
      usb_vendor_request_write_max2837
          (setup_of_control (max2837_write_control register_number value))
          usb_transfer_stage_t.USB_TRANSFER_STAGE_SETUP = (false, []) ∧
      usb_vendor_request reg_read
          (setup_of_control (max2837_write_control register_number value))
          usb_transfer_stage_t.USB_TRANSFER_STAGE_SETUP = [vendor_event.usb_endpoint_stall]) ∧
    ((hackrf_max2837_write env register_number value w).1 ≠ HACKRF_ERROR_INVALID_PARAM →
      value ≠ 0x3ff →
      (hackrf_max2837_write env register_number value w).2.controls
        = w.controls ++ [max2837_write_control register_number value] ∧
      usb_vendor_request_write_max2837
          (setup_of_control (max2837_write_control register_number value))
          usb_transfer_stage_t.USB_TRANSFER_STAGE_SETUP
        = (true, [vendor_event.max2837_reg_write register_number value,
            vendor_event.usb_endpoint_schedule_ack_in]) ∧
      usb_vendor_request reg_read
          (setup_of_control (max2837_write_control register_number value))
          usb_transfer_stage_t.USB_TRANSFER_STAGE_SETUP
        = [vendor_event.max2837_reg_write register_number value,
            vendor_event.usb_endpoint_schedule_ack_in]) ∧
    (register_number < 32 → value = 0x3ff →
      (hackrf_max2837_write env register_number value w).1 ≠ HACKRF_ERROR_INVALID_PARAM ∧
      (hackrf_max2837_write env register_number value w).2.controls
        = w.controls ++ [max2837_write_control register_number value] ∧
      usb_vendor_request_write_max2837
          (setup_of_control (max2837_write_control register_number value))
          usb_transfer_stage_t.USB_TRANSFER_STAGE_SETUP = (false, []) ∧
      usb_vendor_request reg_read
          (setup_of_control (max2837_write_control register_number value))
          usb_transfer_stage_t.USB_TRANSFER_STAGE_SETUP = [vendor_event.usb_endpoint_stall]) := by
  refine ⟨?_, ?_, ?_⟩
  · intro hr hv hrej
    rcases host_max2837_write_cases env register_number value w with
      ⟨_, _, hacc, _⟩ | ⟨hbad, _⟩
    · exact absurd hrej hacc
    · rcases firmware_max2837_write_cases reg_read register_number value hr hv with
        ⟨h1, h2, _, _⟩ | ⟨_, hw, hs⟩
      · omega
      · exact ⟨hw, hs⟩
  · intro hacc hne
    rcases host_max2837_write_cases env register_number value w with
      ⟨h1, h2, _, hc⟩ | ⟨_, hrej⟩
    · rcases firmware_max2837_write_cases reg_read register_number value (by omega) (by omega)
        with ⟨_, _, hw, hs⟩ | ⟨hbad, _, _⟩
      · exact ⟨hc, hw, hs⟩
      · omega
    · rw [hrej] at hacc
      exact absurd rfl hacc
  · intro h1 h2
    rcases host_max2837_write_cases env register_number value w with
      ⟨_, _, hacc, hc⟩ | ⟨hbad, _⟩
    · rcases firmware_max2837_write_cases reg_read register_number value (by omega) (by omega)
        with ⟨_, h3, _, _⟩ | ⟨_, hw, hs⟩
      · omega
      · exact ⟨hacc, hc, hw, hs⟩
    · omega

end HackRF
